import Mathlib

/-! # The example programs of `src/maps`

A shallow embedding of `SceneManager::generateScatteredPoints` (mytest.cpp, lines 308-356)
and of the helper `SceneManager::distance`, of the two `SceneManager` classes
(multi_scene_environment.cpp and mytest.cpp) over a model of the engine's object store,
of the simulation loops of the nine `main` programs, and of the zones and the position
display of multi_zone_environment.cpp.

* `double` values are elements of a linearly ordered field `K` (exact arithmetic).
* The `<cmath>` functions `std::hypot`, `std::cos`, `std::sin` are not part of the
  repository; they are the fields of a `CMath K` record, and their mathematical
  contracts are the predicates `CMath.Euclidean` and `CMath.Pythagorean`.
* The random source is an explicit stream `draws : Nat → K × K`; entry `i` holds the
  values returned by `angle_dist(rng)` and `radius_dist(rng)` in iteration `i`.
  The contract of `uniform_real_distribution(0, radius)` is `DrawsInRange`.
* `int` values are integers; the product `numPoints * 100` is reduced to the 32-bit
  two's-complement range by `wrapInt32`, and `static_cast<size_t>` is `toSizeT`.
-/

set_option linter.unusedVariables false
set_option linter.unusedSectionVars false

namespace ScatterSampler

/-- Struct `Point2D` of mytest.cpp: `double x, y`. -/
structure Point2D (K : Type) where
  x : K
  y : K

/-- The `<cmath>` functions used by the sampler. -/
structure CMath (K : Type) where
  hypot : K → K → K
  cos : K → K
  sin : K → K

/-- Contract of `std::hypot`: the non-negative square root of `a² + b²`. -/
def CMath.Euclidean {K : Type} [LinearOrderedField K] (m : CMath K) : Prop :=
  ∀ a b : K, 0 ≤ m.hypot a b ∧ m.hypot a b * m.hypot a b = a * a + b * b

/-- Contract of `std::cos` and `std::sin` used by the claims: `cos² + sin² = 1`. -/
def CMath.Pythagorean {K : Type} [LinearOrderedField K] (m : CMath K) : Prop :=
  ∀ t : K, m.cos t * m.cos t + m.sin t * m.sin t = 1

/-- Member `distance` of mytest.cpp: `std::hypot(a.x - b.x, a.y - b.y)`. -/
def distance {K : Type} [LinearOrderedField K] (m : CMath K) (a b : Point2D K) : K :=
  m.hypot (a.x - b.x) (a.y - b.y)

/-- Reduction of an integer to the range of a 32-bit `int` (two's complement). -/
def wrapInt32 (z : Int) : Int :=
  (z + 2147483648) % 4294967296 - 2147483648

/-- The conversion `static_cast<size_t>(z)` on a 64-bit target. -/
def toSizeT (z : Int) : Nat :=
  (z % 18446744073709551616).toNat

/-- Largest value of a 32-bit `int`. -/
def INT_MAX : Int := 2147483647

/-- The constant `maxAttempts = numPoints * 100`, computed in `int`. -/
def maxAttempts (numPoints : Int) : Int :=
  wrapInt32 (numPoints * 100)

/-- The candidate `p` built from one draw `(angle, r)`:
`{center.x + r * cos(angle), center.y + r * sin(angle)}`. -/
def candidate {K : Type} [LinearOrderedField K] (m : CMath K) (center : Point2D K)
    (d : K × K) : Point2D K :=
  { x := center.x + d.2 * m.cos d.1
    y := center.y + d.2 * m.sin d.1 }

/-- The inner `for` loop computing `isValid`: it scans the accepted points from the
front and stops at the first one closer than `minDist`. -/
def isValid {K : Type} [LinearOrderedField K] (m : CMath K) (minDist : K) (p : Point2D K) :
    List (Point2D K) → Bool
  | [] => true
  | existing :: rest =>
    if distance m p existing < minDist then false else isValid m minDist p rest

/-- The variables of the sampling loop: the vector `points`, the position of `rng` in
the stream of draws, and the counter `attempts`. -/
structure SamplerState (K : Type) where
  points : List (Point2D K)
  rng : Nat
  attempts : Int

/-- State at loop entry: empty vector, fresh generator, `attempts = 0`. -/
def initState (K : Type) : SamplerState K :=
  { points := [], rng := 0, attempts := 0 }

/-- The loop condition
`points.size() < static_cast<size_t>(numPoints) && attempts < maxAttempts`. -/
def loopGuard {K : Type} (numPoints : Int) (s : SamplerState K) : Bool :=
  decide (s.points.length < toSizeT numPoints) && decide (s.attempts < maxAttempts numPoints)

/-- One execution of the loop body: draw, build the candidate, test it against the
accepted points, `push_back` when valid, `++attempts`. -/
def loopBody {K : Type} [LinearOrderedField K] (m : CMath K) (center : Point2D K)
    (minDist : K) (draws : Nat → K × K) (s : SamplerState K) : SamplerState K :=
  let p := candidate m center (draws s.rng)
  { points := if isValid m minDist p s.points then s.points ++ [p] else s.points
    rng := s.rng + 1
    attempts := s.attempts + 1 }

/-- The `while` loop, with a bound on the number of iterations that are unrolled. -/
def whileLoop {K : Type} [LinearOrderedField K] (m : CMath K) (center : Point2D K)
    (numPoints : Int) (minDist : K) (draws : Nat → K × K) :
    Nat → SamplerState K → SamplerState K
  | 0, s => s
  | fuel + 1, s =>
    if loopGuard numPoints s then
      whileLoop m center numPoints minDist draws fuel (loopBody m center minDist draws s)
    else s

/-- The state in which the loop of `generateScatteredPoints` is left. The loop is
unrolled `maxAttempts` times, which `whileLoop_terminates` shows to be enough. -/
def samplerRun {K : Type} [LinearOrderedField K] (m : CMath K) (center : Point2D K)
    (radius : K) (numPoints : Int) (minDist : K) (draws : Nat → K × K) : SamplerState K :=
  whileLoop m center numPoints minDist draws (maxAttempts numPoints).toNat (initState K)

/-- Member `generateScatteredPoints` of mytest.cpp: the vector `points` it returns.
The argument `radius` is used by the source only to build `radius_dist`, whose outputs
are the second components of `draws`. -/
def generateScatteredPoints {K : Type} [LinearOrderedField K] (m : CMath K)
    (center : Point2D K) (radius : K) (numPoints : Int) (minDist : K)
    (draws : Nat → K × K) : List (Point2D K) :=
  (samplerRun m center radius numPoints minDist draws).points

/-- The state after `k` executions of the loop body from loop entry. -/
def stateAfter {K : Type} [LinearOrderedField K] (m : CMath K) (center : Point2D K)
    (minDist : K) (draws : Nat → K × K) : Nat → SamplerState K
  | 0 => initState K
  | k + 1 => loopBody m center minDist draws (stateAfter m center minDist draws k)

/-- Contract of `radius_dist(rng)`: every radial draw lies in `[0, radius]`. -/
def DrawsInRange {K : Type} [LinearOrderedField K] (radius : K) (draws : Nat → K × K) : Prop :=
  ∀ i : Nat, 0 ≤ (draws i).2 ∧ (draws i).2 ≤ radius

/-- Reference greedy filter, written from the specification (steps 3c and 3d of the
algorithm): scanning the candidates in order, a candidate is rejected if its distance to
any already-accepted point is `< minDistance`, otherwise it is accepted and appended. -/
def specGreedyFilter {K : Type} [LinearOrderedField K] (m : CMath K) (minDistance : K) :
    List (Point2D K) → List (Point2D K) → List (Point2D K)
  | accepted, [] => accepted
  | accepted, c :: rest =>
    if accepted.any (fun a => decide (distance m c a < minDistance)) then
      specGreedyFilter m minDistance accepted rest
    else
      specGreedyFilter m minDistance (accepted ++ [c]) rest

/-- Number of calls of `distance` made by the inner `for` loop that computes `isValid`:
one per scanned point, up to and including the first point closer than `minDist`. -/
def isValidEvals {K : Type} [LinearOrderedField K] (m : CMath K) (minDist : K)
    (p : Point2D K) : List (Point2D K) → Nat
  | [] => 0
  | existing :: rest =>
    if distance m p existing < minDist then 1 else 1 + isValidEvals m minDist p rest

/-- Number of calls of `distance` made during the first `k` executions of the loop
body. -/
def evalsAfter {K : Type} [LinearOrderedField K] (m : CMath K) (center : Point2D K)
    (minDist : K) (draws : Nat → K × K) : Nat → Nat
  | 0 => 0
  | k + 1 =>
    evalsAfter m center minDist draws k +
      isValidEvals m minDist
        (candidate m center (draws (stateAfter m center minDist draws k).rng))
        (stateAfter m center minDist draws k).points

/-- Number of calls of `distance` made by one call of `generateScatteredPoints`. -/
def distanceEvaluations {K : Type} [LinearOrderedField K] (m : CMath K)
    (center : Point2D K) (radius : K) (numPoints : Int) (minDist : K)
    (draws : Nat → K × K) : Nat :=
  evalsAfter m center minDist draws
    (samplerRun m center radius numPoints minDist draws).attempts.toNat

end ScatterSampler

/-! # The engine's object store -/

namespace Raisim

/-- The three mesh files loaded by `addObject` of mytest.cpp:
`Lowpoly_tree_sample.obj`, `Rock.obj`, `stump_4.obj`. -/
inductive MeshFile
  | tree
  | rock
  | stump
  deriving DecidableEq

/-- The kinds of engine objects the example programs create. -/
inductive ObjectKind
  | heightMap
  | ground
  | sphere
  | box
  | cylinder
  | mesh (file : MeshFile)
  | articulatedSystem
  deriving DecidableEq

/-- A call that creates or removes an object of the world. -/
inductive WorldCall
  | add (kind : ObjectKind) (handle : Nat)
  | remove (handle : Nat)
  deriving DecidableEq

/-- Modelled from the spec: the engine class `raisim::World` is not part of the
repository; sections 6 and 9 describe it as the owner of objects that are created by
`add...` calls, known to the programs as opaque handles, and released by a removal call.
The model keeps the live objects, the next fresh handle and the sequence of calls.
Geometry, mass, material, appearance and position arguments are left out. -/
structure World where
  objects : List (Nat × ObjectKind)
  next : Nat
  calls : List WorldCall

/-- A world without objects. -/
def World.empty : World :=
  { objects := [], next := 0, calls := [] }

/-- Modelled from the spec: a call `world.add...(...)`; it creates an object of the given
kind and returns its handle, which was never used before. -/
def World.add (w : World) (kind : ObjectKind) : Nat × World :=
  (w.next,
    { objects := w.objects ++ [(w.next, kind)]
      next := w.next + 1
      calls := w.calls ++ [WorldCall.add kind w.next] })

/-- Modelled from the spec: the call `world.removeObject(obj)`; the object is no longer
in the world afterwards. -/
def World.removeObject (w : World) (handle : Nat) : World :=
  { objects := w.objects.filter (fun o => o.1 != handle)
    next := w.next
    calls := w.calls ++ [WorldCall.remove handle] }

/-- The handles of the live objects. -/
def World.handles (w : World) : List Nat :=
  w.objects.map Prod.fst

/-- The statement `scenes_[idx].push_back(handle)`. -/
def pushBack (scenes : List (List Nat)) (idx : Nat) (handle : Nat) : List (List Nat) :=
  scenes.set idx (scenes.getD idx [] ++ [handle])

/-- The loop `for (auto *obj : objs) world_->removeObject(obj);`. -/
def removeAll (w : World) (objs : List Nat) : World :=
  objs.foldl World.removeObject w

/-- Relation between the world and the scene lists before and after a block of code
that only creates objects and pushes created handles to `scenes_[idx]`: the other lists
are untouched, the calls made are creations, and every new handle is fresh. -/
def Grows (idx : Nat) (w : World) (sc : List (List Nat)) (w' : World)
    (sc' : List (List Nat)) : Prop :=
  sc'.length = sc.length ∧
  (∀ i, i ≠ idx → sc'.getD i [] = sc.getD i []) ∧
  (∃ created, w'.calls = w.calls ++ created ∧
    ∀ c ∈ created, ∃ kind handle, c = WorldCall.add kind handle) ∧
  w.next ≤ w'.next ∧
  (∀ h ∈ w'.handles, h ∈ w.handles ∨ (w.next ≤ h ∧ h < w'.next)) ∧
  (∀ h ∈ sc'.getD idx [], h ∈ sc.getD idx [] ∨ (w.next ≤ h ∧ h < w'.next))

/-- Invariant of a scene manager over a world: there are four scene lists, the current
scene is one of them, every other list is empty, and every handle in a list was handed
out by the world. -/
def SceneInv (w : World) (sc : List (List Nat)) (cur : Int) : Prop :=
  sc.length = 4 ∧ 0 ≤ cur ∧ cur < 4 ∧
  (∀ i, i ≠ ScatterSampler.toSizeT cur → sc.getD i [] = []) ∧
  (∀ i, ∀ h ∈ sc.getD i [], h < w.next)

end Raisim

/-! # The scene manager of `multi_scene_environment.cpp` -/

namespace MultiScene

open Raisim

/-- Class `SceneManager` of multi_scene_environment.cpp; `world_` stands for the world
the pointer refers to. -/
structure SceneManager where
  world_ : World
  scenes_ : List (List Nat)
  currentScene_ : Int

/-- The constructor: `currentScene_(0)` and `scenes_.resize(4)`. -/
def SceneManager.new (world : World) : SceneManager :=
  { world_ := world, scenes_ := List.replicate 4 [], currentScene_ := 0 }

/-- The pattern `auto obj = world_->add...(...); scenes_[idx].push_back(obj);`. -/
def addToScene (s : SceneManager) (kind : ObjectKind) (idx : Nat) : SceneManager :=
  { s with
    world_ := (s.world_.add kind).2
    scenes_ := pushBack s.scenes_ idx (s.world_.add kind).1 }

/-- A loop `for (int i = 0; i < n; i++)` whose body adds one object to `scenes_[idx]`. -/
def addMany (kind : ObjectKind) (idx : Nat) : Nat → SceneManager → SceneManager
  | 0, s => s
  | n + 1, s => addMany kind idx n (addToScene s kind idx)

/-- Member `createMountainScene`: one height map and ten rocks (spheres), in
`scenes_[0]`. -/
def createMountainScene (s : SceneManager) : SceneManager :=
  addMany ObjectKind.sphere 0 10 (addToScene s ObjectKind.heightMap 0)

/-- The building loops of `createUrbanScene`: a box at every cell `(x, y)` of the
5 x 5 grid with `(x + y) % 2 == 0`. -/
def addBuildings (s : SceneManager) : SceneManager :=
  (List.range 5).foldl
    (fun acc x =>
      (List.range 5).foldl
        (fun acc2 y => if (x + y) % 2 = 0 then addToScene acc2 ObjectKind.box 1 else acc2)
        acc)
    s

/-- Member `createUrbanScene`: the ground, the buildings and twenty cars (boxes), in
`scenes_[1]`. -/
def createUrbanScene (s : SceneManager) : SceneManager :=
  addMany ObjectKind.box 1 20 (addBuildings (addToScene s ObjectKind.ground 1))

/-- Member `createDesertScene`: one height map and fifteen cacti (cylinders), in
`scenes_[2]`. -/
def createDesertScene (s : SceneManager) : SceneManager :=
  addMany ObjectKind.cylinder 2 15 (addToScene s ObjectKind.heightMap 2)

/-- Member `createIceScene`: one height map and twelve icicles (cylinders), in
`scenes_[3]`. -/
def createIceScene (s : SceneManager) : SceneManager :=
  addMany ObjectKind.cylinder 3 12 (addToScene s ObjectKind.heightMap 3)

/-- Member `clearCurrentScene`; the comparison `currentScene_ < scenes_.size()` is made
after conversion of `currentScene_` to `size_t`. -/
def clearCurrentScene (s : SceneManager) : SceneManager :=
  if ScatterSampler.toSizeT s.currentScene_ < s.scenes_.length then
    { s with
      world_ := removeAll s.world_
        (s.scenes_.getD (ScatterSampler.toSizeT s.currentScene_) [])
      scenes_ := s.scenes_.set (ScatterSampler.toSizeT s.currentScene_) [] }
  else s

/-- The `switch (sceneId)` of `switchToScene`. -/
def createScene (sceneId : Int) (s : SceneManager) : SceneManager :=
  if sceneId = 0 then createMountainScene s
  else if sceneId = 1 then createUrbanScene s
  else if sceneId = 2 then createDesertScene s
  else if sceneId = 3 then createIceScene s
  else s

/-- Member `switchToScene`. -/
def switchToScene (s : SceneManager) (sceneId : Int) : SceneManager :=
  if sceneId < 0 ∨ sceneId ≥ 4 then s
  else createScene sceneId { clearCurrentScene s with currentScene_ := sceneId }

/-- Member `getCurrentScene`. -/
def getCurrentScene (s : SceneManager) : Int :=
  s.currentScene_

/-- The states a `SceneManager` can be in: constructed over some world, then any
sequence of `switchToScene` calls and of object creations and removals made on the world
by other code. -/
inductive Reachable : SceneManager → Prop
  | construct (w : World) : Reachable (SceneManager.new w)
  | switch (s : SceneManager) (sceneId : Int) :
      Reachable s → Reachable (switchToScene s sceneId)
  | worldAdd (s : SceneManager) (kind : ObjectKind) :
      Reachable s → Reachable { s with world_ := (s.world_.add kind).2 }
  | worldRemove (s : SceneManager) (handle : Nat) :
      Reachable s → Reachable { s with world_ := s.world_.removeObject handle }

/-- The variable `sceneChangeInterval` of `main`. -/
def sceneChangeInterval : Int := 10000

/-- The manager of `main` together with a record of the scene switches made by the
simulation loop: the loop index, the argument passed to `switchToScene` and the value of
`getCurrentScene()` after the call. -/
structure MainState where
  mgr : SceneManager
  switches : List (Int × Int × Int)

/-- The manager when the simulation loop of `main` is entered: constructed over the
empty world, the robot added, then `switchToScene(0)`. -/
def mainInit : SceneManager :=
  switchToScene
    { SceneManager.new World.empty with
      world_ := (World.empty.add ObjectKind.articulatedSystem).2 } 0

/-- The scene-switch trigger of the simulation loop:
`int nextScene = (sceneManager.getCurrentScene() + 1) % 4;
sceneManager.switchToScene(nextScene);`. -/
def trigger (s : SceneManager) : SceneManager :=
  switchToScene s (Int.tmod (getCurrentScene s + 1) 4)

/-- The body of the simulation loop at index `i`; the engine step
`integrateWorldThreadSafe` creates and removes no object. -/
def loopStep (i : Int) (st : MainState) : MainState :=
  if 0 < i ∧ Int.tmod i sceneChangeInterval = 0 then
    { mgr := trigger st.mgr
      switches := st.switches ++
        [(i, Int.tmod (getCurrentScene st.mgr + 1) 4, getCurrentScene (trigger st.mgr))] }
  else st

/-- The state after the iterations `i = 0, ..., n - 1` of the simulation loop. -/
def simLoop : Nat → MainState → MainState
  | 0, st => st
  | n + 1, st => loopStep (n : Int) (simLoop n st)

/-- The loop `for (int i = 0; i < 80000; i++)` of `main`, run to its end. -/
def mainRun : MainState :=
  simLoop 80000 { mgr := mainInit, switches := [] }

end MultiScene

/-! # The scene manager of `mytest.cpp` -/

namespace MyTest

open Raisim ScatterSampler

/-- Class `SceneManager` of mytest.cpp; `world_` stands for the world the pointer refers
to, `currentHeightMap_` and `robot_` are handles or null. The members `server_` and
`binaryPath_` are left out. -/
structure SceneManager (K : Type) where
  world_ : World
  scenes_ : List (List Nat)
  currentScene_ : Int
  currentHeightMap_ : Option Nat
  robot_ : Option Nat
  robotPosition_ : K × K × K
  robotOrientation_ : K × K × K × K

/-- The constructor: `currentScene_(0)` and `scenes_.resize(4)`. The members without an
initializer start with the indeterminate values passed as arguments. -/
def SceneManager.new {K : Type} (world : World) (heightMap0 robot0 : Option Nat)
    (position0 : K × K × K) (orientation0 : K × K × K × K) : SceneManager K :=
  { world_ := world
    scenes_ := List.replicate 4 []
    currentScene_ := 0
    currentHeightMap_ := heightMap0
    robot_ := robot0
    robotPosition_ := position0
    robotOrientation_ := orientation0 }

/-- Member `createHillScene`: a height map, stored in `currentHeightMap_` and in
`scenes_[0]`. -/
def createHillScene {K : Type} (s : SceneManager K) : SceneManager K :=
  { s with
    world_ := (s.world_.add ObjectKind.heightMap).2
    currentHeightMap_ := some (s.world_.add ObjectKind.heightMap).1
    scenes_ := pushBack s.scenes_ 0 (s.world_.add ObjectKind.heightMap).1 }

/-- Member `createLakeScene`: a height map, stored in `currentHeightMap_` and in
`scenes_[1]`. -/
def createLakeScene {K : Type} (s : SceneManager K) : SceneManager K :=
  { s with
    world_ := (s.world_.add ObjectKind.heightMap).2
    currentHeightMap_ := some (s.world_.add ObjectKind.heightMap).1
    scenes_ := pushBack s.scenes_ 1 (s.world_.add ObjectKind.heightMap).1 }

/-- Member `createMountainScene`: a height map, stored in `currentHeightMap_` and in
`scenes_[2]`. -/
def createMountainScene {K : Type} (s : SceneManager K) : SceneManager K :=
  { s with
    world_ := (s.world_.add ObjectKind.heightMap).2
    currentHeightMap_ := some (s.world_.add ObjectKind.heightMap).1
    scenes_ := pushBack s.scenes_ 2 (s.world_.add ObjectKind.heightMap).1 }

/-- Member `createWheatScene`: a flat height map in `scenes_[3]`; the member
`currentHeightMap_` is not assigned. -/
def createWheatScene {K : Type} (s : SceneManager K) : SceneManager K :=
  { s with
    world_ := (s.world_.add ObjectKind.heightMap).2
    scenes_ := pushBack s.scenes_ 3 (s.world_.add ObjectKind.heightMap).1 }

/-- Member `clearCurrentScene`; the comparison `currentScene_ < scenes_.size()` is made
after conversion of `currentScene_` to `size_t`. -/
def clearCurrentScene {K : Type} (s : SceneManager K) : SceneManager K :=
  if toSizeT s.currentScene_ < s.scenes_.length then
    { s with
      world_ := removeAll s.world_ (s.scenes_.getD (toSizeT s.currentScene_) [])
      scenes_ := s.scenes_.set (toSizeT s.currentScene_) [] }
  else s

/-- The `switch (sceneId)` of `switchToScene`. -/
def createScene {K : Type} (sceneId : Int) (s : SceneManager K) : SceneManager K :=
  if sceneId = 0 then createHillScene s
  else if sceneId = 1 then createLakeScene s
  else if sceneId = 2 then createMountainScene s
  else if sceneId = 3 then createWheatScene s
  else s

/-- Member `switchToScene`. -/
def switchToScene {K : Type} (s : SceneManager K) (sceneId : Int) : SceneManager K :=
  if sceneId < 0 ∨ sceneId ≥ 4 then s
  else createScene sceneId { clearCurrentScene s with currentScene_ := sceneId }

/-- Member `getCurrentScene`. -/
def getCurrentScene {K : Type} (s : SceneManager K) : Int :=
  s.currentScene_

/-- Member `addRobot`. -/
def addRobot {K : Type} (s : SceneManager K) : SceneManager K :=
  { s with
    world_ := (s.world_.add ObjectKind.articulatedSystem).2
    robot_ := some (s.world_.add ObjectKind.articulatedSystem).1 }

/-- Member `getTerrainHeightAt`, with `offSet = 5.0`; `getHeight` is the engine's
`HeightMap::getHeight`. The narrowing of the arguments to `float` is not modelled. -/
def getTerrainHeightAt {K : Type} [LinearOrderedField K] (getHeight : Nat → K → K → K)
    (s : SceneManager K) (worldX worldY : K) : K :=
  match s.currentHeightMap_ with
  | some heightMap => getHeight heightMap worldX worldY + 5
  | none => 0

/-- The default height announced by the message of `getTerrainHeightAt`:
`"No heightmap, return default height: 1"`. -/
def announcedDefaultHeight : Nat := 1

/-- Member `setRobotInitialState`. -/
def setRobotInitialState {K : Type} [LinearOrderedField K] (getHeight : Nat → K → K → K)
    (s : SceneManager K) (pos_xy : K × K) (ori : K × K × K × K) : SceneManager K :=
  { s with
    robotPosition_ :=
      (pos_xy.1, pos_xy.2, getTerrainHeightAt getHeight s pos_xy.1 pos_xy.2 + 1)
    robotOrientation_ := ori }

/-- Member `initializeRobot`: it configures the robot inside the engine and changes no
member of the manager and no object of the world. -/
def initializeRobot {K : Type} (s : SceneManager K) : SceneManager K :=
  s

/-- Member `generateScatteredPoints` as a method of the manager: the returned vector and
the manager after the call. Its body names no data member. -/
def generateScatteredPointsOn {K : Type} [LinearOrderedField K] (m : CMath K)
    (self : SceneManager K) (center : Point2D K) (radius : K) (numPoints : Int)
    (minDist : K) (draws : Nat → K × K) : List (Point2D K) × SceneManager K :=
  (generateScatteredPoints m center radius numPoints minDist draws, self)

/-- The pattern `obj = world_->add...(...); scenes_[currentScene_].push_back(obj);`. -/
def addToCurrent {K : Type} (s : SceneManager K) (kind : ObjectKind) : SceneManager K :=
  { s with
    world_ := (s.world_.add kind).2
    scenes_ := pushBack s.scenes_ (toSizeT s.currentScene_) (s.world_.add kind).1 }

/-- The mesh chosen by `idx % 3` in `addObject`: tree, rock, stump. -/
def meshFile (idx : Int) : MeshFile :=
  if Int.tmod idx 3 = 0 then MeshFile.tree
  else if Int.tmod idx 3 = 1 then MeshFile.rock
  else MeshFile.stump

/-- The loop `for (const auto &p : points)` of `addObject`, with
`spaceAreaRadius = 2`: points closer than that to the centre are skipped, every other
point gets a mesh, pushed to `scenes_[currentScene_]`, and increases `idx`. -/
def obstacleLoop {K : Type} [LinearOrderedField K] (m : CMath K)
    (obstacleAreaCenter : Point2D K) : List (Point2D K) → Int → SceneManager K →
    SceneManager K
  | [], _, s => s
  | p :: rest, idx, s =>
    if distance m p obstacleAreaCenter < 2 then
      obstacleLoop m obstacleAreaCenter rest idx s
    else
      obstacleLoop m obstacleAreaCenter rest (idx + 1)
        (addToCurrent s (ObjectKind.mesh (meshFile idx)))

/-- The manager of `addObject` when the obstacle loop is entered: the three axis boxes
and the marker sphere are created, the sphere is in `scenes_[currentScene_]`. -/
def addMarkers {K : Type} (s : SceneManager K) : SceneManager K :=
  { s with
    world_ := ((((s.world_.add ObjectKind.box).2.add ObjectKind.box).2.add
      ObjectKind.box).2.add ObjectKind.sphere).2
    scenes_ := pushBack s.scenes_ (toSizeT s.currentScene_)
      ((((s.world_.add ObjectKind.box).2.add ObjectKind.box).2.add
        ObjectKind.box).2.add ObjectKind.sphere).1 }

/-- The vector `points` of `addObject`: `obstacleNum = 100`, `obstacleInterval = 3`,
`obstacleAreaRadius = 15`, centre at the robot position. -/
def obstaclePoints {K : Type} [LinearOrderedField K] (m : CMath K) (draws : Nat → K × K)
    (s : SceneManager K) : List (Point2D K) :=
  (generateScatteredPointsOn m (addMarkers s)
    { x := s.robotPosition_.1, y := s.robotPosition_.2.1 } 15 100 3 draws).1

/-- Member `addObject`: the manager after the call and the number printed by
`"Successfully generated " << points.size() << " obstacles"`. -/
def addObject {K : Type} [LinearOrderedField K] (m : CMath K) (draws : Nat → K × K)
    (s : SceneManager K) : SceneManager K × Nat :=
  let b_x := (s.world_.add ObjectKind.box).1
  let b_y := ((s.world_.add ObjectKind.box).2.add ObjectKind.box).1
  let b_z := (((s.world_.add ObjectKind.box).2.add ObjectKind.box).2.add ObjectKind.box).1
  let points := obstaclePoints m draws s
  let s2 := obstacleLoop m { x := s.robotPosition_.1, y := s.robotPosition_.2.1 } points 0
    (generateScatteredPointsOn m (addMarkers s)
      { x := s.robotPosition_.1, y := s.robotPosition_.2.1 } 15 100 3 draws).2
  ({ s2 with
      scenes_ := pushBack (pushBack (pushBack s2.scenes_ (toSizeT s2.currentScene_) b_x)
        (toSizeT s2.currentScene_) b_y) (toSizeT s2.currentScene_) b_z },
    points.length)

/-- The number of obstacle meshes among the live objects of a world. -/
def meshCount (w : World) : Nat :=
  (w.objects.filter (fun o =>
    o.2 = ObjectKind.mesh MeshFile.tree ∨ o.2 = ObjectKind.mesh MeshFile.rock ∨
      o.2 = ObjectKind.mesh MeshFile.stump)).length

/-- The states a `SceneManager` can be in: constructed over some world, then any
sequence of calls of its members and of object creations and removals made on the world
by other code. -/
inductive Reachable {K : Type} [LinearOrderedField K] (m : CMath K)
    (getHeight : Nat → K → K → K) : SceneManager K → Prop
  | construct (w : World) (heightMap0 robot0 : Option Nat) (position0 : K × K × K)
      (orientation0 : K × K × K × K) :
      Reachable m getHeight (SceneManager.new w heightMap0 robot0 position0 orientation0)
  | switch (s : SceneManager K) (sceneId : Int) :
      Reachable m getHeight s → Reachable m getHeight (switchToScene s sceneId)
  | addObject (s : SceneManager K) (draws : Nat → K × K) :
      Reachable m getHeight s → Reachable m getHeight (addObject m draws s).1
  | addRobot (s : SceneManager K) :
      Reachable m getHeight s → Reachable m getHeight (addRobot s)
  | setRobotInitialState (s : SceneManager K) (pos_xy : K × K) (ori : K × K × K × K) :
      Reachable m getHeight s →
      Reachable m getHeight (setRobotInitialState getHeight s pos_xy ori)
  | worldAdd (s : SceneManager K) (kind : ObjectKind) :
      Reachable m getHeight s →
      Reachable m getHeight { s with world_ := (s.world_.add kind).2 }
  | worldRemove (s : SceneManager K) (handle : Nat) :
      Reachable m getHeight s →
      Reachable m getHeight { s with world_ := s.world_.removeObject handle }

/-- The variables of `main` used by the scene-switch trigger: the manager and the
pointer `ground` (a handle or null). -/
structure MainState (K : Type) where
  mgr : SceneManager K
  ground : Option Nat

/-- The branch of the simulation loop taken when Enter was pressed
(`keyPressed && keyInput == '\n'`): the initial ground is removed if still present,
`nextScene` is computed as `(getCurrentScene() + 1) % 4` and then overwritten by `0`,
the scene is switched, the robot initialised and the objects added. -/
def onEnter {K : Type} [LinearOrderedField K] (m : CMath K) (draws : Nat → K × K)
    (st : MainState K) : MainState K :=
  let mgr1 : SceneManager K :=
    match st.ground with
    | some g => { st.mgr with world_ := st.mgr.world_.removeObject g }
    | none => st.mgr
  let nextScene : Int := Int.tmod (getCurrentScene mgr1 + 1) 4
  let nextScene : Int := 0
  { mgr := (addObject m draws (initializeRobot (switchToScene mgr1 nextScene))).1
    ground := none }

/-- The state of `main` when the simulation loop is entered: the ground height map is
created, the robot added and placed at `(10, 10)`, the objects added. -/
def mainInit {K : Type} [LinearOrderedField K] (m : CMath K) (getHeight : Nat → K → K → K)
    (draws : Nat → K × K) (heightMap0 robot0 : Option Nat) (position0 : K × K × K)
    (orientation0 : K × K × K × K) (quaternion : K × K × K × K) : MainState K :=
  let world := World.empty.add ObjectKind.heightMap
  let mgr0 : SceneManager K :=
    SceneManager.new world.2 heightMap0 robot0 position0 orientation0
  { mgr := (addObject m draws
      (initializeRobot
        (setRobotInitialState getHeight (addRobot mgr0) (10, 10) quaternion))).1
    ground := some world.1 }

end MyTest

/-! # The simulation loops of the example programs -/

namespace Programs

/-- The nine example programs of `src/maps`. -/
inductive Example
  | advanced_custom_environment
  | anymals
  | anymals_custom_terrain
  | custom_environment
  | hill1_with_materials
  | multi_scene_environment
  | multi_zone_environment
  | mytest
  | simple_multi_scene
  deriving DecidableEq

/-- The condition of the loop of `main` that calls `integrateWorldThreadSafe`, as a
function of the loop counter `i`: `i < 200000000` in anymals.cpp, `i < 80000` in
multi_scene_environment.cpp, `true` (`while (true)`) in mytest.cpp, `i < 2000000` in the
other programs. No loop body contains `break` or `return`. -/
def loopCondition : Example → Int → Bool
  | Example.anymals, i => decide (i < 200000000)
  | Example.multi_scene_environment, i => decide (i < 80000)
  | Example.mytest, _ => true
  | _, i => decide (i < 2000000)

/-- Execution of `main` from the entry of the simulation loop, unrolled at most `fuel`
times: `some n` when control leaves the loop and reaches `server.killServer()` after `n`
calls of `integrateWorldThreadSafe`, `none` when the loop is still running. -/
def runLoop (p : Example) : Nat → Int → Nat → Option Nat
  | 0, i, calls => if loopCondition p i then none else some calls
  | fuel + 1, i, calls =>
    if loopCondition p i then runLoop p fuel (i + 1) (calls + 1) else some calls

end Programs

/-! # Scene contents in both scene managers -/

namespace MultiScene

open Raisim

/-- A sequence of `auto obj = world_->add...(...); scenes_[idx].push_back(obj);` steps,
one for each kind of the list, in order. -/
def addKinds (kinds : List ObjectKind) (idx : Nat) (s : SceneManager) : SceneManager :=
  kinds.foldl (fun acc kind => addToScene acc kind idx) s

/-- The grid cells `(x, y)` visited by the building loops of `createUrbanScene` that get
a building: those with `(x + y) % 2 == 0`, in loop order. -/
def buildingCells : List (Nat × Nat) :=
  (List.range 5).flatMap (fun x =>
    ((List.range 5).filter (fun y => (x + y) % 2 = 0)).map (fun y => (x, y)))

/-- The kinds of the objects of each scene, in the order in which the `create...Scene`
member creates them. -/
def sceneKinds (sceneId : Int) : List ObjectKind :=
  if sceneId = 0 then ObjectKind.heightMap :: List.replicate 10 ObjectKind.sphere
  else if sceneId = 1 then
    ObjectKind.ground ::
      (buildingCells.map (fun _ => ObjectKind.box) ++ List.replicate 20 ObjectKind.box)
  else if sceneId = 2 then ObjectKind.heightMap :: List.replicate 15 ObjectKind.cylinder
  else if sceneId = 3 then ObjectKind.heightMap :: List.replicate 12 ObjectKind.cylinder
  else []

end MultiScene

namespace MyTest

open Raisim ScatterSampler

/-- A sequence of `obj = world_->add...(...); scenes_[currentScene_].push_back(obj);`
steps, one for each kind of the list, in order. -/
def addKindsCurrent {K : Type} (kinds : List ObjectKind) (s : SceneManager K) :
    SceneManager K :=
  kinds.foldl addToCurrent s

/-- The meshes placed by the loop `for (const auto &p : points)` of `addObject`, in
order: the point the mesh is positioned at and the mesh file chosen by `idx % 3`. A point
closer than `spaceAreaRadius = 2` to the centre is skipped and leaves `idx` alone. -/
def obstaclePlacements {K : Type} [LinearOrderedField K] (m : CMath K)
    (obstacleAreaCenter : Point2D K) : List (Point2D K) → Int →
    List (Point2D K × MeshFile)
  | [], _ => []
  | p :: rest, idx =>
    if distance m p obstacleAreaCenter < 2 then
      obstaclePlacements m obstacleAreaCenter rest idx
    else
      (p, meshFile idx) :: obstaclePlacements m obstacleAreaCenter rest (idx + 1)

end MyTest

/-! # The zones and the position display of `multi_zone_environment.cpp` -/

namespace MultiZone

/-- The values of the string `zone` in the simulation loop. -/
inductive Zone
  | unknown
  | mountain
  | urban
  | desert
  | ice
  deriving DecidableEq

/-- The zone classification of the simulation loop: `zone` starts as `"Unknown"` and is
set by the chain of four `if` / `else if` tests on the robot position `(x, y)`. -/
def classify {K : Type} [LinearOrderedField K] (x y : K) : Zone :=
  if x < 0 ∧ y < 0 then Zone.mountain
  else if x ≥ 0 ∧ y < 0 then Zone.urban
  else if x < 0 ∧ y ≥ 0 then Zone.desert
  else if x ≥ 0 ∧ y ≥ 0 then Zone.ice
  else Zone.unknown

/-- An axis-parallel square of the ground plane, from `(xMin, yMin)` to
`(xMax, yMax)`. -/
structure Square (K : Type) where
  xMin : K
  yMin : K
  xMax : K
  yMax : K

/-- The ground piece of a zone as `main` creates it: its centre and its side lengths. -/
structure Terrain (K : Type) where
  centerX : K
  centerY : K
  xSize : K
  ySize : K

/-- The terrain of each zone: the height maps
`addHeightMap(100, 100, 100, 100, -50, -50, ...)`, `(..., -50, 50, ...)`,
`(..., 50, 50, ...)` of the mountain, desert and ice zones, and the box
`addBox(100, 100, 1.0, ...)` positioned at `(50, -50, -0.5)` of the urban zone. -/
def zoneTerrain {K : Type} [LinearOrderedField K] : Zone → Terrain K
  | Zone.mountain => { centerX := -50, centerY := -50, xSize := 100, ySize := 100 }
  | Zone.urban => { centerX := 50, centerY := -50, xSize := 100, ySize := 100 }
  | Zone.desert => { centerX := -50, centerY := 50, xSize := 100, ySize := 100 }
  | Zone.ice => { centerX := 50, centerY := 50, xSize := 100, ySize := 100 }
  | Zone.unknown => { centerX := 0, centerY := 0, xSize := 0, ySize := 0 }

/-- Modelled from the spec: the engine is not part of the repository; a height map or
box with the given centre and side lengths (the "physical extents" and "origin offset"
of section 6) covers the square centre plus or minus half the side length. -/
def Terrain.footprint {K : Type} [LinearOrderedField K] (t : Terrain K) : Square K :=
  { xMin := t.centerX - t.xSize / 2
    yMin := t.centerY - t.ySize / 2
    xMax := t.centerX + t.xSize / 2
    yMax := t.centerY + t.ySize / 2 }

/-- The zone layout printed by `main`: `Mountain Zone: (-100,-100) to (0,0)`,
`Urban Zone: (0,-100) to (100,0)`, `Desert Zone: (-100,0) to (0,100)`,
`Ice Zone: (0,0) to (100,100)`. -/
def printedLayout {K : Type} [LinearOrderedField K] : Zone → Square K
  | Zone.mountain => { xMin := -100, yMin := -100, xMax := 0, yMax := 0 }
  | Zone.urban => { xMin := 0, yMin := -100, xMax := 100, yMax := 0 }
  | Zone.desert => { xMin := -100, yMin := 0, xMax := 0, yMax := 100 }
  | Zone.ice => { xMin := 0, yMin := 0, xMax := 100, yMax := 100 }
  | Zone.unknown => { xMin := 0, yMin := 0, xMax := 0, yMax := 0 }

/-- A point lies in a square, borders included. -/
def Square.contains {K : Type} [LinearOrderedField K] (q : Square K) (x y : K) : Prop :=
  q.xMin ≤ x ∧ x ≤ q.xMax ∧ q.yMin ≤ y ∧ q.yMax ≥ y

/-- Whether iteration `i` of the simulation loop prints the line
`"Robot in <zone> zone at (x, y)"`: the statement is inside `if (i % 5000 == 0)`, which
is inside `if (i % 1000 == 0)`. -/
def printsAt (i : Int) : Bool :=
  if Int.tmod i 1000 = 0 then
    if Int.tmod i 5000 = 0 then true else false
  else false

/-- The period announced by the comment above the outer test: the position information
is displayed every 1000 steps. -/
def announcedPeriod : Int := 1000

end MultiZone

namespace ScatterSampler

/-! ## Basic facts about the loop -/

section Loop

variable {K : Type} [LinearOrderedField K]

theorem isValid_eq_true_iff (m : CMath K) (minDist : K) (p : Point2D K)
    (pts : List (Point2D K)) :
    isValid m minDist p pts = true ↔ ∀ e ∈ pts, minDist ≤ distance m p e := by
  induction pts with
  | nil => simp [isValid]
  | cons e rest ih =>
    by_cases h : distance m p e < minDist
    · simp [isValid, h]
    · simp [isValid, h, ih, not_lt.mp h]

theorem isValid_eq_false_iff (m : CMath K) (minDist : K) (p : Point2D K)
    (pts : List (Point2D K)) :
    isValid m minDist p pts = false ↔ ∃ e ∈ pts, distance m p e < minDist := by
  rw [← Bool.not_eq_true, isValid_eq_true_iff]
  push_neg
  rfl

theorem distance_comm (m : CMath K) (hm : m.Euclidean) (a b : Point2D K) :
    distance m a b = distance m b a := by
  unfold distance
  have h1 := hm (a.x - b.x) (a.y - b.y)
  have h2 := hm (b.x - a.x) (b.y - a.y)
  have hsq : m.hypot (a.x - b.x) (a.y - b.y) * m.hypot (a.x - b.x) (a.y - b.y)
      = m.hypot (b.x - a.x) (b.y - a.y) * m.hypot (b.x - a.x) (b.y - a.y) := by
    rw [h1.2, h2.2]; ring
  exact (mul_self_inj h1.1 h2.1).mp hsq

theorem distance_nonneg (m : CMath K) (hm : m.Euclidean) (a b : Point2D K) :
    0 ≤ distance m a b :=
  (hm _ _).1

theorem stateAfter_attempts (m : CMath K) (center : Point2D K) (minDist : K)
    (draws : Nat → K × K) (k : Nat) :
    (stateAfter m center minDist draws k).attempts = (k : Int) := by
  induction k with
  | zero => rfl
  | succ k ih => simp [stateAfter, loopBody, ih]

theorem stateAfter_rng (m : CMath K) (center : Point2D K) (minDist : K)
    (draws : Nat → K × K) (k : Nat) :
    (stateAfter m center minDist draws k).rng = k := by
  induction k with
  | zero => rfl
  | succ k ih => simp [stateAfter, loopBody, ih]

theorem stateAfter_succ_points (m : CMath K) (center : Point2D K) (minDist : K)
    (draws : Nat → K × K) (k : Nat) :
    (stateAfter m center minDist draws (k + 1)).points =
      if isValid m minDist (candidate m center (draws k))
          (stateAfter m center minDist draws k).points
      then (stateAfter m center minDist draws k).points ++ [candidate m center (draws k)]
      else (stateAfter m center minDist draws k).points := by
  simp [stateAfter, loopBody, stateAfter_rng]

theorem stateAfter_length_succ_le (m : CMath K) (center : Point2D K) (minDist : K)
    (draws : Nat → K × K) (k : Nat) :
    (stateAfter m center minDist draws (k + 1)).points.length ≤
      (stateAfter m center minDist draws k).points.length + 1 := by
  rw [stateAfter_succ_points]
  split <;> simp

theorem stateAfter_length_le (m : CMath K) (center : Point2D K) (minDist : K)
    (draws : Nat → K × K) (k : Nat) :
    (stateAfter m center minDist draws k).points.length ≤ k := by
  induction k with
  | zero => simp [stateAfter, initState]
  | succ k ih =>
    have := stateAfter_length_succ_le m center minDist draws k
    omega

/-- The loop, started in the state reached after `j` iterations, stops in the state
reached after `j + k` iterations, where the guard held before each of the `k`
iterations and fails afterwards unless the unrolling bound was reached. -/
theorem whileLoop_spec (m : CMath K) (center : Point2D K) (numPoints : Int) (minDist : K)
    (draws : Nat → K × K) (fuel j : Nat) :
    ∃ k, k ≤ fuel ∧
      whileLoop m center numPoints minDist draws fuel (stateAfter m center minDist draws j)
        = stateAfter m center minDist draws (j + k) ∧
      (∀ i, i < k → loopGuard numPoints (stateAfter m center minDist draws (j + i)) = true) ∧
      (k < fuel → loopGuard numPoints (stateAfter m center minDist draws (j + k)) = false) := by
  induction fuel generalizing j with
  | zero => exact ⟨0, le_refl _, rfl, fun i hi => absurd hi (Nat.not_lt_zero i), fun h => absurd h (lt_irrefl _)⟩
  | succ fuel ih =>
    by_cases hg : loopGuard numPoints (stateAfter m center minDist draws j) = true
    · obtain ⟨k, hk, heq, hbefore, hafter⟩ := ih (j + 1)
      refine ⟨k + 1, Nat.succ_le_succ hk, ?_, ?_, ?_⟩
      · simp only [whileLoop, hg, if_true]
        have : loopBody m center minDist draws (stateAfter m center minDist draws j)
            = stateAfter m center minDist draws (j + 1) := rfl
        rw [this, heq]
        congr 1
        omega
      · intro i hi
        cases i with
        | zero => simpa using hg
        | succ i =>
          have := hbefore i (by omega)
          have e : j + (i + 1) = j + 1 + i := by omega
          rw [e]; exact this
      · intro hlt
        have := hafter (by omega)
        have e : j + (k + 1) = j + 1 + k := by omega
        rw [e]; exact this
    · refine ⟨0, Nat.zero_le _, ?_, fun i hi => absurd hi (Nat.not_lt_zero i), ?_⟩
      · simp [whileLoop, hg]
      · intro _
        simpa using hg

/-- The guard fails once `attempts` has reached `maxAttempts`. -/
theorem loopGuard_false_of_attempts (numPoints : Int) (s : SamplerState K)
    (h : maxAttempts numPoints ≤ s.attempts) : loopGuard numPoints s = false := by
  simp [loopGuard, not_lt.mpr h]

/-- Unrolling the loop at least `maxAttempts` times reaches a state in which the guard
fails: the state after `k` iterations, for the least `k` at which the guard fails. -/
theorem whileLoop_terminates (m : CMath K) (center : Point2D K) (numPoints : Int)
    (minDist : K) (draws : Nat → K × K) (fuel : Nat)
    (hfuel : (maxAttempts numPoints).toNat ≤ fuel) :
    ∃ k, k ≤ (maxAttempts numPoints).toNat ∧
      whileLoop m center numPoints minDist draws fuel (initState K)
        = stateAfter m center minDist draws k ∧
      (∀ i, i < k → loopGuard numPoints (stateAfter m center minDist draws i) = true) ∧
      loopGuard numPoints (stateAfter m center minDist draws k) = false := by
  obtain ⟨k, hk, heq, hbefore, hafter⟩ := whileLoop_spec m center numPoints minDist draws fuel 0
  simp only [Nat.zero_add] at heq hbefore hafter
  have hinit : stateAfter m center minDist draws 0 = initState K := rfl
  rw [hinit] at heq
  by_cases hlt : k < (maxAttempts numPoints).toNat
  · exact ⟨k, le_of_lt hlt, heq, hbefore, hafter (by omega)⟩
  · have hge : (maxAttempts numPoints).toNat ≤ k := not_lt.mp hlt
    have hfalse : loopGuard numPoints (stateAfter m center minDist draws k) = false := by
      apply loopGuard_false_of_attempts
      rw [stateAfter_attempts]
      omega
    have hkeq : k = (maxAttempts numPoints).toNat := by
      by_contra hne
      have hlt2 : (maxAttempts numPoints).toNat < k := by omega
      have hg := hbefore _ hlt2
      have hf : loopGuard numPoints
          (stateAfter m center minDist draws (maxAttempts numPoints).toNat) = false := by
        apply loopGuard_false_of_attempts
        rw [stateAfter_attempts]
        omega
      rw [hf] at hg
      exact Bool.false_ne_true hg
    exact ⟨k, le_of_eq hkeq, heq, hbefore, hfalse⟩

/-- The run of the sampler as the state after the least number of iterations at which
the guard fails. -/
theorem samplerRun_spec (m : CMath K) (center : Point2D K) (radius : K) (numPoints : Int)
    (minDist : K) (draws : Nat → K × K) :
    ∃ k, k ≤ (maxAttempts numPoints).toNat ∧
      samplerRun m center radius numPoints minDist draws
        = stateAfter m center minDist draws k ∧
      (∀ i, i < k → loopGuard numPoints (stateAfter m center minDist draws i) = true) ∧
      loopGuard numPoints (stateAfter m center minDist draws k) = false :=
  whileLoop_terminates m center numPoints minDist draws _ (le_refl _)

theorem loopGuard_eq_true_iff (numPoints : Int) (s : SamplerState K) :
    loopGuard numPoints s = true ↔
      s.points.length < toSizeT numPoints ∧ s.attempts < maxAttempts numPoints := by
  simp [loopGuard]

/-- Evaluation of the loop: if the guard holds before each of the next `k` iterations
and fails after them, then any unrolling of at least `k` iterations stops there. -/
theorem whileLoop_eq_of_guard (m : CMath K) (center : Point2D K) (numPoints : Int)
    (minDist : K) (draws : Nat → K × K) (k fuel j : Nat)
    (hbefore : ∀ i, i < k →
      loopGuard numPoints (stateAfter m center minDist draws (j + i)) = true)
    (hafter : loopGuard numPoints (stateAfter m center minDist draws (j + k)) = false)
    (hk : k ≤ fuel) :
    whileLoop m center numPoints minDist draws fuel (stateAfter m center minDist draws j)
      = stateAfter m center minDist draws (j + k) := by
  obtain ⟨k', hk', heq, hb', ha'⟩ := whileLoop_spec m center numPoints minDist draws fuel j
  rcases Nat.lt_trichotomy k' k with hlt | heq' | hgt
  · have h1 := hbefore k' hlt
    have h2 := ha' (by omega)
    rw [h2] at h1
    exact absurd h1 Bool.false_ne_true
  · rw [heq, heq']
  · have h1 := hb' k hgt
    rw [hafter] at h1
    exact absurd h1 Bool.false_ne_true

/-- Evaluation of the sampler: it stops after `k` iterations when the guard holds
before each of them and fails after them. -/
theorem samplerRun_eq_stateAfter (m : CMath K) (center : Point2D K) (radius : K)
    (numPoints : Int) (minDist : K) (draws : Nat → K × K) (k : Nat)
    (hbefore : ∀ i, i < k →
      loopGuard numPoints (stateAfter m center minDist draws i) = true)
    (hafter : loopGuard numPoints (stateAfter m center minDist draws k) = false) :
    samplerRun m center radius numPoints minDist draws
      = stateAfter m center minDist draws k := by
  have hk : k ≤ (maxAttempts numPoints).toNat := by
    cases k with
    | zero => exact Nat.zero_le _
    | succ k =>
      have h := (loopGuard_eq_true_iff numPoints _).mp (hbefore k (Nat.lt_succ_self k))
      rw [stateAfter_attempts] at h
      omega
  have := whileLoop_eq_of_guard m center numPoints minDist draws k
    (maxAttempts numPoints).toNat 0 (by simpa using hbefore) (by simpa using hafter) hk
  simpa [samplerRun, stateAfter] using this

theorem maxAttempts_eq (numPoints : Int) (h0 : 0 ≤ numPoints)
    (hmax : numPoints * 100 ≤ INT_MAX) : maxAttempts numPoints = numPoints * 100 := by
  unfold maxAttempts wrapInt32
  unfold INT_MAX at hmax
  omega

theorem toSizeT_eq (numPoints : Int) (h0 : 0 ≤ numPoints)
    (hmax : numPoints * 100 ≤ INT_MAX) : toSizeT numPoints = numPoints.toNat := by
  unfold toSizeT
  unfold INT_MAX at hmax
  congr 1
  omega

theorem toSizeT_eq_of_int (numPoints : Int) (h0 : 0 ≤ numPoints)
    (hint : numPoints ≤ INT_MAX) : toSizeT numPoints = numPoints.toNat := by
  unfold toSizeT
  unfold INT_MAX at hint
  congr 1
  omega

/-- For a non-negative count the `int` value of `maxAttempts` never exceeds the exact
product `numPoints * 100`. -/
theorem maxAttempts_le (numPoints : Int) (h0 : 0 ≤ numPoints) :
    maxAttempts numPoints ≤ numPoints * 100 := by
  unfold maxAttempts wrapInt32
  omega

/-- Accepted points keep the separation: each point is at distance at least `minDist`
from every point accepted before it. -/
theorem stateAfter_pairwise (m : CMath K) (center : Point2D K) (minDist : K)
    (draws : Nat → K × K) (k : Nat) :
    (stateAfter m center minDist draws k).points.Pairwise
      (fun a b => minDist ≤ distance m b a) := by
  induction k with
  | zero => simp [stateAfter, initState]
  | succ k ih =>
    rw [stateAfter_succ_points]
    split
    · rename_i hv
      rw [List.pairwise_append]
      refine ⟨ih, List.pairwise_singleton _ _, ?_⟩
      intro a ha b hb
      rw [List.mem_singleton] at hb
      subst hb
      exact (isValid_eq_true_iff m minDist _ _).mp hv a ha
    · exact ih

/-- Every accepted point is one of the candidates examined so far. -/
theorem stateAfter_mem_candidate (m : CMath K) (center : Point2D K) (minDist : K)
    (draws : Nat → K × K) (k : Nat) (p : Point2D K)
    (hp : p ∈ (stateAfter m center minDist draws k).points) :
    ∃ i, i < k ∧ p = candidate m center (draws i) := by
  induction k with
  | zero => simp [stateAfter, initState] at hp
  | succ k ih =>
    rw [stateAfter_succ_points] at hp
    split at hp
    · rw [List.mem_append, List.mem_singleton] at hp
      rcases hp with h | h
      · obtain ⟨i, hi, e⟩ := ih h
        exact ⟨i, by omega, e⟩
      · exact ⟨k, Nat.lt_succ_self k, h⟩
    · obtain ⟨i, hi, e⟩ := ih hp
      exact ⟨i, by omega, e⟩

/-- A candidate lies at distance `r` from the centre. -/
theorem distance_candidate_center (m : CMath K) (hm : m.Euclidean) (ht : m.Pythagorean)
    (center : Point2D K) (d : K × K) (hr : 0 ≤ d.2) :
    distance m (candidate m center d) center = d.2 := by
  unfold distance candidate
  have h := hm (center.x + d.2 * m.cos d.1 - center.x) (center.y + d.2 * m.sin d.1 - center.y)
  have hsq : m.hypot (center.x + d.2 * m.cos d.1 - center.x)
      (center.y + d.2 * m.sin d.1 - center.y) *
      m.hypot (center.x + d.2 * m.cos d.1 - center.x) (center.y + d.2 * m.sin d.1 - center.y)
      = d.2 * d.2 := by
    rw [h.2]
    have := ht d.1
    calc (center.x + d.2 * m.cos d.1 - center.x) * (center.x + d.2 * m.cos d.1 - center.x)
          + (center.y + d.2 * m.sin d.1 - center.y) * (center.y + d.2 * m.sin d.1 - center.y)
        = d.2 * d.2 * (m.cos d.1 * m.cos d.1 + m.sin d.1 * m.sin d.1) := by ring
      _ = d.2 * d.2 := by rw [this, mul_one]
  exact (mul_self_inj h.1 hr).mp hsq

/-- With `minDist = 0` no candidate is rejected. -/
theorem isValid_zero (m : CMath K) (hm : m.Euclidean) (p : Point2D K)
    (pts : List (Point2D K)) : isValid m 0 p pts = true :=
  (isValid_eq_true_iff m 0 p pts).mpr (fun e _ => distance_nonneg m hm p e)

/-- With `minDist = 0` the accepted points after `k` iterations are the first `k`
candidates, in draw order. -/
theorem stateAfter_points_zero (m : CMath K) (hm : m.Euclidean) (center : Point2D K)
    (draws : Nat → K × K) (k : Nat) :
    (stateAfter m center 0 draws k).points =
      (List.range k).map (fun i => candidate m center (draws i)) := by
  induction k with
  | zero => simp [stateAfter, initState]
  | succ k ih =>
    rw [stateAfter_succ_points, isValid_zero m hm, if_pos rfl, ih, List.range_succ,
      List.map_append]
    rfl

/-- With `minDist = 0`, a count in `0 .. 21474836` is reached after exactly `count`
iterations. -/
theorem samplerRun_zero_minDist (m : CMath K) (hm : m.Euclidean) (center : Point2D K)
    (radius : K) (numPoints : Int) (draws : Nat → K × K) (h0 : 0 ≤ numPoints)
    (hmax : numPoints * 100 ≤ INT_MAX) :
    samplerRun m center radius numPoints 0 draws
      = stateAfter m center 0 draws numPoints.toNat := by
  apply samplerRun_eq_stateAfter
  · intro i hi
    rw [loopGuard_eq_true_iff, stateAfter_attempts, stateAfter_points_zero m hm,
      maxAttempts_eq numPoints h0 hmax, toSizeT_eq numPoints h0 hmax]
    simp only [List.length_map, List.length_range]
    omega
  · rw [← Bool.not_eq_true, loopGuard_eq_true_iff, stateAfter_points_zero m hm,
      toSizeT_eq numPoints h0 hmax]
    simp

/-- A candidate drawn with radial distance `0` is the centre itself. -/
theorem candidate_of_zero (m : CMath K) (center : Point2D K) (d : K × K) (hr : d.2 = 0) :
    candidate m center d = center := by
  cases center
  simp [candidate, hr]

theorem draws_zero (draws : Nat → K × K) (hd : DrawsInRange 0 draws) (i : Nat) :
    (draws i).2 = 0 :=
  le_antisymm (hd i).2 (hd i).1

theorem distance_self (m : CMath K) (hm : m.Euclidean) (a : Point2D K) :
    distance m a a = 0 := by
  unfold distance
  have h := hm (a.x - a.x) (a.y - a.y)
  have hsq : m.hypot (a.x - a.x) (a.y - a.y) * m.hypot (a.x - a.x) (a.y - a.y) = 0 * 0 := by
    rw [h.2]; ring
  exact (mul_self_inj h.1 (le_refl 0)).mp hsq

/-- If every later candidate is closer than `minDist` to the first one, the accepted
points are the first candidate alone, after any positive number of iterations. -/
theorem stateAfter_points_singleton (m : CMath K) (center : Point2D K) (minDist : K)
    (draws : Nat → K × K)
    (hclose : ∀ i, 1 ≤ i →
      distance m (candidate m center (draws i)) (candidate m center (draws 0)) < minDist)
    (k : Nat) :
    (stateAfter m center minDist draws (k + 1)).points = [candidate m center (draws 0)] := by
  induction k with
  | zero => simp [stateAfter, loopBody, initState, isValid]
  | succ k ih =>
    rw [stateAfter_succ_points, ih]
    have : isValid m minDist (candidate m center (draws (k + 1)))
        [candidate m center (draws 0)] = false := by
      rw [isValid_eq_false_iff]
      exact ⟨_, List.mem_singleton.mpr rfl, hclose (k + 1) (by omega)⟩
    rw [this]
    rfl

/-- The run of the sampler when only the first candidate can be accepted and the count
is in `1 .. 21474836`: one point is returned. -/
theorem samplerRun_points_singleton (m : CMath K) (center : Point2D K) (radius : K)
    (numPoints : Int) (minDist : K) (draws : Nat → K × K)
    (hclose : ∀ i, 1 ≤ i →
      distance m (candidate m center (draws i)) (candidate m center (draws 0)) < minDist)
    (h1 : 1 ≤ numPoints) (hmax : numPoints * 100 ≤ INT_MAX) :
    (samplerRun m center radius numPoints minDist draws).points
        = [candidate m center (draws 0)] ∧
      (samplerRun m center radius numPoints minDist draws).attempts
        = if numPoints = 1 then 1 else numPoints * 100 := by
  have h0 : 0 ≤ numPoints := by omega
  have hlen : ∀ i, (stateAfter m center minDist draws i).points.length ≤ 1 := by
    intro i
    cases i with
    | zero => simp [stateAfter, initState]
    | succ i => rw [stateAfter_points_singleton m center minDist draws hclose]; simp
  by_cases hone : numPoints = 1
  · subst hone
    have hrun : samplerRun m center radius 1 minDist draws
        = stateAfter m center minDist draws 1 := by
      apply samplerRun_eq_stateAfter
      · intro i hi
        have : i = 0 := by omega
        subst this
        simp [loopGuard, stateAfter, initState, toSizeT, maxAttempts, wrapInt32]
      · rw [← Bool.not_eq_true, loopGuard_eq_true_iff,
          stateAfter_points_singleton m center minDist draws hclose]
        simp [toSizeT]
    rw [hrun, stateAfter_points_singleton m center minDist draws hclose, stateAfter_attempts]
    simp
  · have hrun : samplerRun m center radius numPoints minDist draws
        = stateAfter m center minDist draws (numPoints * 100).toNat := by
      apply samplerRun_eq_stateAfter
      · intro i hi
        rw [loopGuard_eq_true_iff, stateAfter_attempts, maxAttempts_eq numPoints h0 hmax,
          toSizeT_eq numPoints h0 hmax]
        have := hlen i
        omega
      · apply loopGuard_false_of_attempts
        rw [stateAfter_attempts, maxAttempts_eq numPoints h0 hmax]
        omega
    rw [hrun, stateAfter_attempts, if_neg hone]
    obtain ⟨n, hn⟩ : ∃ n, (numPoints * 100).toNat = n + 1 := ⟨(numPoints * 100).toNat - 1, by omega⟩
    refine ⟨?_, by omega⟩
    rw [hn, stateAfter_points_singleton m center minDist draws hclose]

/-- The coordinate offsets `r * cos(angle)` and `r * sin(angle)` of a candidate are at
most `r` in absolute value. -/
theorem abs_offset_le (m : CMath K) (ht : m.Pythagorean) (radius : K) (d : K × K)
    (h0 : 0 ≤ d.2) (h1 : d.2 ≤ radius) :
    |d.2 * m.cos d.1| ≤ radius ∧ |d.2 * m.sin d.1| ≤ radius := by
  have h := ht d.1
  have hc : |m.cos d.1| ≤ 1 := by
    rw [abs_le_one_iff_mul_self_le_one]
    nlinarith [mul_self_nonneg (m.sin d.1)]
  have hs : |m.sin d.1| ≤ 1 := by
    rw [abs_le_one_iff_mul_self_le_one]
    nlinarith [mul_self_nonneg (m.cos d.1)]
  constructor
  · rw [abs_mul, abs_of_nonneg h0]
    calc d.2 * |m.cos d.1| ≤ d.2 * 1 := mul_le_mul_of_nonneg_left hc h0
      _ = d.2 := mul_one _
      _ ≤ radius := h1
  · rw [abs_mul, abs_of_nonneg h0]
    calc d.2 * |m.sin d.1| ≤ d.2 * 1 := mul_le_mul_of_nonneg_left hs h0
      _ = d.2 := mul_one _
      _ ≤ radius := h1

/-- Two candidates drawn within `radius` of the centre are at squared distance at most
`8 * radius²` (each coordinate differs by at most `2 * radius`). -/
theorem distance_candidates_sq_le (m : CMath K) (hm : m.Euclidean) (ht : m.Pythagorean)
    (center : Point2D K) (radius : K) (d e : K × K)
    (hd0 : 0 ≤ d.2) (hd1 : d.2 ≤ radius) (he0 : 0 ≤ e.2) (he1 : e.2 ≤ radius) :
    distance m (candidate m center d) (candidate m center e) *
      distance m (candidate m center d) (candidate m center e) ≤ 8 * (radius * radius) := by
  unfold distance candidate
  rw [(hm _ _).2]
  have hx := abs_offset_le m ht radius d hd0 hd1
  have hy := abs_offset_le m ht radius e he0 he1
  have hr : 0 ≤ radius := le_trans hd0 hd1
  have bound : ∀ u v : K, |u| ≤ radius → |v| ≤ radius →
      (u - v) * (u - v) ≤ 4 * (radius * radius) := by
    intro u v hu hv
    have h1 := abs_le.mp hu
    have h2 := abs_le.mp hv
    nlinarith [h1.1, h1.2, h2.1, h2.2]
  have e1 : center.x + d.2 * m.cos d.1 - (center.x + e.2 * m.cos e.1)
      = d.2 * m.cos d.1 - e.2 * m.cos e.1 := by ring
  have e2 : center.y + d.2 * m.sin d.1 - (center.y + e.2 * m.sin e.1)
      = d.2 * m.sin d.1 - e.2 * m.sin e.1 := by ring
  rw [e1, e2]
  have b1 := bound _ _ hx.1 hy.1
  have b2 := bound _ _ hx.2 hy.2
  linarith

/-- The sampler leaves the loop at once when `maxAttempts` is not positive. -/
theorem samplerRun_of_maxAttempts_nonpos (m : CMath K) (center : Point2D K) (radius : K)
    (numPoints : Int) (minDist : K) (draws : Nat → K × K)
    (h : maxAttempts numPoints ≤ 0) :
    samplerRun m center radius numPoints minDist draws = initState K := by
  rw [samplerRun_eq_stateAfter m center radius numPoints minDist draws 0
    (fun i hi => absurd hi (Nat.not_lt_zero i))
    (loopGuard_false_of_attempts numPoints _ (by simpa [stateAfter, initState] using h))]
  rfl

/-- The real-number instance of the `<cmath>` functions satisfies both contracts. -/
theorem real_cmath_contracts :
    CMath.Euclidean
      ({ hypot := fun a b => Real.sqrt (a * a + b * b), cos := Real.cos, sin := Real.sin } :
        CMath ℝ) ∧
    CMath.Pythagorean
      ({ hypot := fun a b => Real.sqrt (a * a + b * b), cos := Real.cos, sin := Real.sin } :
        CMath ℝ) := by
  constructor
  · intro a b
    refine ⟨Real.sqrt_nonneg _, ?_⟩
    exact Real.mul_self_sqrt (add_nonneg (mul_self_nonneg a) (mul_self_nonneg b))
  · intro t
    have := Real.cos_sq_add_sin_sq t
    simp only [sq] at this
    exact this

/-- A run over the reals: centre `(0, 0)`, count `2`, minimum distance `2`, and a stream
whose first candidate is the centre and whose later candidates are `(3, 0)`. The first
two candidates are accepted. -/
theorem real_run_two_points :
    generateScatteredPoints
      ({ hypot := fun a b => Real.sqrt (a * a + b * b), cos := Real.cos, sin := Real.sin } :
      CMath ℝ)
      ⟨0, 0⟩ 5 2 2 (fun i : Nat => ((0 : ℝ), if i = 0 then (0 : ℝ) else 3)) = [⟨0, 0⟩, ⟨3, 0⟩] := by
  have h1 : (stateAfter
      ({ hypot := fun a b => Real.sqrt (a * a + b * b), cos := Real.cos, sin := Real.sin } :
      CMath ℝ)
      ⟨0, 0⟩ 2 (fun i : Nat => ((0 : ℝ), if i = 0 then (0 : ℝ) else 3)) 1).points = [⟨0, 0⟩] := by
    simp [stateAfter, loopBody, initState, isValid, candidate]
  have h2 : (stateAfter
      ({ hypot := fun a b => Real.sqrt (a * a + b * b), cos := Real.cos, sin := Real.sin } :
      CMath ℝ)
      ⟨0, 0⟩ 2 (fun i : Nat => ((0 : ℝ), if i = 0 then (0 : ℝ) else 3)) 2).points = [⟨0, 0⟩, ⟨3, 0⟩] := by
    rw [stateAfter_succ_points, h1]
    simp [isValid, candidate, distance]
    norm_num
  unfold generateScatteredPoints
  rw [samplerRun_eq_stateAfter _ _ _ _ _ _ 2, h2]
  · intro i hi
    interval_cases i
    · simp [loopGuard, stateAfter, initState, toSizeT, maxAttempts, wrapInt32]
    · rw [loopGuard_eq_true_iff, h1, stateAfter_attempts]
      simp [toSizeT, maxAttempts, wrapInt32]
  · rw [← Bool.not_eq_true, loopGuard_eq_true_iff, h2]
    simp [toSizeT]

/-- The stream used in the example runs stays within radial distance `5`. -/
theorem real_draws_in_range (radius : ℝ) (h : 3 ≤ radius) :
    DrawsInRange radius (fun i : Nat => ((0 : ℝ), if i = 0 then (0 : ℝ) else 3)) := by
  intro i
  by_cases hi : i = 0
  · simp [hi]; linarith
  · simp [hi]; exact h

/-- For the count `21474837` the product `numPoints * 100` leaves the range of `int`
and `maxAttempts` is negative. -/
theorem maxAttempts_overflow : maxAttempts 21474837 = -2147483596 := by
  decide

end Loop

/-! ## The claims -/

section Claims

variable {K : Type} [LinearOrderedField K]

/-- C1: any two points at different positions of the list returned by
`generateScatteredPoints` are at Euclidean distance at least `minDist` from each other,
for every centre, radius, count, minimum distance and stream of draws. -/
theorem generateScatteredPoints_separated (m : CMath K) (hm : m.Euclidean)
    (center : Point2D K) (radius : K) (numPoints : Int) (minDist : K)
    (draws : Nat → K × K) (i j : Nat) (p q : Point2D K)
    (hp : (generateScatteredPoints m center radius numPoints minDist draws)[i]? = some p)
    (hq : (generateScatteredPoints m center radius numPoints minDist draws)[j]? = some q)
    (hij : i ≠ j) :
    minDist ≤ distance m p q := by
  obtain ⟨k, -, heq, -, -⟩ := samplerRun_spec m center radius numPoints minDist draws
  have hpw := stateAfter_pairwise m center minDist draws k
  unfold generateScatteredPoints at hp hq
  rw [heq] at hp hq
  rw [List.pairwise_iff_getElem] at hpw
  obtain ⟨hi, rfl⟩ := List.getElem?_eq_some.mp hp
  obtain ⟨hj, rfl⟩ := List.getElem?_eq_some.mp hq
  rcases Nat.lt_or_gt_of_ne hij with h | h
  · rw [distance_comm m hm]
    exact hpw i j hi hj h
  · exact hpw j i hj hi h

/-- C2: for every count `numPoints ≥ 0` the list returned by `generateScatteredPoints`
has at most `numPoints` elements. -/
theorem generateScatteredPoints_length_le (m : CMath K) (center : Point2D K) (radius : K)
    (numPoints : Int) (minDist : K) (draws : Nat → K × K) (h0 : 0 ≤ numPoints) :
    ((generateScatteredPoints m center radius numPoints minDist draws).length : Int)
      ≤ numPoints := by
  obtain ⟨k, -, heq, hbefore, -⟩ := samplerRun_spec m center radius numPoints minDist draws
  unfold generateScatteredPoints
  rw [heq]
  cases k with
  | zero =>
    simpa [stateAfter, initState] using h0
  | succ k =>
    have hg := (loopGuard_eq_true_iff numPoints _).mp (hbefore k (Nat.lt_succ_self k))
    have hl := stateAfter_length_succ_le m center minDist draws k
    have hs : (toSizeT numPoints : Int) ≤ numPoints := by
      unfold toSizeT
      omega
    omega

/-- C3: when `cos² + sin² = 1`, `hypot` is the Euclidean norm and every radial draw lies
in `[0, radius]`, every point returned by `generateScatteredPoints` is within `radius`
of the centre. -/
theorem generateScatteredPoints_within_radius (m : CMath K) (hm : m.Euclidean)
    (ht : m.Pythagorean) (center : Point2D K) (radius : K) (numPoints : Int) (minDist : K)
    (draws : Nat → K × K) (hr : 0 ≤ radius) (hd : DrawsInRange radius draws)
    (p : Point2D K)
    (hp : p ∈ generateScatteredPoints m center radius numPoints minDist draws) :
    distance m p center ≤ radius := by
  obtain ⟨k, -, heq, -, -⟩ := samplerRun_spec m center radius numPoints minDist draws
  unfold generateScatteredPoints at hp
  rw [heq] at hp
  obtain ⟨i, -, rfl⟩ := stateAfter_mem_candidate m center minDist draws k p hp
  rw [distance_candidate_center m hm ht center (draws i) (hd i).1]
  exact (hd i).2

/-- C5: with count `0` the sampler returns the empty list and consumes no random draw,
for every centre, radius and minimum distance. -/
theorem generateScatteredPoints_zero (m : CMath K) (center : Point2D K) (radius minDist : K)
    (draws : Nat → K × K) :
    generateScatteredPoints m center radius 0 minDist draws = [] ∧
      (samplerRun m center radius 0 minDist draws).rng = 0 ∧
      (samplerRun m center radius 0 minDist draws).attempts = 0 := by
  have h : samplerRun m center radius 0 minDist draws = initState K := by
    rw [samplerRun_eq_stateAfter m center radius 0 minDist draws 0
      (fun i hi => absurd hi (Nat.not_lt_zero i))
      (by simp [stateAfter, initState, loopGuard, toSizeT])]
    rfl
  simp [generateScatteredPoints, h, initState]

/-- What the loop does for every input: it terminates, after some number `k` of
iterations (unrolling it further changes nothing), and each iteration draws one candidate
and increases `attempts` by exactly one, accepted or not; for every count
`numPoints ≥ 0` at most `numPoints * 100` candidates are examined; and as long as the
product `numPoints * 100` fits an `int` the loop runs exactly while
`points.size() < numPoints` and `attempts < numPoints * 100`. -/
theorem samplerRun_terminates_within_ceiling (m : CMath K) (center : Point2D K) (radius : K)
    (numPoints : Int) (minDist : K) (draws : Nat → K × K) :
    (∃ k : Nat,
      (∀ fuel, k ≤ fuel →
        whileLoop m center numPoints minDist draws fuel (initState K)
          = stateAfter m center minDist draws k) ∧
      samplerRun m center radius numPoints minDist draws
        = stateAfter m center minDist draws k ∧
      (samplerRun m center radius numPoints minDist draws).attempts = (k : Int) ∧
      (samplerRun m center radius numPoints minDist draws).rng = k ∧
      loopGuard numPoints (samplerRun m center radius numPoints minDist draws) = false ∧
      (0 ≤ numPoints → (k : Int) ≤ numPoints * 100)) ∧
    (0 ≤ numPoints → numPoints * 100 ≤ INT_MAX →
      ∀ s : SamplerState K, loopGuard numPoints s = true ↔
        ((s.points.length : Int) < numPoints ∧ s.attempts < numPoints * 100)) ∧
    (∀ s : SamplerState K,
      (loopBody m center minDist draws s).attempts = s.attempts + 1 ∧
      (loopBody m center minDist draws s).rng = s.rng + 1) := by
  refine ⟨?_, ?_, fun s => ⟨rfl, rfl⟩⟩
  · obtain ⟨k, hk, heq, hbefore, hafter⟩ :=
      samplerRun_spec m center radius numPoints minDist draws
    refine ⟨k, ?_, heq, ?_, ?_, ?_, ?_⟩
    · intro fuel hfuel
      have := whileLoop_eq_of_guard m center numPoints minDist draws k fuel 0
        (by simpa using hbefore) (by simpa using hafter) hfuel
      simpa [stateAfter] using this
    · rw [heq, stateAfter_attempts]
    · rw [heq, stateAfter_rng]
    · rw [heq]; exact hafter
    · intro h0
      have := maxAttempts_le numPoints h0
      omega
  · intro h0 hmax s
    rw [loopGuard_eq_true_iff, maxAttempts_eq numPoints h0 hmax, toSizeT_eq numPoints h0 hmax]
    constructor
    · rintro ⟨h1, h2⟩
      exact ⟨by omega, h2⟩
    · rintro ⟨h1, h2⟩
      exact ⟨by omega, h2⟩

/-- As long as the product `n * 100` fits an `int`, the sampler called with a count
`n ≥ 0`, radius `0` (so that every radial draw is `0`) and minimum distance `0` returns
exactly `n` points, each equal to the centre. -/
theorem generateScatteredPoints_copies_of_center (m : CMath K) (hm : m.Euclidean)
    (center : Point2D K) (n : Int) (draws : Nat → K × K) (hd : DrawsInRange 0 draws)
    (h0 : 0 ≤ n) (hmax : n * 100 ≤ INT_MAX) :
    generateScatteredPoints m center 0 n 0 draws = List.replicate n.toNat center := by
  unfold generateScatteredPoints
  rw [samplerRun_zero_minDist m hm center 0 n draws h0 hmax, stateAfter_points_zero m hm,
    List.eq_replicate_iff]
  refine ⟨by simp, ?_⟩
  intro b hb
  rw [List.mem_map] at hb
  obtain ⟨i, -, rfl⟩ := hb
  exact candidate_of_zero m center (draws i) (draws_zero draws hd i)

/-- A minimum distance of `0` never rejects: as long as the product `numPoints * 100`
fits an `int`, the sampler called with a count `numPoints ≥ 0` returns exactly the first
`numPoints` candidates of the stream, in draw order. -/
theorem generateScatteredPoints_zero_minDist (m : CMath K) (hm : m.Euclidean)
    (center : Point2D K) (radius : K) (numPoints : Int) (draws : Nat → K × K)
    (h0 : 0 ≤ numPoints) (hmax : numPoints * 100 ≤ INT_MAX) :
    generateScatteredPoints m center radius numPoints 0 draws
        = (List.range numPoints.toNat).map (fun i => candidate m center (draws i)) ∧
      ((generateScatteredPoints m center radius numPoints 0 draws).length : Int)
        = numPoints := by
  unfold generateScatteredPoints
  rw [samplerRun_zero_minDist m hm center radius numPoints draws h0 hmax,
    stateAfter_points_zero m hm]
  refine ⟨rfl, ?_⟩
  simp only [List.length_map, List.length_range]
  omega

/-- C8: with radius 10, count 5 and minimum distance 1000, and every radial draw in
`[0, 10]`, the sampler returns fewer than 5 points and stops after at most 500 attempts. -/
theorem generateScatteredPoints_infeasible (m : CMath K) (hm : m.Euclidean)
    (ht : m.Pythagorean) (center : Point2D K) (draws : Nat → K × K)
    (hd : DrawsInRange 10 draws) :
    (generateScatteredPoints m center 10 5 1000 draws).length < 5 ∧
      (samplerRun m center 10 5 1000 draws).attempts ≤ 500 ∧
      (samplerRun m center 10 5 1000 draws).rng ≤ 500 ∧
      loopGuard 5 (samplerRun m center 10 5 1000 draws) = false := by
  have hclose : ∀ i, 1 ≤ i →
      distance m (candidate m center (draws i)) (candidate m center (draws 0)) < 1000 := by
    intro i _
    have hsq := distance_candidates_sq_le m hm ht center 10 (draws i) (draws 0)
      (hd i).1 (hd i).2 (hd 0).1 (hd 0).2
    by_contra hge
    have hge : (1000 : K) ≤
        distance m (candidate m center (draws i)) (candidate m center (draws 0)) :=
      not_lt.mp hge
    have := mul_self_le_mul_self (by norm_num : (0 : K) ≤ 1000) hge
    norm_num at this hsq
    linarith
  obtain ⟨hpts, hatt⟩ := samplerRun_points_singleton m center 10 5 1000 draws hclose
    (by norm_num) (by norm_num [INT_MAX])
  obtain ⟨k, hk, heq, -, hafter⟩ := samplerRun_spec m center 10 5 1000 draws
  have hrng : ((samplerRun m center 10 5 1000 draws).rng : Int) = 500 := by
    rw [heq, stateAfter_rng, ← stateAfter_attempts m center 1000 draws k, ← heq, hatt]
    norm_num
  refine ⟨?_, ?_, ?_, ?_⟩
  · unfold generateScatteredPoints
    rw [hpts]
    simp
  · rw [hatt]
    norm_num
  · omega
  · rw [heq]
    exact hafter

/-- As long as the product `numPoints * 100` fits an `int`, the sampler called with a
count `numPoints ≥ 1`, radius `0` (so that every radial draw is `0`) and a minimum
distance `minDist > 0` returns exactly one point, equal to the centre: the first
candidate is accepted and every later candidate equals the centre and is rejected. -/
theorem generateScatteredPoints_zero_radius (m : CMath K) (hm : m.Euclidean)
    (center : Point2D K) (numPoints : Int) (minDist : K) (draws : Nat → K × K)
    (hd : DrawsInRange 0 draws) (h1 : 1 ≤ numPoints) (hmax : numPoints * 100 ≤ INT_MAX)
    (hpos : 0 < minDist) :
    generateScatteredPoints m center 0 numPoints minDist draws = [center] ∧
      isValid m minDist (candidate m center (draws 0))
        (stateAfter m center minDist draws 0).points = true ∧
      ∀ i, 1 ≤ i → candidate m center (draws i) = center ∧
        isValid m minDist (candidate m center (draws i))
          (stateAfter m center minDist draws i).points = false := by
  have hc : ∀ i, candidate m center (draws i) = center := fun i =>
    candidate_of_zero m center (draws i) (draws_zero draws hd i)
  have hclose : ∀ i, 1 ≤ i →
      distance m (candidate m center (draws i)) (candidate m center (draws 0)) < minDist := by
    intro i _
    rw [hc i, hc 0, distance_self m hm]
    exact hpos
  refine ⟨?_, rfl, ?_⟩
  · unfold generateScatteredPoints
    rw [(samplerRun_points_singleton m center 0 numPoints minDist draws hclose h1 hmax).1,
      hc 0]
  · intro i hi
    refine ⟨hc i, ?_⟩
    obtain ⟨j, rfl⟩ : ∃ j, i = j + 1 := ⟨i - 1, by omega⟩
    rw [stateAfter_points_singleton m center minDist draws hclose j, isValid_eq_false_iff]
    exact ⟨_, List.mem_singleton.mpr rfl, hclose (j + 1) hi⟩

/-- For every `int` count `numPoints ≥ 0`: if the product `numPoints * 100` fits an
`int` and the returned list has fewer than `numPoints` points, then exactly
`numPoints * 100` candidates were examined; and if the list has exactly `numPoints`
points, then no candidate was drawn beyond the examined ones and, unless
`numPoints = 0`, the last examined candidate was accepted and is the last point of the
list. -/
theorem generateScatteredPoints_short_only_at_ceiling (m : CMath K) (center : Point2D K)
    (radius : K) (numPoints : Int) (minDist : K) (draws : Nat → K × K)
    (h0 : 0 ≤ numPoints) (hint : numPoints ≤ INT_MAX) :
    (numPoints * 100 ≤ INT_MAX →
      ((generateScatteredPoints m center radius numPoints minDist draws).length : Int)
        < numPoints →
      (samplerRun m center radius numPoints minDist draws).attempts = numPoints * 100 ∧
      ((samplerRun m center radius numPoints minDist draws).rng : Int) = numPoints * 100) ∧
    (((generateScatteredPoints m center radius numPoints minDist draws).length : Int)
        = numPoints →
      ((samplerRun m center radius numPoints minDist draws).rng : Int)
        = (samplerRun m center radius numPoints minDist draws).attempts ∧
      ((numPoints = 0 ∧ (samplerRun m center radius numPoints minDist draws).attempts = 0) ∨
        ∃ k : Nat,
          (samplerRun m center radius numPoints minDist draws).attempts = (k : Int) + 1 ∧
          isValid m minDist (candidate m center (draws k))
            (stateAfter m center minDist draws k).points = true ∧
          generateScatteredPoints m center radius numPoints minDist draws
            = (stateAfter m center minDist draws k).points
                ++ [candidate m center (draws k)])) := by
  obtain ⟨k, hk, heq, hbefore, hafter⟩ :=
    samplerRun_spec m center radius numPoints minDist draws
  unfold generateScatteredPoints
  rw [heq, stateAfter_attempts, stateAfter_rng]
  constructor
  · intro hmax hlt
    rw [maxAttempts_eq numPoints h0 hmax] at hk
    have hnot := hafter
    rw [← Bool.not_eq_true, loopGuard_eq_true_iff, stateAfter_attempts,
      maxAttempts_eq numPoints h0 hmax, toSizeT_eq numPoints h0 hmax] at hnot
    have : (k : Int) = numPoints * 100 := by omega
    exact ⟨this, this⟩
  · intro hlen
    refine ⟨rfl, ?_⟩
    cases k with
    | zero =>
      left
      simp [stateAfter, initState] at hlen
      exact ⟨hlen.symm, rfl⟩
    | succ k =>
      right
      refine ⟨k, by push_cast; ring, ?_⟩
      have hg := (loopGuard_eq_true_iff numPoints _).mp (hbefore k (Nat.lt_succ_self k))
      rw [toSizeT_eq_of_int numPoints h0 hint] at hg
      rw [stateAfter_succ_points] at hlen ⊢
      by_cases hv : isValid m minDist (candidate m center (draws k))
          (stateAfter m center minDist draws k).points = true
      · rw [if_pos hv]
        exact ⟨hv, rfl⟩
      · rw [if_neg hv] at hlen
        omega

/-- Witness of C1: in the example run the two accepted points `(0, 0)` and `(3, 0)`
are at distance at least `2`. -/
theorem generateScatteredPoints_separated_witness :
    (generateScatteredPoints
      ({ hypot := fun a b => Real.sqrt (a * a + b * b), cos := Real.cos, sin := Real.sin } :
      CMath ℝ)
      ⟨0, 0⟩ 5 2 2 (fun i : Nat => ((0 : ℝ), if i = 0 then (0 : ℝ) else 3)))[0]? = some ⟨0, 0⟩ ∧
    (generateScatteredPoints
      ({ hypot := fun a b => Real.sqrt (a * a + b * b), cos := Real.cos, sin := Real.sin } :
      CMath ℝ)
      ⟨0, 0⟩ 5 2 2 (fun i : Nat => ((0 : ℝ), if i = 0 then (0 : ℝ) else 3)))[1]? = some ⟨3, 0⟩ ∧
    (2 : ℝ) ≤ distance
      ({ hypot := fun a b => Real.sqrt (a * a + b * b), cos := Real.cos, sin := Real.sin } :
      CMath ℝ)
      ⟨0, 0⟩ ⟨3, 0⟩ := by
  have hp : (generateScatteredPoints
      ({ hypot := fun a b => Real.sqrt (a * a + b * b), cos := Real.cos, sin := Real.sin } :
      CMath ℝ)
      ⟨0, 0⟩ 5 2 2 (fun i : Nat => ((0 : ℝ), if i = 0 then (0 : ℝ) else 3)))[0]? = some ⟨0, 0⟩ := by
    rw [real_run_two_points]; rfl
  have hq : (generateScatteredPoints
      ({ hypot := fun a b => Real.sqrt (a * a + b * b), cos := Real.cos, sin := Real.sin } :
      CMath ℝ)
      ⟨0, 0⟩ 5 2 2 (fun i : Nat => ((0 : ℝ), if i = 0 then (0 : ℝ) else 3)))[1]? = some ⟨3, 0⟩ := by
    rw [real_run_two_points]; rfl
  exact ⟨hp, hq, generateScatteredPoints_separated _ real_cmath_contracts.1 ⟨0, 0⟩ 5 2 2
    (fun i : Nat => ((0 : ℝ), if i = 0 then (0 : ℝ) else 3)) 0 1 ⟨0, 0⟩ ⟨3, 0⟩ hp hq (by decide)⟩

/-- Witness of C2: the example run with count `2` returns at most `2` points. -/
theorem generateScatteredPoints_length_le_witness :
    (0 : Int) ≤ 2 ∧
    ((generateScatteredPoints
      ({ hypot := fun a b => Real.sqrt (a * a + b * b), cos := Real.cos, sin := Real.sin } :
      CMath ℝ)
      ⟨0, 0⟩ 5 2 2 (fun i : Nat => ((0 : ℝ), if i = 0 then (0 : ℝ) else 3))).length : Int) ≤ 2 :=
  ⟨by decide, generateScatteredPoints_length_le _ ⟨0, 0⟩ 5 2 2 _ (by decide)⟩

/-- Witness of C3: in the example run the accepted point `(3, 0)` is within the radius
`5` of the centre `(0, 0)`. -/
theorem generateScatteredPoints_within_radius_witness :
    DrawsInRange (5 : ℝ) (fun i : Nat => ((0 : ℝ), if i = 0 then (0 : ℝ) else 3)) ∧
    (⟨3, 0⟩ : Point2D ℝ) ∈ generateScatteredPoints
      ({ hypot := fun a b => Real.sqrt (a * a + b * b), cos := Real.cos, sin := Real.sin } :
      CMath ℝ)
      ⟨0, 0⟩ 5 2 2 (fun i : Nat => ((0 : ℝ), if i = 0 then (0 : ℝ) else 3)) ∧
    distance
      ({ hypot := fun a b => Real.sqrt (a * a + b * b), cos := Real.cos, sin := Real.sin } :
      CMath ℝ)
      ⟨3, 0⟩ ⟨0, 0⟩ ≤ 5 := by
  have hd := real_draws_in_range 5 (by norm_num)
  have hp : (⟨3, 0⟩ : Point2D ℝ) ∈ generateScatteredPoints
      ({ hypot := fun a b => Real.sqrt (a * a + b * b), cos := Real.cos, sin := Real.sin } :
      CMath ℝ)
      ⟨0, 0⟩ 5 2 2 (fun i : Nat => ((0 : ℝ), if i = 0 then (0 : ℝ) else 3)) := by
    rw [real_run_two_points]; simp
  exact ⟨hd, hp, generateScatteredPoints_within_radius _ real_cmath_contracts.1
    real_cmath_contracts.2 ⟨0, 0⟩ 5 2 2 _ (by norm_num) hd ⟨3, 0⟩ hp⟩

/-- C4 (failing input): for the count `21474837` the condition `points.size() < count`
and `attempts < count * 100` holds on loop entry, yet the guard of the loop, which
compares `attempts` with the 32-bit product `-2147483596`, fails there and the loop is
left without any iteration; and for the count `-21474837` a candidate is examined
although `count * 100` is negative. -/
theorem samplerRun_guard_at_overflow :
    ¬ (loopGuard 21474837 (initState ℝ) = true ↔
        (((initState ℝ).points.length : Int) < 21474837 ∧
          (initState ℝ).attempts < 21474837 * 100)) ∧
    samplerRun
      ({ hypot := fun a b => Real.sqrt (a * a + b * b), cos := Real.cos, sin := Real.sin } :
      CMath ℝ)
      ⟨0, 0⟩ 15 21474837 3 (fun i : Nat => ((0 : ℝ), if i = 0 then (0 : ℝ) else 3)) = initState ℝ ∧
    0 < (samplerRun
      ({ hypot := fun a b => Real.sqrt (a * a + b * b), cos := Real.cos, sin := Real.sin } :
      CMath ℝ)
      ⟨0, 0⟩ 15 (-21474837) 3 (fun i : Nat => ((0 : ℝ), if i = 0 then (0 : ℝ) else 3))).attempts := by
  refine ⟨?_, ?_, ?_⟩
  · intro h
    have hg : loopGuard 21474837 (initState ℝ) = false :=
      loopGuard_false_of_attempts _ _ (by rw [maxAttempts_overflow]; decide)
    rw [hg] at h
    exact Bool.false_ne_true (h.mpr ⟨by decide, by decide⟩)
  · exact samplerRun_of_maxAttempts_nonpos _ _ _ _ _ _ (by rw [maxAttempts_overflow]; decide)
  · obtain ⟨k, -, heq, -, hafter⟩ := samplerRun_spec
      ({ hypot := fun a b => Real.sqrt (a * a + b * b), cos := Real.cos, sin := Real.sin } :
      CMath ℝ)
      ⟨0, 0⟩ 15 (-21474837) 3 (fun i : Nat => ((0 : ℝ), if i = 0 then (0 : ℝ) else 3))
    rw [heq, stateAfter_attempts]
    cases k with
    | zero =>
      have hg : loopGuard (-21474837) (initState ℝ) = true := by
        rw [loopGuard_eq_true_iff]
        exact ⟨by decide, by decide⟩
      rw [show stateAfter _ _ _ _ 0 = initState ℝ from rfl, hg] at hafter
      exact absurd hafter (by decide)
    | succ k => omega

/-- Example at count `2`: the loop stops within `200` iterations and its guard is the
condition `points.size() < 2` and `attempts < 200`. -/
theorem samplerRun_terminates_within_ceiling_witness :
    (0 : Int) ≤ 2 ∧ (2 : Int) * 100 ≤ INT_MAX ∧
    (∃ k : Nat, (k : Int) ≤ 2 * 100 ∧
      (∀ fuel, k ≤ fuel →
        whileLoop
          ({ hypot := fun a b => Real.sqrt (a * a + b * b), cos := Real.cos, sin := Real.sin } :
      CMath ℝ)
          ⟨0, 0⟩ 2 2 (fun i : Nat => ((0 : ℝ), if i = 0 then (0 : ℝ) else 3)) fuel (initState ℝ)
          = stateAfter
          ({ hypot := fun a b => Real.sqrt (a * a + b * b), cos := Real.cos, sin := Real.sin } :
      CMath ℝ)
          ⟨0, 0⟩ 2 (fun i : Nat => ((0 : ℝ), if i = 0 then (0 : ℝ) else 3)) k) ∧
      loopGuard 2 (stateAfter
          ({ hypot := fun a b => Real.sqrt (a * a + b * b), cos := Real.cos, sin := Real.sin } :
      CMath ℝ)
          ⟨0, 0⟩ 2 (fun i : Nat => ((0 : ℝ), if i = 0 then (0 : ℝ) else 3)) k) = false) ∧
    (∀ s : SamplerState ℝ, loopGuard 2 s = true ↔
      ((s.points.length : Int) < 2 ∧ s.attempts < 2 * 100)) := by
  obtain ⟨⟨k, hfuel, heq, -, -, hg, hk⟩, hguard, -⟩ := samplerRun_terminates_within_ceiling
    ({ hypot := fun a b => Real.sqrt (a * a + b * b), cos := Real.cos, sin := Real.sin } :
      CMath ℝ)
    ⟨0, 0⟩ 5 2 2 (fun i : Nat => ((0 : ℝ), if i = 0 then (0 : ℝ) else 3))
  exact ⟨by decide, by decide, ⟨k, hk (by decide), hfuel, heq ▸ hg⟩,
    hguard (by decide) (by decide)⟩

/-- C6 (failing input): for `n = 21474837` the call with radius `0` and minimum
distance `0` returns the empty list, not a list of `n` copies of the centre: the 32-bit
product `n * 100` is negative and the loop is never entered. -/
theorem generateScatteredPoints_copies_at_overflow :
    DrawsInRange (0 : ℝ) (fun _ : Nat => ((0 : ℝ), (0 : ℝ))) ∧
    generateScatteredPoints
      ({ hypot := fun a b => Real.sqrt (a * a + b * b), cos := Real.cos, sin := Real.sin } :
      CMath ℝ)
      ⟨0, 0⟩ 0 21474837 0 (fun _ : Nat => ((0 : ℝ), (0 : ℝ))) = [] ∧
    ((generateScatteredPoints
      ({ hypot := fun a b => Real.sqrt (a * a + b * b), cos := Real.cos, sin := Real.sin } :
      CMath ℝ)
      ⟨0, 0⟩ 0 21474837 0 (fun _ : Nat => ((0 : ℝ), (0 : ℝ)))).length : Int) ≠ 21474837 := by
  have h : generateScatteredPoints
      ({ hypot := fun a b => Real.sqrt (a * a + b * b), cos := Real.cos, sin := Real.sin } :
      CMath ℝ)
      ⟨0, 0⟩ 0 21474837 0 (fun _ : Nat => ((0 : ℝ), (0 : ℝ))) = [] := by
    unfold generateScatteredPoints
    rw [samplerRun_of_maxAttempts_nonpos _ _ _ _ _ _ (by rw [maxAttempts_overflow]; decide)]
    rfl
  refine ⟨fun i => ⟨le_refl _, le_refl _⟩, h, ?_⟩
  rw [h]
  decide

/-- Example at `n = 3`: radius `0` and minimum distance `0` give three copies of the
centre. -/
theorem generateScatteredPoints_copies_of_center_witness :
    DrawsInRange (0 : ℝ) (fun _ : Nat => ((0 : ℝ), (0 : ℝ))) ∧
    (0 : Int) ≤ 3 ∧ (3 : Int) * 100 ≤ INT_MAX ∧
    generateScatteredPoints
      ({ hypot := fun a b => Real.sqrt (a * a + b * b), cos := Real.cos, sin := Real.sin } :
      CMath ℝ)
      ⟨7, 4⟩ 0 3 0 (fun _ : Nat => ((0 : ℝ), (0 : ℝ)))
      = List.replicate (3 : Int).toNat ⟨7, 4⟩ :=
  ⟨fun i => ⟨le_refl _, le_refl _⟩, by decide, by decide,
    generateScatteredPoints_copies_of_center _ real_cmath_contracts.1 ⟨7, 4⟩ 3 _
      (fun i => ⟨le_refl _, le_refl _⟩) (by decide) (by decide)⟩

/-- C7 (failing input): for the count `21474837` and minimum distance `0` the sampler
returns the empty list, not the first `21474837` candidates of the stream: the 32-bit
product `numPoints * 100` is negative and the loop is never entered. -/
theorem generateScatteredPoints_zero_minDist_at_overflow :
    generateScatteredPoints
      ({ hypot := fun a b => Real.sqrt (a * a + b * b), cos := Real.cos, sin := Real.sin } :
      CMath ℝ)
      ⟨1, 2⟩ 5 21474837 0 (fun i : Nat => ((0 : ℝ), if i = 0 then (0 : ℝ) else 3)) = [] ∧
    ((generateScatteredPoints
      ({ hypot := fun a b => Real.sqrt (a * a + b * b), cos := Real.cos, sin := Real.sin } :
      CMath ℝ)
      ⟨1, 2⟩ 5 21474837 0 (fun i : Nat => ((0 : ℝ), if i = 0 then (0 : ℝ) else 3))).length
        : Int) ≠ 21474837 := by
  have h : generateScatteredPoints
      ({ hypot := fun a b => Real.sqrt (a * a + b * b), cos := Real.cos, sin := Real.sin } :
      CMath ℝ)
      ⟨1, 2⟩ 5 21474837 0 (fun i : Nat => ((0 : ℝ), if i = 0 then (0 : ℝ) else 3)) = [] := by
    unfold generateScatteredPoints
    rw [samplerRun_of_maxAttempts_nonpos _ _ _ _ _ _ (by rw [maxAttempts_overflow]; decide)]
    rfl
  refine ⟨h, ?_⟩
  rw [h]
  decide

/-- Example at count `2`: minimum distance `0` gives the first two candidates. -/
theorem generateScatteredPoints_zero_minDist_witness :
    (0 : Int) ≤ 2 ∧ (2 : Int) * 100 ≤ INT_MAX ∧
    generateScatteredPoints
      ({ hypot := fun a b => Real.sqrt (a * a + b * b), cos := Real.cos, sin := Real.sin } :
      CMath ℝ)
      ⟨1, 2⟩ 5 2 0 (fun i : Nat => ((0 : ℝ), if i = 0 then (0 : ℝ) else 3))
      = (List.range (2 : Int).toNat).map (fun i => candidate
          ({ hypot := fun a b => Real.sqrt (a * a + b * b), cos := Real.cos, sin := Real.sin } :
      CMath ℝ)
          ⟨1, 2⟩ ((fun i : Nat => ((0 : ℝ), if i = 0 then (0 : ℝ) else 3)) i)) ∧
    ((generateScatteredPoints
      ({ hypot := fun a b => Real.sqrt (a * a + b * b), cos := Real.cos, sin := Real.sin } :
      CMath ℝ)
      ⟨1, 2⟩ 5 2 0 (fun i : Nat => ((0 : ℝ), if i = 0 then (0 : ℝ) else 3))).length : Int) = 2 :=
  ⟨by decide, by decide,
    generateScatteredPoints_zero_minDist _ real_cmath_contracts.1 ⟨1, 2⟩ 5 2 _
      (by decide) (by decide)⟩

/-- Witness of C8 on the example stream, whose radial draws lie in `[0, 10]`. -/
theorem generateScatteredPoints_infeasible_witness :
    DrawsInRange (10 : ℝ) (fun i : Nat => ((0 : ℝ), if i = 0 then (0 : ℝ) else 3)) ∧
    (generateScatteredPoints
      ({ hypot := fun a b => Real.sqrt (a * a + b * b), cos := Real.cos, sin := Real.sin } :
      CMath ℝ)
      ⟨0, 0⟩ 10 5 1000 (fun i : Nat => ((0 : ℝ), if i = 0 then (0 : ℝ) else 3))).length < 5 ∧
    (samplerRun
      ({ hypot := fun a b => Real.sqrt (a * a + b * b), cos := Real.cos, sin := Real.sin } :
      CMath ℝ)
      ⟨0, 0⟩ 10 5 1000 (fun i : Nat => ((0 : ℝ), if i = 0 then (0 : ℝ) else 3))).attempts ≤ 500 := by
  have hd := real_draws_in_range 10 (by norm_num)
  have h := generateScatteredPoints_infeasible _ real_cmath_contracts.1
    real_cmath_contracts.2 ⟨0, 0⟩ _ hd
  exact ⟨hd, h.1, h.2.1⟩

/-- C9 (failing input): for the count `21474837`, radius `0` and minimum distance `1`
the sampler returns the empty list, not the single point `center`: the 32-bit product
`numPoints * 100` is negative and the first candidate is never examined. -/
theorem generateScatteredPoints_zero_radius_at_overflow :
    generateScatteredPoints
      ({ hypot := fun a b => Real.sqrt (a * a + b * b), cos := Real.cos, sin := Real.sin } :
      CMath ℝ)
      ⟨0, 0⟩ 0 21474837 1 (fun _ : Nat => ((0 : ℝ), (0 : ℝ))) = [] ∧
    generateScatteredPoints
      ({ hypot := fun a b => Real.sqrt (a * a + b * b), cos := Real.cos, sin := Real.sin } :
      CMath ℝ)
      ⟨0, 0⟩ 0 21474837 1 (fun _ : Nat => ((0 : ℝ), (0 : ℝ))) ≠ [⟨0, 0⟩] := by
  have h : generateScatteredPoints
      ({ hypot := fun a b => Real.sqrt (a * a + b * b), cos := Real.cos, sin := Real.sin } :
      CMath ℝ)
      ⟨0, 0⟩ 0 21474837 1 (fun _ : Nat => ((0 : ℝ), (0 : ℝ))) = [] := by
    unfold generateScatteredPoints
    rw [samplerRun_of_maxAttempts_nonpos _ _ _ _ _ _ (by rw [maxAttempts_overflow]; decide)]
    rfl
  refine ⟨h, ?_⟩
  rw [h]
  simp

/-- Example at count `3` and minimum distance `1`: radius `0` gives the centre once. -/
theorem generateScatteredPoints_zero_radius_witness :
    DrawsInRange (0 : ℝ) (fun _ : Nat => ((0 : ℝ), (0 : ℝ))) ∧
    (1 : Int) ≤ 3 ∧ (3 : Int) * 100 ≤ INT_MAX ∧ (0 : ℝ) < 1 ∧
    generateScatteredPoints
      ({ hypot := fun a b => Real.sqrt (a * a + b * b), cos := Real.cos, sin := Real.sin } :
      CMath ℝ)
      ⟨7, 4⟩ 0 3 1 (fun _ : Nat => ((0 : ℝ), (0 : ℝ))) = [⟨7, 4⟩] :=
  ⟨fun i => ⟨le_refl _, le_refl _⟩, by decide, by decide, by norm_num,
    (generateScatteredPoints_zero_radius _ real_cmath_contracts.1 ⟨7, 4⟩ 3 1 _
      (fun i => ⟨le_refl _, le_refl _⟩) (by decide) (by decide) (by norm_num)).1⟩

/-- C10 (failing input): for the count `21474837` the returned list is shorter than the
count although no candidate was examined, not `count * 100` of them: the 32-bit product
`numPoints * 100` is negative and the loop is never entered. -/
theorem generateScatteredPoints_short_at_overflow :
    ((generateScatteredPoints
      ({ hypot := fun a b => Real.sqrt (a * a + b * b), cos := Real.cos, sin := Real.sin } :
      CMath ℝ)
      ⟨0, 0⟩ 15 21474837 3 (fun i : Nat => ((0 : ℝ), if i = 0 then (0 : ℝ) else 3))).length : Int) < 21474837 ∧
    (samplerRun
      ({ hypot := fun a b => Real.sqrt (a * a + b * b), cos := Real.cos, sin := Real.sin } :
      CMath ℝ)
      ⟨0, 0⟩ 15 21474837 3 (fun i : Nat => ((0 : ℝ), if i = 0 then (0 : ℝ) else 3))).attempts = 0 ∧
    (samplerRun
      ({ hypot := fun a b => Real.sqrt (a * a + b * b), cos := Real.cos, sin := Real.sin } :
      CMath ℝ)
      ⟨0, 0⟩ 15 21474837 3 (fun i : Nat => ((0 : ℝ), if i = 0 then (0 : ℝ) else 3))).attempts ≠ 21474837 * 100 := by
  have h : samplerRun
      ({ hypot := fun a b => Real.sqrt (a * a + b * b), cos := Real.cos, sin := Real.sin } :
      CMath ℝ)
      ⟨0, 0⟩ 15 21474837 3 (fun i : Nat => ((0 : ℝ), if i = 0 then (0 : ℝ) else 3)) = initState ℝ :=
    samplerRun_of_maxAttempts_nonpos _ _ _ _ _ _ (by rw [maxAttempts_overflow]; decide)
  unfold generateScatteredPoints
  rw [h]
  refine ⟨by decide, rfl, ?_⟩
  show (0 : Int) ≠ 21474837 * 100
  decide

/-- Example at count `2`, radius `0` and minimum distance `1`: the returned list has one
point, fewer than `2`, and exactly `200` candidates were examined. -/
theorem generateScatteredPoints_short_only_at_ceiling_witness :
    (0 : Int) ≤ 2 ∧ (2 : Int) ≤ INT_MAX ∧ (2 : Int) * 100 ≤ INT_MAX ∧
    ((generateScatteredPoints
      ({ hypot := fun a b => Real.sqrt (a * a + b * b), cos := Real.cos, sin := Real.sin } :
      CMath ℝ)
      ⟨7, 4⟩ 0 2 1 (fun _ : Nat => ((0 : ℝ), (0 : ℝ)))).length : Int) < 2 ∧
    (samplerRun
      ({ hypot := fun a b => Real.sqrt (a * a + b * b), cos := Real.cos, sin := Real.sin } :
      CMath ℝ)
      ⟨7, 4⟩ 0 2 1 (fun _ : Nat => ((0 : ℝ), (0 : ℝ)))).attempts = 2 * 100 ∧
    ((samplerRun
      ({ hypot := fun a b => Real.sqrt (a * a + b * b), cos := Real.cos, sin := Real.sin } :
      CMath ℝ)
      ⟨7, 4⟩ 0 2 1 (fun _ : Nat => ((0 : ℝ), (0 : ℝ)))).rng : Int) = 2 * 100 := by
  have hpts : generateScatteredPoints
      ({ hypot := fun a b => Real.sqrt (a * a + b * b), cos := Real.cos, sin := Real.sin } :
      CMath ℝ)
      ⟨7, 4⟩ 0 2 1 (fun _ : Nat => ((0 : ℝ), (0 : ℝ))) = [⟨7, 4⟩] :=
    (generateScatteredPoints_zero_radius _ real_cmath_contracts.1 ⟨7, 4⟩ 2 1 _
      (fun i => ⟨le_refl _, le_refl _⟩) (by decide) (by decide) (by norm_num)).1
  have hlt : ((generateScatteredPoints
      ({ hypot := fun a b => Real.sqrt (a * a + b * b), cos := Real.cos, sin := Real.sin } :
      CMath ℝ)
      ⟨7, 4⟩ 0 2 1 (fun _ : Nat => ((0 : ℝ), (0 : ℝ)))).length : Int) < 2 := by
    rw [hpts]
    decide
  exact ⟨by decide, by decide, by decide, hlt,
    (generateScatteredPoints_short_only_at_ceiling _ ⟨7, 4⟩ 0 2 1 _ (by decide)
      (by decide)).1 (by decide) hlt⟩

/-! ## The sampler as a greedy filter, its ceiling and its cost -/

theorem any_closer_eq_not_isValid (m : CMath K) (minDist : K) (c : Point2D K)
    (pts : List (Point2D K)) :
    pts.any (fun a => decide (distance m c a < minDist)) = !isValid m minDist c pts := by
  induction pts with
  | nil => simp [isValid]
  | cons e rest ih =>
    by_cases h : distance m c e < minDist
    · simp [isValid, h]
    · simp [isValid, h, ih]

theorem specGreedyFilter_append (m : CMath K) (minDist : K) (acc l : List (Point2D K))
    (c : Point2D K) :
    specGreedyFilter m minDist acc (l ++ [c]) =
      if isValid m minDist c (specGreedyFilter m minDist acc l) then
        specGreedyFilter m minDist acc l ++ [c]
      else specGreedyFilter m minDist acc l := by
  induction l generalizing acc with
  | nil =>
    simp only [List.nil_append, specGreedyFilter, any_closer_eq_not_isValid]
    cases isValid m minDist c acc <;> simp
  | cons d rest ih =>
    simp only [List.cons_append, specGreedyFilter]
    split
    · exact ih acc
    · exact ih (acc ++ [d])

/-- The accepted points after `k` iterations are the reference greedy filter of the
first `k` candidates. -/
theorem stateAfter_points_eq_greedy (m : CMath K) (center : Point2D K) (minDist : K)
    (draws : Nat → K × K) (k : Nat) :
    (stateAfter m center minDist draws k).points =
      specGreedyFilter m minDist []
        ((List.range k).map (fun i => candidate m center (draws i))) := by
  induction k with
  | zero => simp [stateAfter, initState, specGreedyFilter]
  | succ k ih =>
    rw [stateAfter_succ_points, List.range_succ, List.map_append, List.map_singleton,
      specGreedyFilter_append, ← ih]

/-- Accepted points are never removed or reordered: the list after `i` iterations is an
initial segment of the list after `k ≥ i` iterations. -/
theorem stateAfter_points_mono (m : CMath K) (center : Point2D K) (minDist : K)
    (draws : Nat → K × K) (i k : Nat) (hik : i ≤ k) :
    ∃ t, (stateAfter m center minDist draws k).points
      = (stateAfter m center minDist draws i).points ++ t := by
  induction k with
  | zero =>
    have : i = 0 := by omega
    subst this
    exact ⟨[], by simp⟩
  | succ k ih =>
    by_cases h : i = k + 1
    · subst h
      exact ⟨[], by simp⟩
    · obtain ⟨t, ht⟩ := ih (by omega)
      rw [stateAfter_succ_points]
      split
      · exact ⟨t ++ [candidate m center (draws k)], by rw [ht, List.append_assoc]⟩
      · exact ⟨t, ht⟩

/-- The state after `k` iterations depends only on the first `k` draws. -/
theorem stateAfter_congr (m : CMath K) (center : Point2D K) (minDist : K)
    (draws1 draws2 : Nat → K × K) (k : Nat) (h : ∀ i, i < k → draws1 i = draws2 i) :
    stateAfter m center minDist draws1 k = stateAfter m center minDist draws2 k := by
  induction k with
  | zero => rfl
  | succ k ih =>
    have ih' := ih (fun i hi => h i (by omega))
    simp only [stateAfter, loopBody]
    rw [ih', stateAfter_rng, h k (Nat.lt_succ_self k)]

/-- The run of the sampler depends only on the first `maxAttempts` draws. -/
theorem samplerRun_congr (m : CMath K) (center : Point2D K) (radius : K) (numPoints : Int)
    (minDist : K) (draws1 draws2 : Nat → K × K)
    (h : ∀ i, i < (maxAttempts numPoints).toNat → draws1 i = draws2 i) :
    samplerRun m center radius numPoints minDist draws1
      = samplerRun m center radius numPoints minDist draws2 := by
  obtain ⟨k, hk, heq, hbefore, hafter⟩ :=
    samplerRun_spec m center radius numPoints minDist draws1
  have hc : ∀ i, i ≤ k →
      stateAfter m center minDist draws1 i = stateAfter m center minDist draws2 i :=
    fun i hi => stateAfter_congr m center minDist draws1 draws2 i
      (fun j hj => h j (by omega))
  rw [heq, hc k (le_refl k)]
  symm
  apply samplerRun_eq_stateAfter
  · intro i hi
    rw [← hc i (by omega)]
    exact hbefore i hi
  · rw [← hc k (le_refl k)]
    exact hafter

theorem isValidEvals_le (m : CMath K) (minDist : K) (p : Point2D K)
    (pts : List (Point2D K)) : isValidEvals m minDist p pts ≤ pts.length := by
  induction pts with
  | nil => simp [isValidEvals]
  | cons e rest ih =>
    simp only [isValidEvals, List.length_cons]
    split <;> omega

/-- If the accepted list has at most `c` points before each of the first `k`
iterations, these iterations call `distance` at most `k * c` times. -/
theorem evalsAfter_le (m : CMath K) (center : Point2D K) (minDist : K)
    (draws : Nat → K × K) (c k : Nat)
    (h : ∀ i, i < k → (stateAfter m center minDist draws i).points.length ≤ c) :
    evalsAfter m center minDist draws k ≤ k * c := by
  induction k with
  | zero => simp [evalsAfter]
  | succ k ih =>
    have h1 := ih (fun i hi => h i (by omega))
    have h2 := isValidEvals_le m minDist
      (candidate m center (draws (stateAfter m center minDist draws k).rng))
      (stateAfter m center minDist draws k).points
    have h3 := h k (Nat.lt_succ_self k)
    simp only [evalsAfter]
    rw [Nat.succ_mul]
    omega

/-- C11: `generateScatteredPoints` is the reference greedy filter of the examined
candidates: the returned list is the filter of the candidates drawn, in draw order; a
candidate is appended iff its distance to every already-accepted point is at least
`minDist` and is dropped iff it is closer than `minDist` to one of them; accepted points
stay in the list; and every examined candidate that is not in the result is closer than
`minDist` to a point accepted before it. -/
theorem generateScatteredPoints_refines_greedy (m : CMath K) (center : Point2D K)
    (radius : K) (numPoints : Int) (minDist : K) (draws : Nat → K × K) :
    generateScatteredPoints m center radius numPoints minDist draws =
      specGreedyFilter m minDist []
        ((List.range (samplerRun m center radius numPoints minDist draws).rng).map
          (fun i => candidate m center (draws i))) ∧
    (∀ i, i < (samplerRun m center radius numPoints minDist draws).rng →
      ((stateAfter m center minDist draws (i + 1)).points =
          (stateAfter m center minDist draws i).points ++ [candidate m center (draws i)] ↔
        ∀ e ∈ (stateAfter m center minDist draws i).points,
          minDist ≤ distance m (candidate m center (draws i)) e) ∧
      ((stateAfter m center minDist draws (i + 1)).points =
          (stateAfter m center minDist draws i).points ↔
        ∃ e ∈ (stateAfter m center minDist draws i).points,
          distance m (candidate m center (draws i)) e < minDist) ∧
      (∃ t, generateScatteredPoints m center radius numPoints minDist draws =
        (stateAfter m center minDist draws (i + 1)).points ++ t)) ∧
    (∀ i, i < (samplerRun m center radius numPoints minDist draws).rng →
      candidate m center (draws i) ∉
        generateScatteredPoints m center radius numPoints minDist draws →
      ∃ e ∈ (stateAfter m center minDist draws i).points,
        e ∈ generateScatteredPoints m center radius numPoints minDist draws ∧
        distance m (candidate m center (draws i)) e < minDist) := by
  obtain ⟨k, -, heq, -, -⟩ := samplerRun_spec m center radius numPoints minDist draws
  unfold generateScatteredPoints
  rw [heq, stateAfter_rng]
  have hstep : ∀ i,
      ((stateAfter m center minDist draws (i + 1)).points =
          (stateAfter m center minDist draws i).points ++ [candidate m center (draws i)] ↔
        ∀ e ∈ (stateAfter m center minDist draws i).points,
          minDist ≤ distance m (candidate m center (draws i)) e) ∧
      ((stateAfter m center minDist draws (i + 1)).points =
          (stateAfter m center minDist draws i).points ↔
        ∃ e ∈ (stateAfter m center minDist draws i).points,
          distance m (candidate m center (draws i)) e < minDist) := by
    intro i
    rw [stateAfter_succ_points, ← isValid_eq_true_iff, ← isValid_eq_false_iff]
    cases hv : isValid m minDist (candidate m center (draws i))
        (stateAfter m center minDist draws i).points <;> simp
  refine ⟨stateAfter_points_eq_greedy m center minDist draws k, ?_, ?_⟩
  · intro i hi
    exact ⟨(hstep i).1, (hstep i).2, stateAfter_points_mono m center minDist draws (i + 1) k
      (by omega)⟩
  · intro i hi hnot
    obtain ⟨t, ht⟩ := stateAfter_points_mono m center minDist draws (i + 1) k (by omega)
    obtain ⟨t0, ht0⟩ := stateAfter_points_mono m center minDist draws i k (by omega)
    have hrej : (stateAfter m center minDist draws (i + 1)).points =
        (stateAfter m center minDist draws i).points := by
      by_contra hne
      have hacc : (stateAfter m center minDist draws (i + 1)).points =
          (stateAfter m center minDist draws i).points ++ [candidate m center (draws i)] := by
        rw [stateAfter_succ_points] at hne ⊢
        split
        · rfl
        · rename_i hv
          rw [if_neg hv] at hne
          exact absurd rfl hne
      apply hnot
      rw [ht, hacc]
      simp
    obtain ⟨e, he, hlt⟩ := (hstep i).2.mp hrej
    exact ⟨e, he, by rw [ht0]; exact List.mem_append_left _ he, hlt⟩

/-- C12 (failing input): for the non-negative `int` count `21474837` the ceiling
computed by the code, `numPoints * 100` in 32-bit arithmetic, is `-2147483596` and not
the product `2147483700`. -/
theorem maxAttempts_differs_from_product :
    (0 : Int) ≤ 21474837 ∧ (21474837 : Int) ≤ INT_MAX ∧
    maxAttempts 21474837 = -2147483596 ∧
    maxAttempts 21474837 ≠ 21474837 * 100 := by
  decide

/-- C17: for every count `numPoints ≥ 0` one call of `generateScatteredPoints` evaluates
`distance` at most `100 * numPoints * numPoints` times. -/
theorem distanceEvaluations_le (m : CMath K) (center : Point2D K) (radius : K)
    (numPoints : Int) (minDist : K) (draws : Nat → K × K) (h0 : 0 ≤ numPoints) :
    (distanceEvaluations m center radius numPoints minDist draws : Int)
      ≤ 100 * numPoints * numPoints := by
  obtain ⟨k, hk, heq, hbefore, -⟩ := samplerRun_spec m center radius numPoints minDist draws
  unfold distanceEvaluations
  rw [heq, stateAfter_attempts, Int.toNat_ofNat]
  have hlen : ∀ i, i < k →
      (stateAfter m center minDist draws i).points.length ≤ numPoints.toNat := by
    intro i hi
    have hg := (loopGuard_eq_true_iff numPoints _).mp (hbefore i hi)
    have hs : (toSizeT numPoints : Int) ≤ numPoints := by
      unfold toSizeT
      omega
    omega
  have h1 := evalsAfter_le m center minDist draws numPoints.toNat k hlen
  have h2 : k ≤ 100 * numPoints.toNat := by
    have := maxAttempts_le numPoints h0
    omega
  have h3 : k * numPoints.toNat ≤ 100 * numPoints.toNat * numPoints.toNat :=
    Nat.mul_le_mul_right _ h2
  have h4 : (evalsAfter m center minDist draws k : Int)
      ≤ ((100 * numPoints.toNat * numPoints.toNat : Nat) : Int) := by
    exact_mod_cast le_trans h1 h3
  have h5 : ((numPoints.toNat : Nat) : Int) = numPoints := Int.toNat_of_nonneg h0
  rw [Nat.cast_mul, Nat.cast_mul, h5] at h4
  exact_mod_cast h4

/-- Witness of C17: the example run with count `2` calls `distance` at most `400`
times. -/
theorem distanceEvaluations_le_witness :
    (0 : Int) ≤ 2 ∧
    (distanceEvaluations
      ({ hypot := fun a b => Real.sqrt (a * a + b * b), cos := Real.cos, sin := Real.sin } :
      CMath ℝ)
      ⟨0, 0⟩ 5 2 2 (fun i : Nat => ((0 : ℝ), if i = 0 then (0 : ℝ) else 3)) : Int)
      ≤ 100 * 2 * 2 :=
  ⟨by decide, distanceEvaluations_le _ ⟨0, 0⟩ 5 2 2 _ (by decide)⟩

end Claims

end ScatterSampler

/-! # Facts about the object store -/

namespace Raisim

theorem toSizeT_of_scene (cur : Int) (h0 : 0 ≤ cur) (h4 : cur < 4) :
    ScatterSampler.toSizeT cur = cur.toNat := by
  unfold ScatterSampler.toSizeT
  congr 1
  omega

theorem getD_set_self (sc : List (List Nat)) (i : Nat) (l : List Nat) (h : i < sc.length) :
    (sc.set i l).getD i [] = l := by
  simp [h]

theorem getD_set_ne (sc : List (List Nat)) (i j : Nat) (l : List Nat) (h : i ≠ j) :
    (sc.set i l).getD j [] = sc.getD j [] := by
  simp [h]

theorem getD_of_length_le (sc : List (List Nat)) (i : Nat) (h : sc.length ≤ i) :
    sc.getD i [] = [] := by
  rw [List.getD_eq_getElem?_getD, List.getElem?_eq_none h]
  rfl

theorem mem_scenes_getD (sc : List (List Nat)) (l : List Nat) (h : l ∈ sc) :
    ∃ i, sc.getD i [] = l := by
  obtain ⟨i, hi, rfl⟩ := List.mem_iff_getElem.mp h
  exact ⟨i, by simp [hi]⟩

theorem removeAll_calls (w : World) (objs : List Nat) :
    (removeAll w objs).calls = w.calls ++ objs.map WorldCall.remove := by
  induction objs generalizing w with
  | nil => simp [removeAll]
  | cons o rest ih =>
    have := ih (w.removeObject o)
    simp only [removeAll, List.foldl_cons] at this ⊢
    rw [this]
    simp [World.removeObject]

theorem removeAll_next (w : World) (objs : List Nat) :
    (removeAll w objs).next = w.next := by
  induction objs generalizing w with
  | nil => simp [removeAll]
  | cons o rest ih =>
    have := ih (w.removeObject o)
    simp only [removeAll, List.foldl_cons] at this ⊢
    rw [this]
    rfl

theorem mem_handles_removeObject (w : World) (o h : Nat) :
    h ∈ (w.removeObject o).handles ↔ h ∈ w.handles ∧ h ≠ o := by
  simp only [World.handles, World.removeObject, List.mem_map, List.mem_filter]
  constructor
  · rintro ⟨a, ⟨ha, hne⟩, rfl⟩
    exact ⟨⟨a, ha, rfl⟩, by simpa using hne⟩
  · rintro ⟨⟨a, ha, rfl⟩, hne⟩
    exact ⟨a, ⟨ha, by simpa using hne⟩, rfl⟩

/-- After `removeAll` the world holds exactly the former objects that were not in the
list. -/
theorem mem_handles_removeAll (w : World) (objs : List Nat) (h : Nat) :
    h ∈ (removeAll w objs).handles ↔ h ∈ w.handles ∧ h ∉ objs := by
  induction objs generalizing w with
  | nil => simp [removeAll]
  | cons o rest ih =>
    have := ih (w.removeObject o)
    simp only [removeAll, List.foldl_cons] at this ⊢
    rw [this, mem_handles_removeObject]
    simp only [List.mem_cons, not_or]
    constructor
    · rintro ⟨⟨h1, h2⟩, h3⟩
      exact ⟨h1, h2, h3⟩
    · rintro ⟨h1, h2, h3⟩
      exact ⟨⟨h1, h2⟩, h3⟩

theorem mem_handles_add (w : World) (kind : ObjectKind) (h : Nat) :
    h ∈ (w.add kind).2.handles ↔ h ∈ w.handles ∨ h = w.next := by
  simp [World.handles, World.add]

theorem Grows.refl (idx : Nat) (w : World) (sc : List (List Nat)) : Grows idx w sc w sc :=
  ⟨rfl, fun _ _ => rfl, ⟨[], by simp, by simp⟩, le_refl _, fun _ h => Or.inl h,
    fun _ h => Or.inl h⟩

theorem Grows.trans {idx : Nat} {w0 w1 w2 : World} {sc0 sc1 sc2 : List (List Nat)}
    (h01 : Grows idx w0 sc0 w1 sc1) (h12 : Grows idx w1 sc1 w2 sc2) :
    Grows idx w0 sc0 w2 sc2 := by
  obtain ⟨a1, a2, ⟨c1, a3, a3'⟩, a4, a5, a6⟩ := h01
  obtain ⟨b1, b2, ⟨c2, b3, b3'⟩, b4, b5, b6⟩ := h12
  refine ⟨by rw [b1, a1], fun i hi => by rw [b2 i hi, a2 i hi], ⟨c1 ++ c2, ?_, ?_⟩,
    le_trans a4 b4, ?_, ?_⟩
  · rw [b3, a3, List.append_assoc]
  · intro c hc
    rcases List.mem_append.mp hc with h | h
    · exact a3' c h
    · exact b3' c h
  · intro h hh
    rcases b5 h hh with h1 | h1
    · rcases a5 h h1 with h2 | h2
      · exact Or.inl h2
      · exact Or.inr ⟨h2.1, by omega⟩
    · exact Or.inr ⟨by omega, h1.2⟩
  · intro h hh
    rcases b6 h hh with h1 | h1
    · rcases a6 h h1 with h2 | h2
      · exact Or.inl h2
      · exact Or.inr ⟨h2.1, by omega⟩
    · exact Or.inr ⟨by omega, h1.2⟩

/-- Creating one object and pushing its handle to `scenes_[idx]`. -/
theorem grows_add_push (idx : Nat) (w : World) (sc : List (List Nat)) (kind : ObjectKind) :
    Grows idx w sc (w.add kind).2 (pushBack sc idx (w.add kind).1) := by
  refine ⟨by simp [pushBack], fun i hi => ?_, ⟨[WorldCall.add kind w.next], rfl, ?_⟩,
    Nat.le_succ _, ?_, ?_⟩
  · exact getD_set_ne sc idx i _ (Ne.symm hi)
  · intro c hc
    exact ⟨kind, w.next, List.mem_singleton.mp hc⟩
  · intro h hh
    rcases (mem_handles_add w kind h).mp hh with h1 | h1
    · exact Or.inl h1
    · exact Or.inr ⟨by omega, by simp [World.add, h1]⟩
  · intro h hh
    by_cases hlen : idx < sc.length
    · rw [pushBack, getD_set_self sc idx _ hlen, List.mem_append, List.mem_singleton] at hh
      rcases hh with h1 | h1
      · exact Or.inl h1
      · exact Or.inr ⟨by simp [World.add, h1], by simp [World.add, h1]⟩
    · rw [getD_of_length_le _ _ (by simp [pushBack]; omega)] at hh
      exact absurd hh (List.not_mem_nil h)

/-- Creating one object without touching the scene lists. -/
theorem grows_add (idx : Nat) (w : World) (sc : List (List Nat)) (kind : ObjectKind) :
    Grows idx w sc (w.add kind).2 sc := by
  refine ⟨rfl, fun _ _ => rfl, ⟨[WorldCall.add kind w.next], rfl, ?_⟩, Nat.le_succ _, ?_,
    fun _ h => Or.inl h⟩
  · intro c hc
    exact ⟨kind, w.next, List.mem_singleton.mp hc⟩
  · intro h hh
    rcases (mem_handles_add w kind h).mp hh with h1 | h1
    · exact Or.inl h1
    · exact Or.inr ⟨by omega, by simp [World.add, h1]⟩

/-- After creations on top of empty scene lists the invariant holds for the scene that
received the handles. -/
theorem sceneInv_of_grows (w w' : World) (sc sc' : List (List Nat)) (cur : Int)
    (h0 : 0 ≤ cur) (h4 : cur < 4) (hlen : sc.length = 4) (hempty : ∀ i, sc.getD i [] = [])
    (hg : Grows (ScatterSampler.toSizeT cur) w sc w' sc') : SceneInv w' sc' cur := by
  obtain ⟨a1, a2, -, a4, -, a6⟩ := hg
  refine ⟨by rw [a1, hlen], h0, h4, fun i hi => by rw [a2 i hi, hempty i], ?_⟩
  intro i h hh
  by_cases hi : i = ScatterSampler.toSizeT cur
  · subst hi
    rcases a6 h hh with h1 | h1
    · rw [hempty] at h1
      exact absurd h1 (List.not_mem_nil h)
    · exact h1.2
  · rw [a2 i hi, hempty i] at hh
    exact absurd hh (List.not_mem_nil h)

end Raisim

/-! # The scene manager of `multi_scene_environment.cpp`: facts -/

namespace MultiScene

open Raisim

theorem addToScene_grows (s : SceneManager) (kind : ObjectKind) (idx : Nat) :
    Grows idx s.world_ s.scenes_ (addToScene s kind idx).world_
        (addToScene s kind idx).scenes_ ∧
      (addToScene s kind idx).currentScene_ = s.currentScene_ :=
  ⟨grows_add_push idx s.world_ s.scenes_ kind, rfl⟩

theorem addMany_grows (kind : ObjectKind) (idx n : Nat) (s : SceneManager) :
    Grows idx s.world_ s.scenes_ (addMany kind idx n s).world_
        (addMany kind idx n s).scenes_ ∧
      (addMany kind idx n s).currentScene_ = s.currentScene_ := by
  induction n generalizing s with
  | zero => exact ⟨Grows.refl _ _ _, rfl⟩
  | succ n ih =>
    have h1 := addToScene_grows s kind idx
    have h2 := ih (addToScene s kind idx)
    exact ⟨Grows.trans h1.1 h2.1, by rw [addMany, h2.2, h1.2]⟩

/-- A fold of steps that only create objects for `scenes_[idx]` only creates objects for
`scenes_[idx]`. -/
theorem foldl_grows {α : Type} (idx : Nat) (f : SceneManager → α → SceneManager)
    (hf : ∀ s a, Grows idx s.world_ s.scenes_ (f s a).world_ (f s a).scenes_ ∧
      (f s a).currentScene_ = s.currentScene_)
    (l : List α) (s : SceneManager) :
    Grows idx s.world_ s.scenes_ (l.foldl f s).world_ (l.foldl f s).scenes_ ∧
      (l.foldl f s).currentScene_ = s.currentScene_ := by
  induction l generalizing s with
  | nil => exact ⟨Grows.refl _ _ _, rfl⟩
  | cons a rest ih =>
    have h1 := hf s a
    have h2 := ih (f s a)
    exact ⟨Grows.trans h1.1 h2.1, by rw [List.foldl_cons, h2.2, h1.2]⟩

theorem addBuildings_grows (s : SceneManager) :
    Grows 1 s.world_ s.scenes_ (addBuildings s).world_ (addBuildings s).scenes_ ∧
      (addBuildings s).currentScene_ = s.currentScene_ := by
  unfold addBuildings
  apply foldl_grows
  intro s x
  apply foldl_grows
  intro s y
  split
  · exact addToScene_grows s ObjectKind.box 1
  · exact ⟨Grows.refl _ _ _, rfl⟩

/-- Creating a scene only creates objects, pushes their handles to the list of that
scene and leaves `currentScene_` alone. -/
theorem createScene_grows (sceneId : Int) (s : SceneManager) (h0 : 0 ≤ sceneId)
    (h4 : sceneId < 4) :
    Grows sceneId.toNat s.world_ s.scenes_ (createScene sceneId s).world_
        (createScene sceneId s).scenes_ ∧
      (createScene sceneId s).currentScene_ = s.currentScene_ := by
  obtain rfl | rfl | rfl | rfl : sceneId = 0 ∨ sceneId = 1 ∨ sceneId = 2 ∨ sceneId = 3 := by
    omega
  · have h1 := addToScene_grows s ObjectKind.heightMap 0
    have h2 := addMany_grows ObjectKind.sphere 0 10 (addToScene s ObjectKind.heightMap 0)
    exact ⟨Grows.trans h1.1 h2.1, by simp [createScene, createMountainScene, h2.2, h1.2]⟩
  · have h1 := addToScene_grows s ObjectKind.ground 1
    have h2 := addBuildings_grows (addToScene s ObjectKind.ground 1)
    have h3 := addMany_grows ObjectKind.box 1 20
      (addBuildings (addToScene s ObjectKind.ground 1))
    exact ⟨Grows.trans (Grows.trans h1.1 h2.1) h3.1,
      by simp [createScene, createUrbanScene, h3.2, h2.2, h1.2]⟩
  · have h1 := addToScene_grows s ObjectKind.heightMap 2
    have h2 := addMany_grows ObjectKind.cylinder 2 15 (addToScene s ObjectKind.heightMap 2)
    exact ⟨Grows.trans h1.1 h2.1, by simp [createScene, createDesertScene, h2.2, h1.2]⟩
  · have h1 := addToScene_grows s ObjectKind.heightMap 3
    have h2 := addMany_grows ObjectKind.cylinder 3 12 (addToScene s ObjectKind.heightMap 3)
    exact ⟨Grows.trans h1.1 h2.1, by simp [createScene, createIceScene, h2.2, h1.2]⟩

theorem switchToScene_of_valid (s : SceneManager) (sceneId : Int) (h0 : 0 ≤ sceneId)
    (h4 : sceneId < 4) :
    switchToScene s sceneId
      = createScene sceneId { clearCurrentScene s with currentScene_ := sceneId } := by
  unfold switchToScene
  rw [if_neg (by omega)]

theorem switchToScene_of_invalid (s : SceneManager) (sceneId : Int)
    (h : sceneId < 0 ∨ sceneId ≥ 4) : switchToScene s sceneId = s := by
  unfold switchToScene
  rw [if_pos h]

/-- After a switch to a valid scene `getCurrentScene()` is that scene. -/
theorem switchToScene_currentScene (s : SceneManager) (sceneId : Int) (h0 : 0 ≤ sceneId)
    (h4 : sceneId < 4) : getCurrentScene (switchToScene s sceneId) = sceneId := by
  rw [switchToScene_of_valid s sceneId h0 h4]
  exact (createScene_grows sceneId _ h0 h4).2

/-- What `clearCurrentScene` does in a state that satisfies the invariant. -/
theorem clearCurrentScene_spec (s : SceneManager)
    (hinv : SceneInv s.world_ s.scenes_ s.currentScene_) :
    (clearCurrentScene s).world_ = removeAll s.world_
        (s.scenes_.getD (ScatterSampler.toSizeT s.currentScene_) []) ∧
      (clearCurrentScene s).scenes_.length = 4 ∧
      (∀ i, (clearCurrentScene s).scenes_.getD i [] = []) ∧
      (clearCurrentScene s).currentScene_ = s.currentScene_ := by
  obtain ⟨hlen, h0, h4, hothers, -⟩ := hinv
  have hidx : ScatterSampler.toSizeT s.currentScene_ < s.scenes_.length := by
    rw [toSizeT_of_scene _ h0 h4, hlen]
    omega
  unfold clearCurrentScene
  rw [if_pos hidx]
  refine ⟨rfl, by simp [hlen], ?_, rfl⟩
  intro i
  by_cases hi : i = ScatterSampler.toSizeT s.currentScene_
  · subst hi
    exact getD_set_self _ _ _ hidx
  · rw [getD_set_ne _ _ _ _ (Ne.symm hi)]
    exact hothers i hi

/-- The invariant is kept by `switchToScene`. -/
theorem switchToScene_inv (s : SceneManager) (sceneId : Int)
    (hinv : SceneInv s.world_ s.scenes_ s.currentScene_) :
    SceneInv (switchToScene s sceneId).world_ (switchToScene s sceneId).scenes_
      (switchToScene s sceneId).currentScene_ := by
  by_cases hv : sceneId < 0 ∨ sceneId ≥ 4
  · rw [switchToScene_of_invalid s sceneId hv]
    exact hinv
  · have h0 : 0 ≤ sceneId := by omega
    have h4 : sceneId < 4 := by omega
    obtain ⟨-, c2, c3, -⟩ := clearCurrentScene_spec s hinv
    rw [switchToScene_of_valid s sceneId h0 h4]
    have hg := createScene_grows sceneId
      { clearCurrentScene s with currentScene_ := sceneId } h0 h4
    rw [hg.2]
    apply sceneInv_of_grows _ _ _ _ sceneId h0 h4 c2 c3
    rw [toSizeT_of_scene _ h0 h4]
    exact hg.1

theorem getD_replicate_nil (i : Nat) : (List.replicate 4 ([] : List Nat)).getD i [] = [] := by
  by_cases h : i < 4
  · interval_cases i <;> rfl
  · exact getD_of_length_le _ _ (by simp; omega)

/-- Every reachable state satisfies the invariant. -/
theorem reachable_inv (s : SceneManager) (h : Reachable s) :
    SceneInv s.world_ s.scenes_ s.currentScene_ := by
  induction h with
  | construct w =>
    refine ⟨by simp [SceneManager.new], le_refl _,
      (by decide : (0 : Int) < 4), ?_, ?_⟩
    · intro i _
      exact getD_replicate_nil i
    · intro i h hh
      rw [show (SceneManager.new w).scenes_ = List.replicate 4 [] from rfl,
        getD_replicate_nil] at hh
      exact absurd hh (List.not_mem_nil h)
  | switch s sceneId _ ih => exact switchToScene_inv s sceneId ih
  | worldAdd s kind _ ih =>
    obtain ⟨a1, a2, a3, a4, a5⟩ := ih
    exact ⟨a1, a2, a3, a4, fun i h hh => Nat.lt_succ_of_lt (a5 i h hh)⟩
  | worldRemove s handle _ ih => exact ih

/-- The effect of a switch to a valid scene in a state that satisfies the invariant:
the handles of the old scene are removed from the world in list order, the old list is
emptied, only then the objects of the new scene are created, and no old handle is left
in the world or in a scene list. -/
theorem switchToScene_removes (s : SceneManager) (sceneId : Int)
    (hinv : SceneInv s.world_ s.scenes_ s.currentScene_) (h0 : 0 ≤ sceneId)
    (h4 : sceneId < 4) :
    (clearCurrentScene s).world_.calls = s.world_.calls ++
        (s.scenes_.getD (ScatterSampler.toSizeT s.currentScene_) []).map WorldCall.remove ∧
      (∀ i, (clearCurrentScene s).scenes_.getD i [] = []) ∧
      switchToScene s sceneId
        = createScene sceneId { clearCurrentScene s with currentScene_ := sceneId } ∧
      (∃ created, (switchToScene s sceneId).world_.calls = s.world_.calls ++
          (s.scenes_.getD (ScatterSampler.toSizeT s.currentScene_) []).map
            WorldCall.remove ++ created ∧
        ∀ c ∈ created, ∃ kind handle, c = WorldCall.add kind handle) ∧
      (∀ h ∈ s.scenes_.getD (ScatterSampler.toSizeT s.currentScene_) [],
        h ∉ (switchToScene s sceneId).world_.handles ∧
        ∀ l ∈ (switchToScene s sceneId).scenes_, h ∉ l) := by
  obtain ⟨c1, c2, c3, -⟩ := clearCurrentScene_spec s hinv
  have hsw := switchToScene_of_valid s sceneId h0 h4
  obtain ⟨⟨g1, g2, ⟨created, g3, g3'⟩, g4, g5, g6⟩, -⟩ := createScene_grows sceneId
    { clearCurrentScene s with currentScene_ := sceneId } h0 h4
  have hcalls : (clearCurrentScene s).world_.calls = s.world_.calls ++
      (s.scenes_.getD (ScatterSampler.toSizeT s.currentScene_) []).map WorldCall.remove := by
    rw [c1, removeAll_calls]
  refine ⟨hcalls, c3, hsw, ⟨created, ?_, g3'⟩, ?_⟩
  · rw [hsw, g3]
    show (clearCurrentScene s).world_.calls ++ created = _
    rw [hcalls]
  · intro h hh
    have hold : h < s.world_.next := hinv.2.2.2.2 _ h hh
    have hnext : (clearCurrentScene s).world_.next = s.world_.next := by
      rw [c1, removeAll_next]
    rw [hsw]
    constructor
    · intro hmem
      rcases g5 h hmem with h1 | h1
      · have h1' : h ∈ (clearCurrentScene s).world_.handles := h1
        rw [c1, mem_handles_removeAll] at h1'
        exact h1'.2 hh
      · have : (clearCurrentScene s).world_.next ≤ h := h1.1
        omega
    · intro l hl hmem
      obtain ⟨i, rfl⟩ := mem_scenes_getD _ l hl
      by_cases hi : i = sceneId.toNat
      · subst hi
        rcases g6 h hmem with h1 | h1
        · have h1' : h ∈ (clearCurrentScene s).scenes_.getD sceneId.toNat [] := h1
          rw [c3] at h1'
          exact absurd h1' (List.not_mem_nil h)
        · have : (clearCurrentScene s).world_.next ≤ h := h1.1
          omega
      · rw [g2 i hi] at hmem
        have hmem' : h ∈ (clearCurrentScene s).scenes_.getD i [] := hmem
        rw [c3] at hmem'
        exact absurd hmem' (List.not_mem_nil h)

end MultiScene

/-! # The simulation loop of `multi_scene_environment.cpp`: facts -/

namespace MultiScene

open Raisim

theorem mainInit_currentScene : getCurrentScene mainInit = 0 :=
  switchToScene_currentScene _ 0 (by decide) (by decide)

/-- The trigger of `main` moves a scene in `0 .. 3` to its successor modulo 4. -/
theorem trigger_currentScene (s : SceneManager) (h0 : 0 ≤ getCurrentScene s)
    (h4 : getCurrentScene s < 4) :
    getCurrentScene (trigger s) = (getCurrentScene s + 1) % 4 := by
  unfold trigger
  rw [Int.tmod_eq_emod (by omega) (by decide)]
  exact switchToScene_currentScene _ _ (by omega) (by omega)

/-- The state after `n` iterations of the simulation loop: a switch was made at every
positive multiple of `10000` below `n`, each to the successor scene. -/
theorem simLoop_spec (n : Nat) :
    getCurrentScene (simLoop n { mgr := mainInit, switches := [] }).mgr
        = (((n - 1) / 10000 % 4 : Nat) : Int) ∧
      (simLoop n { mgr := mainInit, switches := [] }).switches =
        (List.range ((n - 1) / 10000)).map (fun j =>
          ((((j + 1) * 10000 : Nat) : Int), (((j + 1) % 4 : Nat) : Int),
            (((j + 1) % 4 : Nat) : Int))) := by
  induction n with
  | zero =>
    refine ⟨?_, by simp [simLoop]⟩
    simp only [simLoop]
    rw [mainInit_currentScene]
    rfl
  | succ n ih =>
    obtain ⟨ih1, ih2⟩ := ih
    simp only [simLoop, loopStep, sceneChangeInterval]
    have htm : Int.tmod (n : Int) 10000 = (n : Int) % 10000 :=
      Int.tmod_eq_emod (Int.ofNat_nonneg n) (by decide)
    by_cases hc : 0 < (n : Int) ∧ Int.tmod (n : Int) 10000 = 0
    · rw [if_pos hc]
      rw [htm] at hc
      have hq : (n + 1 - 1) / 10000 = (n - 1) / 10000 + 1 := by omega
      have hn : n = ((n - 1) / 10000 + 1) * 10000 := by omega
      have hcur := trigger_currentScene (simLoop n { mgr := mainInit, switches := [] }).mgr
        (by rw [ih1]; omega) (by rw [ih1]; omega)
      have hnext : Int.tmod
          (getCurrentScene (simLoop n { mgr := mainInit, switches := [] }).mgr + 1) 4
          = ((((n - 1) / 10000 + 1) % 4 : Nat) : Int) := by
        rw [Int.tmod_eq_emod (by rw [ih1]; omega) (by decide), ih1]
        omega
      have hcur' : getCurrentScene
          (trigger (simLoop n { mgr := mainInit, switches := [] }).mgr)
          = ((((n - 1) / 10000 + 1) % 4 : Nat) : Int) := by
        rw [hcur, ih1]
        omega
      refine ⟨by rw [hq]; exact hcur', ?_⟩
      rw [hq, List.range_succ, List.map_append, List.map_singleton, ih2, hnext, hcur']
      have hn' : (n : Int) = ((((n - 1) / 10000 + 1) * 10000 : Nat) : Int) := by
        exact_mod_cast hn
      show _ ++ [((n : Int), _, _)] = _
      rw [hn']
    · rw [if_neg hc]
      rw [htm] at hc
      have hq : (n + 1 - 1) / 10000 = (n - 1) / 10000 := by omega
      rw [hq]
      exact ⟨ih1, ih2⟩

end MultiScene

/-! # The scene manager of `mytest.cpp`: facts -/

namespace Raisim

theorem sceneInv_world_mono (w w' : World) (sc : List (List Nat)) (cur : Int)
    (h : SceneInv w sc cur) (hn : w.next ≤ w'.next) : SceneInv w' sc cur := by
  obtain ⟨a1, a2, a3, a4, a5⟩ := h
  exact ⟨a1, a2, a3, a4, fun i h hh => lt_of_lt_of_le (a5 i h hh) hn⟩

theorem sceneInv_push (w : World) (sc : List (List Nat)) (cur : Int) (handle : Nat)
    (h : SceneInv w sc cur) (hh : handle < w.next) :
    SceneInv w (pushBack sc (ScatterSampler.toSizeT cur) handle) cur := by
  obtain ⟨a1, a2, a3, a4, a5⟩ := h
  have hidx : ScatterSampler.toSizeT cur < sc.length := by
    rw [toSizeT_of_scene _ a2 a3, a1]
    omega
  refine ⟨by simp [pushBack, a1], a2, a3, ?_, ?_⟩
  · intro i hi
    rw [pushBack, getD_set_ne _ _ _ _ (Ne.symm hi)]
    exact a4 i hi
  · intro i x hx
    by_cases hi : i = ScatterSampler.toSizeT cur
    · subst hi
      rw [pushBack, getD_set_self _ _ _ hidx, List.mem_append, List.mem_singleton] at hx
      rcases hx with h1 | h1
      · exact a5 _ x h1
      · rw [h1]; exact hh
    · rw [pushBack, getD_set_ne _ _ _ _ (Ne.symm hi)] at hx
      exact a5 i x hx

end Raisim

namespace MyTest

open Raisim ScatterSampler

section Manager

variable {K : Type} [LinearOrderedField K]

/-- Creating a scene only creates its height map, pushes the handle to the list of that
scene and leaves `currentScene_` alone. -/
theorem createScene_grows_mytest (sceneId : Int) (s : SceneManager K) (h0 : 0 ≤ sceneId)
    (h4 : sceneId < 4) :
    Grows sceneId.toNat s.world_ s.scenes_ (createScene sceneId s).world_
        (createScene sceneId s).scenes_ ∧
      (createScene sceneId s).currentScene_ = s.currentScene_ := by
  obtain rfl | rfl | rfl | rfl : sceneId = 0 ∨ sceneId = 1 ∨ sceneId = 2 ∨ sceneId = 3 := by
    omega
  · have e : createScene 0 s = createHillScene s := by simp [createScene]
    rw [e]
    exact ⟨grows_add_push 0 s.world_ s.scenes_ ObjectKind.heightMap, rfl⟩
  · have e : createScene 1 s = createLakeScene s := by simp [createScene]
    rw [e]
    exact ⟨grows_add_push 1 s.world_ s.scenes_ ObjectKind.heightMap, rfl⟩
  · have e : createScene 2 s = createMountainScene s := by simp [createScene]
    rw [e]
    exact ⟨grows_add_push 2 s.world_ s.scenes_ ObjectKind.heightMap, rfl⟩
  · have e : createScene 3 s = createWheatScene s := by simp [createScene]
    rw [e]
    exact ⟨grows_add_push 3 s.world_ s.scenes_ ObjectKind.heightMap, rfl⟩

theorem switchToScene_of_valid_mytest (s : SceneManager K) (sceneId : Int) (h0 : 0 ≤ sceneId)
    (h4 : sceneId < 4) :
    switchToScene s sceneId
      = createScene sceneId { clearCurrentScene s with currentScene_ := sceneId } := by
  unfold switchToScene
  rw [if_neg (by omega)]

theorem switchToScene_of_invalid_mytest (s : SceneManager K) (sceneId : Int)
    (h : sceneId < 0 ∨ sceneId ≥ 4) : switchToScene s sceneId = s := by
  unfold switchToScene
  rw [if_pos h]

/-- After a switch to a valid scene `getCurrentScene()` is that scene. -/
theorem switchToScene_currentScene_mytest (s : SceneManager K) (sceneId : Int) (h0 : 0 ≤ sceneId)
    (h4 : sceneId < 4) : getCurrentScene (switchToScene s sceneId) = sceneId := by
  rw [switchToScene_of_valid_mytest s sceneId h0 h4]
  exact (createScene_grows_mytest sceneId _ h0 h4).2

/-- What `clearCurrentScene` does in a state that satisfies the invariant. -/
theorem clearCurrentScene_spec_mytest (s : SceneManager K)
    (hinv : SceneInv s.world_ s.scenes_ s.currentScene_) :
    (clearCurrentScene s).world_ = removeAll s.world_
        (s.scenes_.getD (toSizeT s.currentScene_) []) ∧
      (clearCurrentScene s).scenes_.length = 4 ∧
      (∀ i, (clearCurrentScene s).scenes_.getD i [] = []) ∧
      (clearCurrentScene s).currentScene_ = s.currentScene_ := by
  obtain ⟨hlen, h0, h4, hothers, -⟩ := hinv
  have hidx : toSizeT s.currentScene_ < s.scenes_.length := by
    rw [toSizeT_of_scene _ h0 h4, hlen]
    omega
  unfold clearCurrentScene
  rw [if_pos hidx]
  refine ⟨rfl, by simp [hlen], ?_, rfl⟩
  intro i
  by_cases hi : i = toSizeT s.currentScene_
  · subst hi
    exact getD_set_self _ _ _ hidx
  · rw [getD_set_ne _ _ _ _ (Ne.symm hi)]
    exact hothers i hi

/-- The invariant is kept by `switchToScene`. -/
theorem switchToScene_inv_mytest (s : SceneManager K) (sceneId : Int)
    (hinv : SceneInv s.world_ s.scenes_ s.currentScene_) :
    SceneInv (switchToScene s sceneId).world_ (switchToScene s sceneId).scenes_
      (switchToScene s sceneId).currentScene_ := by
  by_cases hv : sceneId < 0 ∨ sceneId ≥ 4
  · rw [switchToScene_of_invalid_mytest s sceneId hv]
    exact hinv
  · have h0 : 0 ≤ sceneId := by omega
    have h4 : sceneId < 4 := by omega
    obtain ⟨-, c2, c3, -⟩ := clearCurrentScene_spec_mytest s hinv
    rw [switchToScene_of_valid_mytest s sceneId h0 h4]
    have hg := createScene_grows_mytest sceneId
      { clearCurrentScene s with currentScene_ := sceneId } h0 h4
    rw [hg.2]
    apply sceneInv_of_grows _ _ _ _ sceneId h0 h4 c2 c3
    rw [toSizeT_of_scene _ h0 h4]
    exact hg.1

theorem addToCurrent_inv (s : SceneManager K) (kind : ObjectKind)
    (hinv : SceneInv s.world_ s.scenes_ s.currentScene_) :
    SceneInv (addToCurrent s kind).world_ (addToCurrent s kind).scenes_
      (addToCurrent s kind).currentScene_ := by
  have h1 := sceneInv_world_mono s.world_ (s.world_.add kind).2 _ _ hinv (Nat.le_succ _)
  exact sceneInv_push _ _ _ _ h1 (Nat.lt_succ_self _)

/-- The obstacle loop keeps the invariant and `currentScene_` and hands out handles
only. -/
theorem obstacleLoop_inv (m : CMath K) (c : Point2D K) (pts : List (Point2D K)) (idx : Int)
    (s : SceneManager K) (hinv : SceneInv s.world_ s.scenes_ s.currentScene_) :
    SceneInv (obstacleLoop m c pts idx s).world_ (obstacleLoop m c pts idx s).scenes_
        (obstacleLoop m c pts idx s).currentScene_ ∧
      (obstacleLoop m c pts idx s).currentScene_ = s.currentScene_ ∧
      s.world_.next ≤ (obstacleLoop m c pts idx s).world_.next := by
  induction pts generalizing idx s with
  | nil => exact ⟨hinv, rfl, le_refl _⟩
  | cons p rest ih =>
    simp only [obstacleLoop]
    split
    · exact ih idx s hinv
    · obtain ⟨i1, i2, i3⟩ := ih (idx + 1) (addToCurrent s (ObjectKind.mesh (meshFile idx)))
        (addToCurrent_inv s _ hinv)
      refine ⟨i1, i2, le_trans ?_ i3⟩
      exact Nat.le_succ _

theorem obstacleLoop_currentScene (m : CMath K) (c : Point2D K) (pts : List (Point2D K))
    (idx : Int) (s : SceneManager K) :
    (obstacleLoop m c pts idx s).currentScene_ = s.currentScene_ := by
  induction pts generalizing idx s with
  | nil => rfl
  | cons p rest ih =>
    simp only [obstacleLoop]
    split
    · exact ih idx s
    · rw [ih]
      rfl

/-- `addObject` leaves `currentScene_` alone. -/
theorem addObject_currentScene (m : CMath K) (draws : Nat → K × K) (s : SceneManager K) :
    (addObject m draws s).1.currentScene_ = s.currentScene_ := by
  simp only [addObject, generateScatteredPointsOn]
  rw [obstacleLoop_currentScene]
  rfl

theorem addMarkers_inv (s : SceneManager K)
    (hinv : SceneInv s.world_ s.scenes_ s.currentScene_) :
    SceneInv (addMarkers s).world_ (addMarkers s).scenes_ (addMarkers s).currentScene_ ∧
      (addMarkers s).world_.next = s.world_.next + 4 := by
  have h1 := sceneInv_world_mono s.world_
    ((((s.world_.add ObjectKind.box).2.add ObjectKind.box).2.add
      ObjectKind.box).2.add ObjectKind.sphere).2 _ _ hinv
    (by simp only [World.add]; omega)
  refine ⟨sceneInv_push _ _ _ _ h1 ?_, by simp [addMarkers, World.add]⟩
  show s.world_.next + 1 + 1 + 1 < s.world_.next + 1 + 1 + 1 + 1
  omega

/-- The invariant is kept by `addObject`. -/
theorem addObject_inv (m : CMath K) (draws : Nat → K × K) (s : SceneManager K)
    (hinv : SceneInv s.world_ s.scenes_ s.currentScene_) :
    SceneInv (addObject m draws s).1.world_ (addObject m draws s).1.scenes_
      (addObject m draws s).1.currentScene_ := by
  obtain ⟨m1, m2⟩ := addMarkers_inv s hinv
  obtain ⟨l1, l2, l3⟩ := obstacleLoop_inv m
    { x := s.robotPosition_.1, y := s.robotPosition_.2.1 } (obstaclePoints m draws s) 0
    (addMarkers s) m1
  rw [m2] at l3
  simp only [addObject, generateScatteredPointsOn]
  apply sceneInv_push
  · apply sceneInv_push
    · apply sceneInv_push
      · exact l1
      · show s.world_.next < _
        omega
    · show s.world_.next + 1 < _
      omega
  · show s.world_.next + 1 + 1 < _
    omega

/-- Every reachable state satisfies the invariant. -/
theorem reachable_inv_mytest (m : CMath K) (getHeight : Nat → K → K → K) (s : SceneManager K)
    (h : Reachable m getHeight s) : SceneInv s.world_ s.scenes_ s.currentScene_ := by
  induction h with
  | construct w heightMap0 robot0 position0 orientation0 =>
    refine ⟨by simp [SceneManager.new], le_refl _, (by decide : (0 : Int) < 4), ?_, ?_⟩
    · intro i _
      exact MultiScene.getD_replicate_nil i
    · intro i h hh
      rw [show (SceneManager.new w heightMap0 robot0 position0 orientation0).scenes_
        = List.replicate 4 [] from rfl, MultiScene.getD_replicate_nil] at hh
      exact absurd hh (List.not_mem_nil h)
  | switch s sceneId _ ih => exact switchToScene_inv_mytest s sceneId ih
  | addObject s draws _ ih => exact addObject_inv m draws s ih
  | addRobot s _ ih =>
    exact sceneInv_world_mono _ _ _ _ ih (Nat.le_succ _)
  | setRobotInitialState s pos_xy ori _ ih => exact ih
  | worldAdd s kind _ ih =>
    exact sceneInv_world_mono _ _ _ _ ih (Nat.le_succ _)
  | worldRemove s handle _ ih => exact ih

/-- The effect of a switch to a valid scene in a state that satisfies the invariant:
the handles of the old scene are removed from the world in list order, the old list is
emptied, only then the height map of the new scene is created, and no old handle is left
in the world or in a scene list. -/
theorem switchToScene_removes_mytest (s : SceneManager K) (sceneId : Int)
    (hinv : SceneInv s.world_ s.scenes_ s.currentScene_) (h0 : 0 ≤ sceneId)
    (h4 : sceneId < 4) :
    (clearCurrentScene s).world_.calls = s.world_.calls ++
        (s.scenes_.getD (toSizeT s.currentScene_) []).map WorldCall.remove ∧
      (∀ i, (clearCurrentScene s).scenes_.getD i [] = []) ∧
      switchToScene s sceneId
        = createScene sceneId { clearCurrentScene s with currentScene_ := sceneId } ∧
      (∃ created, (switchToScene s sceneId).world_.calls = s.world_.calls ++
          (s.scenes_.getD (toSizeT s.currentScene_) []).map WorldCall.remove ++ created ∧
        ∀ c ∈ created, ∃ kind handle, c = WorldCall.add kind handle) ∧
      (∀ h ∈ s.scenes_.getD (toSizeT s.currentScene_) [],
        h ∉ (switchToScene s sceneId).world_.handles ∧
        ∀ l ∈ (switchToScene s sceneId).scenes_, h ∉ l) := by
  obtain ⟨c1, c2, c3, -⟩ := clearCurrentScene_spec_mytest s hinv
  have hsw := switchToScene_of_valid_mytest s sceneId h0 h4
  obtain ⟨⟨g1, g2, ⟨created, g3, g3'⟩, g4, g5, g6⟩, -⟩ := createScene_grows_mytest sceneId
    { clearCurrentScene s with currentScene_ := sceneId } h0 h4
  have hcalls : (clearCurrentScene s).world_.calls = s.world_.calls ++
      (s.scenes_.getD (toSizeT s.currentScene_) []).map WorldCall.remove := by
    rw [c1, removeAll_calls]
  refine ⟨hcalls, c3, hsw, ⟨created, ?_, g3'⟩, ?_⟩
  · rw [hsw, g3]
    show (clearCurrentScene s).world_.calls ++ created = _
    rw [hcalls]
  · intro h hh
    have hold : h < s.world_.next := hinv.2.2.2.2 _ h hh
    have hnext : (clearCurrentScene s).world_.next = s.world_.next := by
      rw [c1, removeAll_next]
    rw [hsw]
    constructor
    · intro hmem
      rcases g5 h hmem with h1 | h1
      · have h1' : h ∈ (clearCurrentScene s).world_.handles := h1
        rw [c1, mem_handles_removeAll] at h1'
        exact h1'.2 hh
      · have : (clearCurrentScene s).world_.next ≤ h := h1.1
        omega
    · intro l hl hmem
      obtain ⟨i, rfl⟩ := mem_scenes_getD _ l hl
      by_cases hi : i = sceneId.toNat
      · subst hi
        rcases g6 h hmem with h1 | h1
        · have h1' : h ∈ (clearCurrentScene s).scenes_.getD sceneId.toNat [] := h1
          rw [c3] at h1'
          exact absurd h1' (List.not_mem_nil h)
        · have : (clearCurrentScene s).world_.next ≤ h := h1.1
          omega
      · rw [g2 i hi] at hmem
        have hmem' : h ∈ (clearCurrentScene s).scenes_.getD i [] := hmem
        rw [c3] at hmem'
        exact absurd hmem' (List.not_mem_nil h)

end Manager

end MyTest

/-! # The claims about the scene managers and the main programs -/

namespace MyTest

open Raisim ScatterSampler

section ManagerClaims

variable {K : Type} [LinearOrderedField K]

/-- C13: with the random source an explicit input, `generateScatteredPoints` is
deterministic and independent of the manager: two calls with the same centre, radius,
count and minimum distance, made on any two managers with streams that agree on the
first `maxAttempts` draws (in particular with the same stream), return the same list,
and each call leaves its manager as it was. -/
theorem generateScatteredPointsOn_deterministic (m : CMath K) (s1 s2 : SceneManager K)
    (center : Point2D K) (radius : K) (numPoints : Int) (minDist : K)
    (draws1 draws2 : Nat → K × K)
    (h : ∀ i, i < (maxAttempts numPoints).toNat → draws1 i = draws2 i) :
    (generateScatteredPointsOn m s1 center radius numPoints minDist draws1).1 =
        (generateScatteredPointsOn m s2 center radius numPoints minDist draws2).1 ∧
      (generateScatteredPointsOn m s1 center radius numPoints minDist draws1).2 = s1 ∧
      (generateScatteredPointsOn m s2 center radius numPoints minDist draws2).2 = s2 := by
  refine ⟨?_, rfl, rfl⟩
  simp only [generateScatteredPointsOn, generateScatteredPoints]
  rw [samplerRun_congr m center radius numPoints minDist draws1 draws2 h]

theorem onEnter_currentScene (m : CMath K) (draws : Nat → K × K) (st : MainState K) :
    getCurrentScene (onEnter m draws st).mgr = 0 := by
  simp only [onEnter, getCurrentScene, initializeRobot]
  rw [addObject_currentScene]
  exact switchToScene_currentScene_mytest _ 0 (by decide) (by decide)

theorem mainInit_currentScene_mytest (m : CMath K) (getHeight : Nat → K → K → K)
    (draws : Nat → K × K) (heightMap0 robot0 : Option Nat) (position0 : K × K × K)
    (orientation0 quaternion : K × K × K × K) :
    getCurrentScene
      (mainInit m getHeight draws heightMap0 robot0 position0 orientation0 quaternion).mgr
      = 0 := by
  simp only [mainInit, getCurrentScene, initializeRobot]
  rw [addObject_currentScene]
  rfl

theorem mainInit_reachable (m : CMath K) (getHeight : Nat → K → K → K)
    (draws : Nat → K × K) (heightMap0 robot0 : Option Nat) (position0 : K × K × K)
    (orientation0 quaternion : K × K × K × K) :
    Reachable m getHeight
      (mainInit m getHeight draws heightMap0 robot0 position0 orientation0 quaternion).mgr :=
  Reachable.addObject _ _
    (Reachable.setRobotInitialState _ _ _
      (Reachable.addRobot _ (Reachable.construct _ _ _ _ _)))

end ManagerClaims

/-- Witness of C13: two different managers and two streams that agree on the first
`200` draws give the same list for count `2`. -/
theorem generateScatteredPointsOn_deterministic_witness :
    (∀ i, i < (maxAttempts 2).toNat →
      (fun i : Nat => ((0 : ℝ), if i = 0 then (0 : ℝ) else 3)) i =
        (fun i : Nat => if i < 200 then ((0 : ℝ), if i = 0 then (0 : ℝ) else 3)
          else ((1 : ℝ), (1 : ℝ))) i) ∧
    (generateScatteredPointsOn
      ({ hypot := fun a b => Real.sqrt (a * a + b * b), cos := Real.cos, sin := Real.sin } :
      CMath ℝ)
      (SceneManager.new World.empty none none (0, 0, 0) (0, 0, 0, 0))
      ⟨0, 0⟩ 5 2 2 (fun i : Nat => ((0 : ℝ), if i = 0 then (0 : ℝ) else 3))).1 =
    (generateScatteredPointsOn
      ({ hypot := fun a b => Real.sqrt (a * a + b * b), cos := Real.cos, sin := Real.sin } :
      CMath ℝ)
      (SceneManager.new (World.empty.add ObjectKind.ground).2 (some 0) none (1, 2, 3)
        (1, 0, 0, 0))
      ⟨0, 0⟩ 5 2 2
      (fun i : Nat => if i < 200 then ((0 : ℝ), if i = 0 then (0 : ℝ) else 3)
        else ((1 : ℝ), (1 : ℝ)))).1 := by
  have h : ∀ i, i < (maxAttempts 2).toNat →
      (fun i : Nat => ((0 : ℝ), if i = 0 then (0 : ℝ) else 3)) i =
        (fun i : Nat => if i < 200 then ((0 : ℝ), if i = 0 then (0 : ℝ) else 3)
          else ((1 : ℝ), (1 : ℝ))) i := by
    intro i hi
    have h200 : (maxAttempts 2).toNat = 200 := by decide
    rw [h200] at hi
    simp [hi]
  exact ⟨h, (generateScatteredPointsOn_deterministic _ _ _ ⟨0, 0⟩ 5 2 2 _ _ h).1⟩

/-- C15 (failing input): in mytest.cpp the trigger entered from scene `0` calls
`switchToScene(0)`: the current scene after it is `0`, not the successor
`(0 + 1) % 4 = 1`. -/
theorem onEnter_stays_in_scene_zero :
    getCurrentScene (mainInit
      ({ hypot := fun a b => Real.sqrt (a * a + b * b), cos := Real.cos, sin := Real.sin } :
      CMath ℝ)
      (fun _ _ _ => (0 : ℝ)) (fun i : Nat => ((0 : ℝ), if i = 0 then (0 : ℝ) else 3)) none none (0, 0, 0) (0, 0, 0, 0) (0.7071, 0, 0, 0.7071)).mgr = 0 ∧
    getCurrentScene (onEnter
      ({ hypot := fun a b => Real.sqrt (a * a + b * b), cos := Real.cos, sin := Real.sin } :
      CMath ℝ)
      (fun i : Nat => ((0 : ℝ), if i = 0 then (0 : ℝ) else 3))
      (mainInit
      ({ hypot := fun a b => Real.sqrt (a * a + b * b), cos := Real.cos, sin := Real.sin } :
      CMath ℝ)
      (fun _ _ _ => (0 : ℝ)) (fun i : Nat => ((0 : ℝ), if i = 0 then (0 : ℝ) else 3)) none none (0, 0, 0) (0, 0, 0, 0) (0.7071, 0, 0, 0.7071))).mgr = 0 ∧
    getCurrentScene (onEnter
      ({ hypot := fun a b => Real.sqrt (a * a + b * b), cos := Real.cos, sin := Real.sin } :
      CMath ℝ)
      (fun i : Nat => ((0 : ℝ), if i = 0 then (0 : ℝ) else 3))
      (mainInit
      ({ hypot := fun a b => Real.sqrt (a * a + b * b), cos := Real.cos, sin := Real.sin } :
      CMath ℝ)
      (fun _ _ _ => (0 : ℝ)) (fun i : Nat => ((0 : ℝ), if i = 0 then (0 : ℝ) else 3)) none none (0, 0, 0) (0, 0, 0, 0) (0.7071, 0, 0, 0.7071))).mgr ≠
      Int.tmod (getCurrentScene (mainInit
      ({ hypot := fun a b => Real.sqrt (a * a + b * b), cos := Real.cos, sin := Real.sin } :
      CMath ℝ)
      (fun _ _ _ => (0 : ℝ)) (fun i : Nat => ((0 : ℝ), if i = 0 then (0 : ℝ) else 3)) none none (0, 0, 0) (0, 0, 0, 0) (0.7071, 0, 0, 0.7071)).mgr + 1) 4 := by
  have h1 := mainInit_currentScene_mytest
    ({ hypot := fun a b => Real.sqrt (a * a + b * b), cos := Real.cos, sin := Real.sin } :
      CMath ℝ)
    (fun _ _ _ => (0 : ℝ)) (fun i : Nat => ((0 : ℝ), if i = 0 then (0 : ℝ) else 3)) none none (0, 0, 0) (0, 0, 0, 0) (0.7071, 0, 0, 0.7071)
  have h2 := onEnter_currentScene
    ({ hypot := fun a b => Real.sqrt (a * a + b * b), cos := Real.cos, sin := Real.sin } :
      CMath ℝ)
    (fun i : Nat => ((0 : ℝ), if i = 0 then (0 : ℝ) else 3))
    (mainInit
      ({ hypot := fun a b => Real.sqrt (a * a + b * b), cos := Real.cos, sin := Real.sin } :
      CMath ℝ)
      (fun _ _ _ => (0 : ℝ)) (fun i : Nat => ((0 : ℝ), if i = 0 then (0 : ℝ) else 3)) none none (0, 0, 0) (0, 0, 0, 0) (0.7071, 0, 0, 0.7071))
  refine ⟨h1, h2, ?_⟩
  rw [h2, h1]
  decide

/-- C19 (failing input): without a current height map `getTerrainHeightAt(10, 10)`
returns `0`, not the default height `1` of its message; with a height map it returns the
height of the map plus `5`. -/
theorem getTerrainHeightAt_without_heightMap :
    getTerrainHeightAt (fun _ x y => x + y)
      (SceneManager.new World.empty none none ((0 : ℝ), (0 : ℝ), (0 : ℝ))
        ((0 : ℝ), (0 : ℝ), (0 : ℝ), (0 : ℝ))) 10 10 = 0 ∧
    getTerrainHeightAt (fun _ x y => x + y)
      (SceneManager.new World.empty none none ((0 : ℝ), (0 : ℝ), (0 : ℝ))
        ((0 : ℝ), (0 : ℝ), (0 : ℝ), (0 : ℝ))) 10 10 ≠ (announcedDefaultHeight : ℝ) ∧
    getTerrainHeightAt (fun _ x y => x + y)
      (SceneManager.new World.empty (some 0) none ((0 : ℝ), (0 : ℝ), (0 : ℝ))
        ((0 : ℝ), (0 : ℝ), (0 : ℝ), (0 : ℝ))) 10 10 = (10 + 10) + 5 := by
  refine ⟨rfl, ?_, rfl⟩
  show (0 : ℝ) ≠ (announcedDefaultHeight : ℝ)
  simp [announcedDefaultHeight]

/-- The sampler call of `addObject` on a stream whose draws all have angle `0` and
radial distance `1`: only the first candidate is accepted. -/
theorem obstaclePoints_constant_stream :
    obstaclePoints
      ({ hypot := fun a b => Real.sqrt (a * a + b * b), cos := Real.cos, sin := Real.sin } :
      CMath ℝ)
      (fun _ : Nat => ((0 : ℝ), (1 : ℝ)))
      (SceneManager.new World.empty none none ((10 : ℝ), (10 : ℝ), (1 : ℝ))
      ((0 : ℝ), (0 : ℝ), (0 : ℝ), (0 : ℝ))) =
    [candidate
      ({ hypot := fun a b => Real.sqrt (a * a + b * b), cos := Real.cos, sin := Real.sin } :
      CMath ℝ)
      ⟨10, 10⟩ ((0 : ℝ), (1 : ℝ))] := by
  have hclose : ∀ i, 1 ≤ i →
      distance
        ({ hypot := fun a b => Real.sqrt (a * a + b * b), cos := Real.cos, sin := Real.sin } :
      CMath ℝ)
        (candidate
          ({ hypot := fun a b => Real.sqrt (a * a + b * b), cos := Real.cos, sin := Real.sin } :
      CMath ℝ)
          ⟨10, 10⟩ ((fun _ : Nat => ((0 : ℝ), (1 : ℝ))) i))
        (candidate
          ({ hypot := fun a b => Real.sqrt (a * a + b * b), cos := Real.cos, sin := Real.sin } :
      CMath ℝ)
          ⟨10, 10⟩ ((fun _ : Nat => ((0 : ℝ), (1 : ℝ))) 0)) < 3 := by
    intro i _
    rw [distance_self _ real_cmath_contracts.1]
    norm_num
  exact (samplerRun_points_singleton _ ⟨10, 10⟩ 15 100 3 _ hclose (by decide) (by decide)).1

/-- C20 (failing input): with the robot at `(10, 10)` and a stream whose draws all have
angle `0` and radial distance `1`, the sampler returns the single point `(11, 10)`;
`addObject` reports `1` obstacle but the point is closer than `2` to the centre and no
obstacle mesh is added to the world or to the scene list, which receives the marker
sphere and the three axis boxes only. -/
theorem addObject_reports_skipped_points :
    (addObject
      ({ hypot := fun a b => Real.sqrt (a * a + b * b), cos := Real.cos, sin := Real.sin } :
      CMath ℝ)
      (fun _ : Nat => ((0 : ℝ), (1 : ℝ)))
      (SceneManager.new World.empty none none ((10 : ℝ), (10 : ℝ), (1 : ℝ))
      ((0 : ℝ), (0 : ℝ), (0 : ℝ), (0 : ℝ)))).2 = 1 ∧
    meshCount (addObject
      ({ hypot := fun a b => Real.sqrt (a * a + b * b), cos := Real.cos, sin := Real.sin } :
      CMath ℝ)
      (fun _ : Nat => ((0 : ℝ), (1 : ℝ)))
      (SceneManager.new World.empty none none ((10 : ℝ), (10 : ℝ), (1 : ℝ))
      ((0 : ℝ), (0 : ℝ), (0 : ℝ), (0 : ℝ)))).1.world_ = 0 ∧
    (addObject
      ({ hypot := fun a b => Real.sqrt (a * a + b * b), cos := Real.cos, sin := Real.sin } :
      CMath ℝ)
      (fun _ : Nat => ((0 : ℝ), (1 : ℝ)))
      (SceneManager.new World.empty none none ((10 : ℝ), (10 : ℝ), (1 : ℝ))
      ((0 : ℝ), (0 : ℝ), (0 : ℝ), (0 : ℝ)))).1.scenes_ = [[3, 0, 1, 2], [], [], []] := by
  have hp := obstaclePoints_constant_stream
  have hd : distance
      ({ hypot := fun a b => Real.sqrt (a * a + b * b), cos := Real.cos, sin := Real.sin } :
      CMath ℝ)
      (candidate
        ({ hypot := fun a b => Real.sqrt (a * a + b * b), cos := Real.cos, sin := Real.sin } :
      CMath ℝ)
        ⟨10, 10⟩ ((0 : ℝ), (1 : ℝ))) ⟨10, 10⟩ < 2 := by
    rw [distance_candidate_center _ real_cmath_contracts.1 real_cmath_contracts.2 ⟨10, 10⟩
      ((0 : ℝ), (1 : ℝ)) (by norm_num)]
    norm_num
  have hs : (addObject
      ({ hypot := fun a b => Real.sqrt (a * a + b * b), cos := Real.cos, sin := Real.sin } :
      CMath ℝ)
      (fun _ : Nat => ((0 : ℝ), (1 : ℝ)))
      (SceneManager.new World.empty none none ((10 : ℝ), (10 : ℝ), (1 : ℝ))
      ((0 : ℝ), (0 : ℝ), (0 : ℝ), (0 : ℝ)))).1 =
      { addMarkers (SceneManager.new World.empty none none ((10 : ℝ), (10 : ℝ), (1 : ℝ))
      ((0 : ℝ), (0 : ℝ), (0 : ℝ), (0 : ℝ))) with
        scenes_ := [[3, 0, 1, 2], [], [], []] } := by
    simp only [addObject, generateScatteredPointsOn]
    rw [hp]
    have hd' : distance
        ({ hypot := fun a b => Real.sqrt (a * a + b * b), cos := Real.cos, sin := Real.sin } :
          CMath ℝ)
        (candidate
          ({ hypot := fun a b => Real.sqrt (a * a + b * b), cos := Real.cos,
             sin := Real.sin } : CMath ℝ)
          ⟨10, 10⟩ ((0 : ℝ), (1 : ℝ)))
        { x := (SceneManager.new World.empty none none ((10 : ℝ), (10 : ℝ), (1 : ℝ))
            ((0 : ℝ), (0 : ℝ), (0 : ℝ), (0 : ℝ))).robotPosition_.1,
          y := (SceneManager.new World.empty none none ((10 : ℝ), (10 : ℝ), (1 : ℝ))
            ((0 : ℝ), (0 : ℝ), (0 : ℝ), (0 : ℝ))).robotPosition_.2.1 } < 2 := hd
    simp only [obstacleLoop]
    rw [if_pos hd']
    rfl
  refine ⟨?_, ?_, ?_⟩
  · simp only [addObject]
    rw [hp]
    rfl
  · rw [hs]
    decide
  · rw [hs]

end MyTest

namespace MultiScene

/-- C18: in multi_scene_environment.cpp the 80000-iteration loop, entered in scene `0`,
calls `switchToScene` exactly at the iterations `10000, 20000, ..., 70000`; the `k`-th
call passes `k mod 4`, after it `getCurrentScene()` is `k mod 4`, and the loop ends in
scene `3`. -/
theorem mainRun_switches :
    getCurrentScene mainInit = 0 ∧
    mainRun.switches =
      [(10000, 1, 1), (20000, 2, 2), (30000, 3, 3), (40000, 0, 0), (50000, 1, 1),
        (60000, 2, 2), (70000, 3, 3)] ∧
    mainRun.switches.length = 7 ∧
    getCurrentScene mainRun.mgr = 3 := by
  obtain ⟨h1, h2⟩ := simLoop_spec 80000
  refine ⟨mainInit_currentScene, ?_, ?_, ?_⟩
  · unfold mainRun
    rw [h2]
    decide
  · unfold mainRun
    rw [h2]
    decide
  · unfold mainRun
    rw [h1]
    decide

end MultiScene

/-! # The simulation loops: facts -/

namespace Programs

/-- A counting loop `for (int i = 0; i < bound; i++)` leaves after `bound - i` further
iterations. -/
theorem runLoop_counting (p : Example) (bound : Int)
    (hcond : ∀ i, loopCondition p i = decide (i < bound)) (fuel : Nat) (i : Int)
    (calls : Nat) (hi : i ≤ bound) (hfuel : (bound - i).toNat ≤ fuel) :
    runLoop p fuel i calls = some (calls + (bound - i).toNat) := by
  induction fuel generalizing i calls with
  | zero =>
    have : i = bound := by omega
    subst this
    simp [runLoop, hcond]
  | succ fuel ih =>
    by_cases hlt : i < bound
    · have h := ih (i + 1) (calls + 1) (by omega) (by omega)
      simp only [runLoop, hcond, hlt, decide_True, if_true]
      rw [h]
      congr 1
      omega
    · have : i = bound := by omega
      subst this
      simp [runLoop, hcond]

/-- The loop `while (true)` of mytest.cpp is never left. -/
theorem runLoop_mytest (fuel : Nat) (i : Int) (calls : Nat) :
    runLoop Example.mytest fuel i calls = none := by
  induction fuel generalizing i calls with
  | zero => simp [runLoop, loopCondition]
  | succ fuel ih => simp [runLoop, loopCondition, ih]

/-- Counterexample to C14 as stated: the simulation loop of mytest.cpp never reaches
`killServer`, however far it is unrolled. -/
theorem mytest_never_reaches_killServer :
    ¬ ∃ fuel n, runLoop Example.mytest fuel 0 0 = some n := by
  rintro ⟨fuel, n, h⟩
  rw [runLoop_mytest] at h
  exact Option.noConfusion h

/-- C14 (amended): every example program other than mytest.cpp runs its simulation loop
a fixed number of times and then reaches `killServer`: 200000000 calls of
`integrateWorldThreadSafe` in anymals.cpp, 80000 in multi_scene_environment.cpp and
2000000 in each of the other six programs; the loop of mytest.cpp is `while (true)` and
is never left. -/
theorem simulation_loops_run_fixed_counts :
    (∀ fuel, 200000000 ≤ fuel → runLoop Example.anymals fuel 0 0 = some 200000000) ∧
    (∀ fuel, 80000 ≤ fuel →
      runLoop Example.multi_scene_environment fuel 0 0 = some 80000) ∧
    (∀ fuel, 2000000 ≤ fuel →
      runLoop Example.advanced_custom_environment fuel 0 0 = some 2000000 ∧
      runLoop Example.anymals_custom_terrain fuel 0 0 = some 2000000 ∧
      runLoop Example.custom_environment fuel 0 0 = some 2000000 ∧
      runLoop Example.hill1_with_materials fuel 0 0 = some 2000000 ∧
      runLoop Example.multi_zone_environment fuel 0 0 = some 2000000 ∧
      runLoop Example.simple_multi_scene fuel 0 0 = some 2000000) ∧
    (∀ fuel, runLoop Example.mytest fuel 0 0 = none) := by
  refine ⟨?_, ?_, ?_, fun fuel => runLoop_mytest fuel 0 0⟩
  · intro fuel hf
    have := runLoop_counting Example.anymals 200000000 (fun _ => rfl) fuel 0 0
      (by decide) (by simpa using hf)
    simpa using this
  · intro fuel hf
    have := runLoop_counting Example.multi_scene_environment 80000 (fun _ => rfl) fuel 0 0
      (by decide) (by simpa using hf)
    simpa using this
  · intro fuel hf
    have h : ∀ p, (∀ i, loopCondition p i = decide (i < 2000000)) →
        runLoop p fuel 0 0 = some 2000000 := by
      intro p hp
      have := runLoop_counting p 2000000 hp fuel 0 0 (by decide) (by simpa using hf)
      simpa using this
    exact ⟨h _ (fun _ => rfl), h _ (fun _ => rfl), h _ (fun _ => rfl), h _ (fun _ => rfl),
      h _ (fun _ => rfl), h _ (fun _ => rfl)⟩

/-- Witness of C14 (amended): unrolled 80000 times, the loop of
multi_scene_environment.cpp has reached `killServer` after 80000 engine steps. -/
theorem simulation_loops_run_fixed_counts_witness :
    (80000 : Nat) ≤ 80000 ∧
    runLoop Example.multi_scene_environment 80000 0 0 = some 80000 :=
  ⟨le_refl _, simulation_loops_run_fixed_counts.2.1 80000 (le_refl _)⟩

end Programs

/-! # Scene switches in both scene managers -/

namespace Scenes

open Raisim

/-- C16: in both scene managers, for every reachable state and every scene id in
`0 .. 3`, `switchToScene` calls `removeObject` once for each handle of the list of the
scene that was current, in list order, and empties that list; only then it creates the
objects of the new scene; afterwards no handle of the old scene is left in the world or
in any scene list. -/
theorem switchToScene_removes_old_scene :
    (∀ (s : MultiScene.SceneManager) (sceneId : Int), MultiScene.Reachable s →
      0 ≤ sceneId → sceneId < 4 →
      (MultiScene.clearCurrentScene s).world_.calls = s.world_.calls ++
          (s.scenes_.getD (ScatterSampler.toSizeT s.currentScene_) []).map
            WorldCall.remove ∧
      (∀ i, (MultiScene.clearCurrentScene s).scenes_.getD i [] = []) ∧
      MultiScene.switchToScene s sceneId = MultiScene.createScene sceneId
          { MultiScene.clearCurrentScene s with currentScene_ := sceneId } ∧
      (∃ created, (MultiScene.switchToScene s sceneId).world_.calls = s.world_.calls ++
          (s.scenes_.getD (ScatterSampler.toSizeT s.currentScene_) []).map
            WorldCall.remove ++ created ∧
        ∀ c ∈ created, ∃ kind handle, c = WorldCall.add kind handle) ∧
      (∀ h ∈ s.scenes_.getD (ScatterSampler.toSizeT s.currentScene_) [],
        h ∉ (MultiScene.switchToScene s sceneId).world_.handles ∧
        ∀ l ∈ (MultiScene.switchToScene s sceneId).scenes_, h ∉ l)) ∧
    (∀ (K : Type) [LinearOrderedField K] (m : ScatterSampler.CMath K)
      (getHeight : Nat → K → K → K) (s : MyTest.SceneManager K) (sceneId : Int),
      MyTest.Reachable m getHeight s → 0 ≤ sceneId → sceneId < 4 →
      (MyTest.clearCurrentScene s).world_.calls = s.world_.calls ++
          (s.scenes_.getD (ScatterSampler.toSizeT s.currentScene_) []).map
            WorldCall.remove ∧
      (∀ i, (MyTest.clearCurrentScene s).scenes_.getD i [] = []) ∧
      MyTest.switchToScene s sceneId = MyTest.createScene sceneId
          { MyTest.clearCurrentScene s with currentScene_ := sceneId } ∧
      (∃ created, (MyTest.switchToScene s sceneId).world_.calls = s.world_.calls ++
          (s.scenes_.getD (ScatterSampler.toSizeT s.currentScene_) []).map
            WorldCall.remove ++ created ∧
        ∀ c ∈ created, ∃ kind handle, c = WorldCall.add kind handle) ∧
      (∀ h ∈ s.scenes_.getD (ScatterSampler.toSizeT s.currentScene_) [],
        h ∉ (MyTest.switchToScene s sceneId).world_.handles ∧
        ∀ l ∈ (MyTest.switchToScene s sceneId).scenes_, h ∉ l)) :=
  ⟨fun s sceneId hr h0 h4 =>
      MultiScene.switchToScene_removes s sceneId (MultiScene.reachable_inv s hr) h0 h4,
    fun _ _ m getHeight s sceneId hr h0 h4 =>
      MyTest.switchToScene_removes_mytest s sceneId (MyTest.reachable_inv_mytest m getHeight s hr) h0 h4⟩

theorem multiScene_mainInit_reachable : MultiScene.Reachable MultiScene.mainInit :=
  MultiScene.Reachable.switch _ 0
    (MultiScene.Reachable.worldAdd _ ObjectKind.articulatedSystem
      (MultiScene.Reachable.construct World.empty))

/-- Witness of C16: the states in which the two `main` programs enter their simulation
loops are reachable, and a switch to scene `1` leaves none of their scene-0 handles in
the world. -/
theorem switchToScene_removes_old_scene_witness :
    MultiScene.Reachable MultiScene.mainInit ∧ (0 : Int) ≤ 1 ∧ (1 : Int) < 4 ∧
    (∀ h ∈ MultiScene.mainInit.scenes_.getD
        (ScatterSampler.toSizeT MultiScene.mainInit.currentScene_) [],
      h ∉ (MultiScene.switchToScene MultiScene.mainInit 1).world_.handles) ∧
    MyTest.Reachable
      ({ hypot := fun a b => Real.sqrt (a * a + b * b), cos := Real.cos, sin := Real.sin } :
      ScatterSampler.CMath ℝ)
      (fun _ _ _ => (0 : ℝ))
      (MyTest.mainInit
      ({ hypot := fun a b => Real.sqrt (a * a + b * b), cos := Real.cos, sin := Real.sin } :
      ScatterSampler.CMath ℝ)
      (fun _ _ _ => (0 : ℝ)) (fun i : Nat => ((0 : ℝ), if i = 0 then (0 : ℝ) else 3)) none none (0, 0, 0) (0, 0, 0, 0) (0.7071, 0, 0, 0.7071)).mgr ∧
    (∀ h ∈ (MyTest.mainInit
      ({ hypot := fun a b => Real.sqrt (a * a + b * b), cos := Real.cos, sin := Real.sin } :
      ScatterSampler.CMath ℝ)
      (fun _ _ _ => (0 : ℝ)) (fun i : Nat => ((0 : ℝ), if i = 0 then (0 : ℝ) else 3)) none none (0, 0, 0) (0, 0, 0, 0) (0.7071, 0, 0, 0.7071)).mgr.scenes_.getD
        (ScatterSampler.toSizeT (MyTest.mainInit
      ({ hypot := fun a b => Real.sqrt (a * a + b * b), cos := Real.cos, sin := Real.sin } :
      ScatterSampler.CMath ℝ)
      (fun _ _ _ => (0 : ℝ)) (fun i : Nat => ((0 : ℝ), if i = 0 then (0 : ℝ) else 3)) none none (0, 0, 0) (0, 0, 0, 0) (0.7071, 0, 0, 0.7071)).mgr.currentScene_) [],
      h ∉ (MyTest.switchToScene (MyTest.mainInit
      ({ hypot := fun a b => Real.sqrt (a * a + b * b), cos := Real.cos, sin := Real.sin } :
      ScatterSampler.CMath ℝ)
      (fun _ _ _ => (0 : ℝ)) (fun i : Nat => ((0 : ℝ), if i = 0 then (0 : ℝ) else 3)) none none (0, 0, 0) (0, 0, 0, 0) (0.7071, 0, 0, 0.7071)).mgr 1).world_.handles) := by
  have hr1 := multiScene_mainInit_reachable
  have hr2 := MyTest.mainInit_reachable
    ({ hypot := fun a b => Real.sqrt (a * a + b * b), cos := Real.cos, sin := Real.sin } :
      ScatterSampler.CMath ℝ)
    (fun _ _ _ => (0 : ℝ)) (fun i : Nat => ((0 : ℝ), if i = 0 then (0 : ℝ) else 3)) none none (0, 0, 0) (0, 0, 0, 0) (0.7071, 0, 0, 0.7071)
  refine ⟨hr1, by decide, by decide, ?_, hr2, ?_⟩
  · intro h hh
    exact ((switchToScene_removes_old_scene.1 _ 1 hr1 (by decide)
      (by decide)).2.2.2.2 h hh).1
  · intro h hh
    exact ((switchToScene_removes_old_scene.2 ℝ _ _ _ 1 hr2 (by decide)
      (by decide)).2.2.2.2 h hh).1

end Scenes

/-! # The zones and the position display of `multi_zone_environment.cpp`: claims -/

namespace MultiZone

/-- C21: the zone classification is total and matches the printed layout: for all `x`
and `y` the zone is Mountain iff `x < 0` and `y < 0`, Urban iff `x ≥ 0` and `y < 0`,
Desert iff `x < 0` and `y ≥ 0`, Ice iff `x ≥ 0` and `y ≥ 0`; one of the four cases holds
and the zone is never Unknown; a point of the printed square of a zone that is not on a
border shared with another square is classified as that zone, and a point of the whole
area `[-100, 100] x [-100, 100]` lies in the printed square of its zone; and the
footprints of the four zone terrains are the printed squares. -/
theorem classify_matches_layout {K : Type} [LinearOrderedField K] (x y : K) :
    (classify x y = Zone.mountain ↔ x < 0 ∧ y < 0) ∧
    (classify x y = Zone.urban ↔ x ≥ 0 ∧ y < 0) ∧
    (classify x y = Zone.desert ↔ x < 0 ∧ y ≥ 0) ∧
    (classify x y = Zone.ice ↔ x ≥ 0 ∧ y ≥ 0) ∧
    ((x < 0 ∧ y < 0) ∨ (x ≥ 0 ∧ y < 0) ∨ (x < 0 ∧ y ≥ 0) ∨ (x ≥ 0 ∧ y ≥ 0)) ∧
    classify x y ≠ Zone.unknown ∧
    (∀ z : Zone, z ≠ Zone.unknown → (printedLayout z : Square K).contains x y →
      x ≠ 0 → y ≠ 0 → classify x y = z) ∧
    (-100 ≤ x → x ≤ 100 → -100 ≤ y → y ≤ 100 →
      (printedLayout (classify x y) : Square K).contains x y) ∧
    (zoneTerrain Zone.mountain : Terrain K).footprint = printedLayout Zone.mountain ∧
    (zoneTerrain Zone.urban : Terrain K).footprint = printedLayout Zone.urban ∧
    (zoneTerrain Zone.desert : Terrain K).footprint = printedLayout Zone.desert ∧
    (zoneTerrain Zone.ice : Terrain K).footprint = printedLayout Zone.ice := by
  have hfoot : ∀ z : Zone, z ≠ Zone.unknown →
      (zoneTerrain z : Terrain K).footprint = printedLayout z := by
    intro z hz
    cases z with
    | unknown => exact absurd rfl hz
    | mountain => simp only [zoneTerrain, Terrain.footprint, printedLayout]; norm_num
    | urban => simp only [zoneTerrain, Terrain.footprint, printedLayout]; norm_num
    | desert => simp only [zoneTerrain, Terrain.footprint, printedLayout]; norm_num
    | ice => simp only [zoneTerrain, Terrain.footprint, printedLayout]; norm_num
  refine ⟨?_, ?_, ?_, ?_, ?_, ?_, ?_, ?_, hfoot _ (by decide), hfoot _ (by decide),
    hfoot _ (by decide), hfoot _ (by decide)⟩
  · by_cases hx : x < 0 <;> by_cases hy : y < 0 <;>
      simp [classify, hx, hy, not_lt.mp, le_of_lt]
  · by_cases hx : x < 0 <;> by_cases hy : y < 0 <;>
      simp [classify, hx, hy, not_lt.mp, le_of_lt]
  · by_cases hx : x < 0 <;> by_cases hy : y < 0 <;>
      simp [classify, hx, hy, not_lt.mp, le_of_lt]
  · by_cases hx : x < 0 <;> by_cases hy : y < 0 <;>
      simp [classify, hx, hy, not_lt.mp, le_of_lt]
  · by_cases hx : x < 0 <;> by_cases hy : y < 0 <;>
      simp [hx, hy, not_lt.mp, le_of_lt]
  · by_cases hx : x < 0 <;> by_cases hy : y < 0 <;>
      simp [classify, hx, hy, not_lt.mp, le_of_lt]
  · intro z hz hc hx0 hy0
    obtain ⟨c1, c2, c3, c4⟩ := hc
    cases z with
    | unknown => exact absurd rfl hz
    | mountain =>
      simp only [printedLayout] at c2 c4
      have hx : x < 0 := lt_of_le_of_ne c2 hx0
      have hy : y < 0 := lt_of_le_of_ne c4 hy0
      simp [classify, hx, hy]
    | urban =>
      simp only [printedLayout] at c1 c4
      have hx : ¬ x < 0 := not_lt.mpr c1
      have hy : y < 0 := lt_of_le_of_ne c4 hy0
      simp [classify, hx, hy, c1]
    | desert =>
      simp only [printedLayout] at c2 c3
      have hx : x < 0 := lt_of_le_of_ne c2 hx0
      have hy : ¬ y < 0 := not_lt.mpr c3
      simp [classify, hx, hy, c3]
    | ice =>
      simp only [printedLayout] at c1 c3
      have hx : ¬ x < 0 := not_lt.mpr c1
      have hy : ¬ y < 0 := not_lt.mpr c3
      simp [classify, hx, hy, c1, c3]
  · intro a1 a2 a3 a4
    by_cases hx : x < 0 <;> by_cases hy : y < 0
    · have hz : classify x y = Zone.mountain := by simp [classify, hx, hy]
      rw [hz]
      simp only [Square.contains, printedLayout]
      exact ⟨a1, le_of_lt hx, a3, le_of_lt hy⟩
    · have hy' : 0 ≤ y := not_lt.mp hy
      have hz : classify x y = Zone.desert := by simp [classify, hx, hy, hy']
      rw [hz]
      simp only [Square.contains, printedLayout]
      exact ⟨a1, le_of_lt hx, hy', a4⟩
    · have hx' : 0 ≤ x := not_lt.mp hx
      have hz : classify x y = Zone.urban := by simp [classify, hx, hy, hx']
      rw [hz]
      simp only [Square.contains, printedLayout]
      exact ⟨hx', a2, a3, le_of_lt hy⟩
    · have hx' : 0 ≤ x := not_lt.mp hx
      have hy' : 0 ≤ y := not_lt.mp hy
      have hz : classify x y = Zone.ice := by simp [classify, hx, hy, hx', hy']
      rw [hz]
      simp only [Square.contains, printedLayout]
      exact ⟨hx', a2, hy', a4⟩

/-- The line is printed exactly at the multiples of `5000`. -/
theorem printsAt_iff (i : Int) (h0 : 0 ≤ i) : printsAt i = true ↔ i % 5000 = 0 := by
  unfold printsAt
  rw [Int.tmod_eq_emod h0 (by decide), Int.tmod_eq_emod h0 (by decide)]
  by_cases h1 : i % 1000 = 0 <;> by_cases h5 : i % 5000 = 0 <;> simp [h1, h5]
  omega

/-- C22 (failing input): at the loop index `1000`, a multiple of the announced period
`1000`, the line is not printed; it is printed at `0` and `5000`. -/
theorem printsAt_one_thousand :
    (0 : Int) ≤ 1000 ∧ (1000 : Int) ≤ 1999999 ∧ (1000 : Int) % announcedPeriod = 0 ∧
    printsAt 1000 = false ∧ printsAt 0 = true ∧ printsAt 5000 = true := by
  decide

end MultiZone

/-! # The invariant and the rejected switches in both scene managers -/

namespace Scenes

open Raisim

theorem sceneInv_unfolded (w : World) (sc : List (List Nat)) (cur : Int)
    (h : SceneInv w sc cur) :
    0 ≤ cur ∧ cur < 4 ∧ sc.length = 4 ∧ ∀ i : Nat, (i : Int) ≠ cur → sc.getD i [] = [] := by
  obtain ⟨a1, a2, a3, a4, -⟩ := h
  refine ⟨a2, a3, a1, fun i hi => a4 i ?_⟩
  rw [toSizeT_of_scene cur a2 a3]
  omega

/-- C23: in both scene managers the constructed state has four empty lists and
`currentScene_ = 0`, and in every state reached from it by `switchToScene` calls with
arbitrary `int` arguments (and by the other members and by object creations and
removals of other code) `currentScene_` is in `0 .. 3`, `scenes_` has exactly four
lists, and every list other than `scenes_[currentScene_]` is empty. -/
theorem reachable_scene_invariant :
    (∀ w : World, (MultiScene.SceneManager.new w).scenes_ = [[], [], [], []] ∧
      (MultiScene.SceneManager.new w).currentScene_ = 0) ∧
    (∀ s : MultiScene.SceneManager, MultiScene.Reachable s →
      0 ≤ s.currentScene_ ∧ s.currentScene_ < 4 ∧ s.scenes_.length = 4 ∧
      ∀ i : Nat, (i : Int) ≠ s.currentScene_ → s.scenes_.getD i [] = []) ∧
    (∀ (K : Type) [LinearOrderedField K] (m : ScatterSampler.CMath K)
      (getHeight : Nat → K → K → K) (s : MyTest.SceneManager K),
      MyTest.Reachable m getHeight s →
      0 ≤ s.currentScene_ ∧ s.currentScene_ < 4 ∧ s.scenes_.length = 4 ∧
      ∀ i : Nat, (i : Int) ≠ s.currentScene_ → s.scenes_.getD i [] = []) ∧
    (∀ (K : Type) (w : World) (heightMap0 robot0 : Option Nat) (position0 : K × K × K)
      (orientation0 : K × K × K × K),
      (MyTest.SceneManager.new w heightMap0 robot0 position0 orientation0).scenes_
        = [[], [], [], []] ∧
      (MyTest.SceneManager.new w heightMap0 robot0 position0 orientation0).currentScene_
        = 0) :=
  ⟨fun _ => ⟨rfl, rfl⟩,
    fun s hr => sceneInv_unfolded _ _ _ (MultiScene.reachable_inv s hr),
    fun _ _ m getHeight s hr =>
      sceneInv_unfolded _ _ _ (MyTest.reachable_inv_mytest m getHeight s hr),
    fun _ _ _ _ _ _ => ⟨rfl, rfl⟩⟩

/-- Witness of C23: after `switchToScene(2)` and `switchToScene(99)` from the loop entry
of multi_scene_environment.cpp, and after `switchToScene(-3)` from the loop entry of
mytest.cpp, the invariant holds. -/
theorem reachable_scene_invariant_witness :
    MultiScene.Reachable
      (MultiScene.switchToScene (MultiScene.switchToScene MultiScene.mainInit 2) 99) ∧
    (MultiScene.switchToScene (MultiScene.switchToScene MultiScene.mainInit 2)
      99).scenes_.length = 4 ∧
    MyTest.Reachable
      ({ hypot := fun a b => Real.sqrt (a * a + b * b), cos := Real.cos, sin := Real.sin } :
      ScatterSampler.CMath ℝ)
      (fun _ _ _ => (0 : ℝ))
      (MyTest.switchToScene (MyTest.mainInit
      ({ hypot := fun a b => Real.sqrt (a * a + b * b), cos := Real.cos, sin := Real.sin } :
      ScatterSampler.CMath ℝ)
      (fun _ _ _ => (0 : ℝ)) (fun i : Nat => ((0 : ℝ), if i = 0 then (0 : ℝ) else 3)) none none (0, 0, 0) (0, 0, 0, 0) (0.7071, 0, 0, 0.7071)).mgr (-3)) ∧
    (MyTest.switchToScene (MyTest.mainInit
      ({ hypot := fun a b => Real.sqrt (a * a + b * b), cos := Real.cos, sin := Real.sin } :
      ScatterSampler.CMath ℝ)
      (fun _ _ _ => (0 : ℝ)) (fun i : Nat => ((0 : ℝ), if i = 0 then (0 : ℝ) else 3)) none none (0, 0, 0) (0, 0, 0, 0) (0.7071, 0, 0, 0.7071)).mgr (-3)).scenes_.length = 4 := by
  have hr1 : MultiScene.Reachable
      (MultiScene.switchToScene (MultiScene.switchToScene MultiScene.mainInit 2) 99) :=
    MultiScene.Reachable.switch _ 99
      (MultiScene.Reachable.switch _ 2 multiScene_mainInit_reachable)
  have hr2 := MyTest.Reachable.switch _ (-3) (MyTest.mainInit_reachable
    ({ hypot := fun a b => Real.sqrt (a * a + b * b), cos := Real.cos, sin := Real.sin } :
      ScatterSampler.CMath ℝ)
    (fun _ _ _ => (0 : ℝ)) (fun i : Nat => ((0 : ℝ), if i = 0 then (0 : ℝ) else 3)) none none (0, 0, 0) (0, 0, 0, 0) (0.7071, 0, 0, 0.7071))
  exact ⟨hr1, (reachable_scene_invariant.2.1 _ hr1).2.2.1, hr2,
    (reachable_scene_invariant.2.2.1 ℝ _ _ _ hr2).2.2.1⟩

/-- C24: in both scene managers `switchToScene` with an id below `0` or at least `4`
changes nothing: the manager, with `currentScene_` and all scene lists, and the world,
with its objects and its calls (nothing removed, nothing created), are as before. -/
theorem switchToScene_out_of_range :
    (∀ (s : MultiScene.SceneManager) (sceneId : Int), sceneId < 0 ∨ sceneId ≥ 4 →
      MultiScene.switchToScene s sceneId = s ∧
      (MultiScene.switchToScene s sceneId).currentScene_ = s.currentScene_ ∧
      (MultiScene.switchToScene s sceneId).scenes_ = s.scenes_ ∧
      (MultiScene.switchToScene s sceneId).world_.objects = s.world_.objects ∧
      (MultiScene.switchToScene s sceneId).world_.calls = s.world_.calls) ∧
    (∀ (K : Type) (s : MyTest.SceneManager K) (sceneId : Int), sceneId < 0 ∨ sceneId ≥ 4 →
      MyTest.switchToScene s sceneId = s ∧
      (MyTest.switchToScene s sceneId).currentScene_ = s.currentScene_ ∧
      (MyTest.switchToScene s sceneId).scenes_ = s.scenes_ ∧
      (MyTest.switchToScene s sceneId).world_.objects = s.world_.objects ∧
      (MyTest.switchToScene s sceneId).world_.calls = s.world_.calls) := by
  constructor
  · intro s sceneId h
    have e : MultiScene.switchToScene s sceneId = s := by
      unfold MultiScene.switchToScene
      rw [if_pos h]
    rw [e]
    exact ⟨rfl, rfl, rfl, rfl, rfl⟩
  · intro K s sceneId h
    have e : MyTest.switchToScene s sceneId = s := by
      unfold MyTest.switchToScene
      rw [if_pos h]
    rw [e]
    exact ⟨rfl, rfl, rfl, rfl, rfl⟩

/-- Witness of C24: `switchToScene(4)` and `switchToScene(-1)` at the loop entries of
the two programs. -/
theorem switchToScene_out_of_range_witness :
    ((4 : Int) < 0 ∨ (4 : Int) ≥ 4) ∧
    MultiScene.switchToScene MultiScene.mainInit 4 = MultiScene.mainInit ∧
    ((-1 : Int) < 0 ∨ (-1 : Int) ≥ 4) ∧
    MyTest.switchToScene (MyTest.mainInit
      ({ hypot := fun a b => Real.sqrt (a * a + b * b), cos := Real.cos, sin := Real.sin } :
      ScatterSampler.CMath ℝ)
      (fun _ _ _ => (0 : ℝ)) (fun i : Nat => ((0 : ℝ), if i = 0 then (0 : ℝ) else 3)) none none (0, 0, 0) (0, 0, 0, 0) (0.7071, 0, 0, 0.7071)).mgr (-1) = (MyTest.mainInit
      ({ hypot := fun a b => Real.sqrt (a * a + b * b), cos := Real.cos, sin := Real.sin } :
      ScatterSampler.CMath ℝ)
      (fun _ _ _ => (0 : ℝ)) (fun i : Nat => ((0 : ℝ), if i = 0 then (0 : ℝ) else 3)) none none (0, 0, 0) (0, 0, 0, 0) (0.7071, 0, 0, 0.7071)).mgr :=
  ⟨by decide, (switchToScene_out_of_range.1 _ 4 (by decide)).1, by decide,
    (switchToScene_out_of_range.2 ℝ _ (-1) (by decide)).1⟩

end Scenes

/-! # The contents of the scenes of `multi_scene_environment.cpp` -/

namespace Raisim

theorem getD_pushBack_self (sc : List (List Nat)) (idx handle : Nat) (h : idx < sc.length) :
    (pushBack sc idx handle).getD idx [] = sc.getD idx [] ++ [handle] :=
  getD_set_self sc idx _ h

theorem length_pushBack (sc : List (List Nat)) (idx handle : Nat) :
    (pushBack sc idx handle).length = sc.length := by
  simp [pushBack]

/-- Pushing a handle and then replacing the list by an extension of the pushed list. -/
theorem set_pushBack (sc : List (List Nat)) (idx handle : Nat) (l : List Nat) :
    (pushBack sc idx handle).set idx l = sc.set idx l := by
  simp [pushBack, List.set_set]

end Raisim

namespace MultiScene

open Raisim

theorem addMany_eq_addKinds (kind : ObjectKind) (idx n : Nat) (s : SceneManager) :
    addMany kind idx n s = addKinds (List.replicate n kind) idx s := by
  induction n generalizing s with
  | zero => rfl
  | succ n ih =>
    rw [addMany, ih, List.replicate_succ]
    rfl

theorem addKinds_append (ks1 ks2 : List ObjectKind) (idx : Nat) (s : SceneManager) :
    addKinds ks2 idx (addKinds ks1 idx s) = addKinds (ks1 ++ ks2) idx s := by
  simp [addKinds, List.foldl_append]

theorem addKinds_cons (k : ObjectKind) (ks : List ObjectKind) (idx : Nat)
    (s : SceneManager) :
    addKinds (k :: ks) idx s = addKinds ks idx (addToScene s k idx) :=
  rfl

theorem addBuildings_eq_addKinds (s : SceneManager) :
    addBuildings s = addKinds (buildingCells.map (fun _ => ObjectKind.box)) 1 s := by
  rfl

/-- Each `create...Scene` member creates the objects of `sceneKinds`, in order, and
pushes their handles to the list of its scene. -/
theorem createScene_eq_addKinds (sceneId : Int) (s : SceneManager) (h0 : 0 ≤ sceneId)
    (h4 : sceneId < 4) :
    createScene sceneId s = addKinds (sceneKinds sceneId) sceneId.toNat s := by
  obtain rfl | rfl | rfl | rfl : sceneId = 0 ∨ sceneId = 1 ∨ sceneId = 2 ∨ sceneId = 3 := by
    omega
  · have e : createScene 0 s = createMountainScene s := by simp [createScene]
    have k : sceneKinds 0 = ObjectKind.heightMap :: List.replicate 10 ObjectKind.sphere := by
      simp [sceneKinds]
    rw [e, k, createMountainScene, addMany_eq_addKinds, addKinds_cons]
    rfl
  · have e : createScene 1 s = createUrbanScene s := by simp [createScene]
    have k : sceneKinds 1 = ObjectKind.ground ::
        (buildingCells.map (fun _ => ObjectKind.box) ++ List.replicate 20 ObjectKind.box) := by
      simp [sceneKinds]
    rw [e, k, createUrbanScene, addMany_eq_addKinds, addBuildings_eq_addKinds,
      addKinds_append, addKinds_cons]
    rfl
  · have e : createScene 2 s = createDesertScene s := by simp [createScene]
    have k : sceneKinds 2 = ObjectKind.heightMap :: List.replicate 15 ObjectKind.cylinder := by
      simp [sceneKinds]
    rw [e, k, createDesertScene, addMany_eq_addKinds, addKinds_cons]
    rfl
  · have e : createScene 3 s = createIceScene s := by simp [createScene]
    have k : sceneKinds 3 = ObjectKind.heightMap :: List.replicate 12 ObjectKind.cylinder := by
      simp [sceneKinds]
    rw [e, k, createIceScene, addMany_eq_addKinds, addKinds_cons]
    rfl

/-- The effect of `addKinds`: the created objects get consecutive fresh handles, which
are appended to `scenes_[idx]` in creation order. -/
theorem addKinds_spec (ks : List ObjectKind) (idx : Nat) (s : SceneManager)
    (hidx : idx < s.scenes_.length) :
    (addKinds ks idx s).world_.objects =
        s.world_.objects ++ (List.range' s.world_.next ks.length).zip ks ∧
      (addKinds ks idx s).world_.next = s.world_.next + ks.length ∧
      (addKinds ks idx s).world_.calls = s.world_.calls ++
        List.zipWith WorldCall.add ks (List.range' s.world_.next ks.length) ∧
      (addKinds ks idx s).scenes_ = s.scenes_.set idx
        (s.scenes_.getD idx [] ++ List.range' s.world_.next ks.length) ∧
      (addKinds ks idx s).currentScene_ = s.currentScene_ := by
  induction ks generalizing s with
  | nil =>
    refine ⟨by simp [addKinds], rfl, by simp [addKinds], ?_, rfl⟩
    simp only [addKinds, List.foldl_nil, List.length_nil, List.range'_zero, List.append_nil]
    apply List.ext_getElem?
    intro i
    by_cases hi : idx = i
    · subst hi
      simp [hidx]
    · simp [hi]
  | cons k rest ih =>
    have hidx1 : idx < (addToScene s k idx).scenes_.length := by
      simp [addToScene, pushBack, hidx]
    obtain ⟨i1, i2, i3, i4, i5⟩ := ih (addToScene s k idx) hidx1
    have e : addKinds (k :: rest) idx s = addKinds rest idx (addToScene s k idx) := rfl
    rw [e]
    refine ⟨?_, ?_, ?_, ?_, ?_⟩
    · rw [i1]
      simp [addToScene, World.add, List.range'_succ]
    · rw [i2]
      simp only [addToScene, World.add, List.length_cons]
      omega
    · rw [i3]
      simp [addToScene, World.add, List.range'_succ]
    · rw [i4]
      have hg : (addToScene s k idx).scenes_.getD idx []
          = s.scenes_.getD idx [] ++ [s.world_.next] :=
        getD_pushBack_self _ _ _ hidx
      rw [hg]
      show (pushBack s.scenes_ idx s.world_.next).set idx _ = _
      rw [set_pushBack]
      simp [addToScene, World.add, List.range'_succ]
    · rw [i5]
      rfl

end MultiScene

namespace MultiScene

open Raisim

theorem mem_buildingCells (x y : Nat) :
    (x, y) ∈ buildingCells ↔ x < 5 ∧ y < 5 ∧ (x + y) % 2 = 0 := by
  simp only [buildingCells, List.mem_flatMap, List.mem_map, List.mem_filter, List.mem_range,
    decide_eq_true_eq, Prod.mk.injEq]
  constructor
  · rintro ⟨a, ha, b, ⟨hb, hab⟩, rfl, rfl⟩
    exact ⟨ha, hb, hab⟩
  · rintro ⟨hx, hy, hxy⟩
    exact ⟨x, hx, y, ⟨hy, hxy⟩, rfl, rfl⟩

/-- C25: in multi_scene_environment.cpp, for every reachable state and every scene id
in `0 .. 3` (the current one included), after `switchToScene(sceneId)` the current scene
is `sceneId` and `scenes_[sceneId]` holds exactly the handles of the objects created for
the scene, in creation order; these are 11 objects for scene 0 (a height map and 10
spheres), 34 for scene 1 (the ground, 13 boxes for the grid cells with `(x + y)` even
and 20 more boxes), 16 for scene 2 (a height map and 15 cylinders) and 13 for scene 3 (a
height map and 12 cylinders). -/
theorem switchToScene_scene_contents (s : SceneManager) (sceneId : Int) (hr : Reachable s)
    (h0 : 0 ≤ sceneId) (h4 : sceneId < 4) :
    getCurrentScene (switchToScene s sceneId) = sceneId ∧
    (switchToScene s sceneId).scenes_.getD sceneId.toNat [] =
      List.range' s.world_.next (sceneKinds sceneId).length ∧
    (switchToScene s sceneId).world_.calls = s.world_.calls ++
      (s.scenes_.getD (ScatterSampler.toSizeT s.currentScene_) []).map WorldCall.remove ++
      List.zipWith WorldCall.add (sceneKinds sceneId)
        (List.range' s.world_.next (sceneKinds sceneId).length) ∧
    (sceneKinds 0 = ObjectKind.heightMap :: List.replicate 10 ObjectKind.sphere ∧
      (sceneKinds 0).length = 11) ∧
    (sceneKinds 1 = ObjectKind.ground ::
        (List.replicate 13 ObjectKind.box ++ List.replicate 20 ObjectKind.box) ∧
      (sceneKinds 1).length = 34 ∧ buildingCells.length = 13 ∧
      ∀ x y, (x, y) ∈ buildingCells ↔ x < 5 ∧ y < 5 ∧ (x + y) % 2 = 0) ∧
    (sceneKinds 2 = ObjectKind.heightMap :: List.replicate 15 ObjectKind.cylinder ∧
      (sceneKinds 2).length = 16) ∧
    (sceneKinds 3 = ObjectKind.heightMap :: List.replicate 12 ObjectKind.cylinder ∧
      (sceneKinds 3).length = 13) := by
  have hinv := reachable_inv s hr
  obtain ⟨c1, c2, c3, -⟩ := clearCurrentScene_spec s hinv
  have hsw := switchToScene_of_valid s sceneId h0 h4
  have hidx : sceneId.toNat <
      ({ clearCurrentScene s with currentScene_ := sceneId } : SceneManager).scenes_.length := by
    show sceneId.toNat < (clearCurrentScene s).scenes_.length
    rw [c2]
    omega
  obtain ⟨-, -, k3, k4, -⟩ := addKinds_spec (sceneKinds sceneId) sceneId.toNat
    { clearCurrentScene s with currentScene_ := sceneId } hidx
  have hnext : (clearCurrentScene s).world_.next = s.world_.next := by
    rw [c1, removeAll_next]
  refine ⟨switchToScene_currentScene s sceneId h0 h4, ?_, ?_, ⟨by decide, by decide⟩,
    ⟨by decide, by decide, by decide, mem_buildingCells⟩, ⟨by decide, by decide⟩,
    ⟨by decide, by decide⟩⟩
  · rw [hsw, createScene_eq_addKinds sceneId _ h0 h4, k4]
    show ((clearCurrentScene s).scenes_.set sceneId.toNat
      ((clearCurrentScene s).scenes_.getD sceneId.toNat [] ++
        List.range' (clearCurrentScene s).world_.next (sceneKinds sceneId).length)).getD
        sceneId.toNat [] = _
    rw [getD_set_self _ _ _ (by rw [c2]; omega), c3, hnext, List.nil_append]
  · rw [hsw, createScene_eq_addKinds sceneId _ h0 h4, k3]
    show (clearCurrentScene s).world_.calls ++
      List.zipWith WorldCall.add (sceneKinds sceneId)
        (List.range' (clearCurrentScene s).world_.next (sceneKinds sceneId).length) = _
    rw [hnext, c1, removeAll_calls]

/-- Witness of C25: a switch to scene `1` at the loop entry of `main` leaves 34 handles
in `scenes_[1]`. -/
theorem switchToScene_scene_contents_witness :
    Reachable mainInit ∧ (0 : Int) ≤ 1 ∧ (1 : Int) < 4 ∧
    getCurrentScene (switchToScene mainInit 1) = 1 ∧
    ((switchToScene mainInit 1).scenes_.getD 1 []).length = 34 := by
  have hr : Reachable mainInit :=
    Reachable.switch _ 0
      (Reachable.worldAdd _ ObjectKind.articulatedSystem (Reachable.construct World.empty))
  have h := switchToScene_scene_contents mainInit 1 hr (by decide) (by decide)
  refine ⟨hr, by decide, by decide, h.1, ?_⟩
  have h2 := h.2.1
  have e : (1 : Int).toNat = 1 := rfl
  rw [e] at h2
  rw [h2, List.length_range']
  exact h.2.2.2.2.1.2.1

end MultiScene

/-! # The obstacles placed by `addObject` of `mytest.cpp` -/

namespace MyTest

open Raisim ScatterSampler

section Obstacles

variable {K : Type} [LinearOrderedField K]

theorem addKindsCurrent_cons (k : ObjectKind) (ks : List ObjectKind) (s : SceneManager K) :
    addKindsCurrent (k :: ks) s = addKindsCurrent ks (addToCurrent s k) :=
  rfl

/-- The effect of `addKindsCurrent`: the created objects get consecutive fresh handles,
which are appended to `scenes_[currentScene_]` in creation order. -/
theorem addKindsCurrent_spec (ks : List ObjectKind) (s : SceneManager K)
    (hidx : toSizeT s.currentScene_ < s.scenes_.length) :
    (addKindsCurrent ks s).world_.next = s.world_.next + ks.length ∧
      (addKindsCurrent ks s).world_.calls = s.world_.calls ++
        List.zipWith WorldCall.add ks (List.range' s.world_.next ks.length) ∧
      (addKindsCurrent ks s).scenes_ = s.scenes_.set (toSizeT s.currentScene_)
        (s.scenes_.getD (toSizeT s.currentScene_) [] ++
          List.range' s.world_.next ks.length) ∧
      (addKindsCurrent ks s).currentScene_ = s.currentScene_ := by
  induction ks generalizing s with
  | nil =>
    refine ⟨rfl, by simp [addKindsCurrent], ?_, rfl⟩
    simp only [addKindsCurrent, List.foldl_nil, List.length_nil, List.range'_zero,
      List.append_nil]
    apply List.ext_getElem?
    intro i
    by_cases hi : toSizeT s.currentScene_ = i
    · subst hi
      simp [hidx]
    · simp [hi]
  | cons k rest ih =>
    have hidx1 : toSizeT (addToCurrent s k).currentScene_ <
        (addToCurrent s k).scenes_.length := by
      simp [addToCurrent, pushBack, hidx]
    obtain ⟨i2, i3, i4, i5⟩ := ih (addToCurrent s k) hidx1
    rw [addKindsCurrent_cons]
    refine ⟨?_, ?_, ?_, ?_⟩
    · rw [i2]
      simp only [addToCurrent, World.add, List.length_cons]
      omega
    · rw [i3]
      simp [addToCurrent, World.add, List.range'_succ]
    · rw [i4]
      have hg : (addToCurrent s k).scenes_.getD (toSizeT s.currentScene_) []
          = s.scenes_.getD (toSizeT s.currentScene_) [] ++ [s.world_.next] :=
        getD_pushBack_self _ _ _ hidx
      show (pushBack s.scenes_ (toSizeT s.currentScene_) s.world_.next).set
        (toSizeT s.currentScene_)
        ((addToCurrent s k).scenes_.getD (toSizeT s.currentScene_) [] ++ _) = _
      rw [hg, set_pushBack]
      simp [addToCurrent, World.add, List.range'_succ]
    · rw [i5]
      rfl

/-- The obstacle loop creates one mesh for each placement, in order. -/
theorem obstacleLoop_eq_addKindsCurrent (m : CMath K) (c : Point2D K)
    (pts : List (Point2D K)) (idx : Int) (s : SceneManager K) :
    obstacleLoop m c pts idx s =
      addKindsCurrent ((obstaclePlacements m c pts idx).map (fun q => ObjectKind.mesh q.2))
        s := by
  induction pts generalizing idx s with
  | nil => rfl
  | cons p rest ih =>
    simp only [obstacleLoop, obstaclePlacements]
    split
    · exact ih idx s
    · rw [List.map_cons, addKindsCurrent_cons]
      exact ih (idx + 1) _

/-- The placed points are the points at distance at least `2` from the centre, in the
order of the point list. -/
theorem obstaclePlacements_points (m : CMath K) (c : Point2D K) (pts : List (Point2D K))
    (idx : Int) :
    (obstaclePlacements m c pts idx).map Prod.fst =
      pts.filter (fun p => decide (2 ≤ distance m p c)) := by
  induction pts generalizing idx with
  | nil => rfl
  | cons p rest ih =>
    simp only [obstaclePlacements]
    by_cases h : distance m p c < 2
    · rw [if_pos h, ih, List.filter_cons_of_neg (by simpa using h)]
    · rw [if_neg h, List.map_cons, ih, List.filter_cons_of_pos (by simpa using h)]

/-- The `k`-th placement uses the mesh file chosen for `idx + k`. -/
theorem obstaclePlacements_files (m : CMath K) (c : Point2D K) (pts : List (Point2D K))
    (idx : Int) :
    (obstaclePlacements m c pts idx).map Prod.snd =
      (List.range (obstaclePlacements m c pts idx).length).map
        (fun k : Nat => meshFile (idx + (k : Int))) := by
  induction pts generalizing idx with
  | nil => rfl
  | cons p rest ih =>
    simp only [obstaclePlacements]
    by_cases h : distance m p c < 2
    · rw [if_pos h]
      exact ih idx
    · rw [if_neg h, List.map_cons, List.length_cons, List.range_succ_eq_map, List.map_cons,
        List.map_map, ih (idx + 1)]
      congr 1
      · simp
      · apply List.map_congr_left
        intro k _
        simp only [Function.comp, Nat.succ_eq_add_one, Nat.cast_add, Nat.cast_one]
        congr 1
        ring

theorem meshFile_natCast (k : Nat) :
    meshFile (k : Int) =
      if k % 3 = 0 then MeshFile.tree else if k % 3 = 1 then MeshFile.rock
      else MeshFile.stump := by
  unfold meshFile
  rw [Int.tmod_eq_emod (Int.ofNat_nonneg k) (by decide)]
  have h0 : ((k : Int) % 3 = 0) ↔ k % 3 = 0 := by omega
  have h1 : ((k : Int) % 3 = 1) ↔ k % 3 = 1 := by omega
  simp only [h0, h1]

end Obstacles

end MyTest

namespace MyTest

open Raisim ScatterSampler

/-- C26: in `addObject` of mytest.cpp, in every reachable state and for every list of
points returned by the sampler: the points that get an obstacle mesh are exactly the
points at distance at least `2` from the obstacle-area centre, in the order of the point
list; the `k`-th placed mesh (from 0) is the tree for `k % 3 = 0`, the rock for
`k % 3 = 1` and the stump for `k % 3 = 2`; the world receives the three axis boxes, the
marker sphere and then the meshes; and `scenes_[currentScene_]` is extended by exactly
`placed + 4` handles: the marker sphere, the meshes in order, then the three axis boxes,
while the other scene lists stay as they are. -/
theorem addObject_places_obstacles {K : Type} [LinearOrderedField K] (m : CMath K)
    (getHeight : Nat → K → K → K) (draws : Nat → K × K) (s : SceneManager K)
    (hr : Reachable m getHeight s) :
    (obstaclePlacements m { x := s.robotPosition_.1, y := s.robotPosition_.2.1 }
        (obstaclePoints m draws s) 0).map Prod.fst =
      (obstaclePoints m draws s).filter (fun p =>
        decide (2 ≤ distance m p { x := s.robotPosition_.1, y := s.robotPosition_.2.1 })) ∧
    (∀ p ∈ obstaclePoints m draws s,
      (p ∈ (obstaclePlacements m { x := s.robotPosition_.1, y := s.robotPosition_.2.1 }
          (obstaclePoints m draws s) 0).map Prod.fst ↔
        2 ≤ distance m p { x := s.robotPosition_.1, y := s.robotPosition_.2.1 })) ∧
    (obstaclePlacements m { x := s.robotPosition_.1, y := s.robotPosition_.2.1 }
        (obstaclePoints m draws s) 0).map Prod.snd =
      (List.range (obstaclePlacements m
          { x := s.robotPosition_.1, y := s.robotPosition_.2.1 }
          (obstaclePoints m draws s) 0).length).map
        (fun k => if k % 3 = 0 then MeshFile.tree else if k % 3 = 1 then MeshFile.rock
          else MeshFile.stump) ∧
    (addObject m draws s).1.world_.calls = s.world_.calls ++
      [WorldCall.add ObjectKind.box s.world_.next,
        WorldCall.add ObjectKind.box (s.world_.next + 1),
        WorldCall.add ObjectKind.box (s.world_.next + 2),
        WorldCall.add ObjectKind.sphere (s.world_.next + 3)] ++
      List.zipWith WorldCall.add
        ((obstaclePlacements m { x := s.robotPosition_.1, y := s.robotPosition_.2.1 }
          (obstaclePoints m draws s) 0).map (fun q => ObjectKind.mesh q.2))
        (List.range' (s.world_.next + 4)
          (obstaclePlacements m { x := s.robotPosition_.1, y := s.robotPosition_.2.1 }
            (obstaclePoints m draws s) 0).length) ∧
    (addObject m draws s).1.scenes_.getD (toSizeT s.currentScene_) [] =
      s.scenes_.getD (toSizeT s.currentScene_) [] ++
        ([s.world_.next + 3] ++
          List.range' (s.world_.next + 4)
            (obstaclePlacements m { x := s.robotPosition_.1, y := s.robotPosition_.2.1 }
              (obstaclePoints m draws s) 0).length ++
          [s.world_.next, s.world_.next + 1, s.world_.next + 2]) ∧
    ([s.world_.next + 3] ++
        List.range' (s.world_.next + 4)
          (obstaclePlacements m { x := s.robotPosition_.1, y := s.robotPosition_.2.1 }
            (obstaclePoints m draws s) 0).length ++
        [s.world_.next, s.world_.next + 1, s.world_.next + 2]).length =
      (obstaclePlacements m { x := s.robotPosition_.1, y := s.robotPosition_.2.1 }
        (obstaclePoints m draws s) 0).length + 4 ∧
    (∀ i, i ≠ toSizeT s.currentScene_ →
      (addObject m draws s).1.scenes_.getD i [] = s.scenes_.getD i []) := by
  have hinv := reachable_inv_mytest m getHeight s hr
  have hlen : s.scenes_.length = 4 := hinv.1
  have hidx : toSizeT s.currentScene_ < s.scenes_.length := by
    rw [toSizeT_of_scene _ hinv.2.1 hinv.2.2.1, hlen]
    have := hinv.2.1
    have := hinv.2.2.1
    omega
  have hpts := obstaclePlacements_points m { x := s.robotPosition_.1, y := s.robotPosition_.2.1 }
    (obstaclePoints m draws s) 0
  have hfiles := obstaclePlacements_files m
    { x := s.robotPosition_.1, y := s.robotPosition_.2.1 } (obstaclePoints m draws s) 0
  have hMidx : toSizeT (addMarkers s).currentScene_ < (addMarkers s).scenes_.length := by
    show toSizeT s.currentScene_ < (pushBack s.scenes_ _ _).length
    rw [length_pushBack]
    exact hidx
  obtain ⟨-, k3, k4, k5⟩ := addKindsCurrent_spec
    ((obstaclePlacements m { x := s.robotPosition_.1, y := s.robotPosition_.2.1 }
      (obstaclePoints m draws s) 0).map (fun q => ObjectKind.mesh q.2)) (addMarkers s) hMidx
  rw [List.length_map] at k3 k4
  have hMnext : (addMarkers s).world_.next = s.world_.next + 4 := rfl
  have hMcalls : (addMarkers s).world_.calls = s.world_.calls ++
      [WorldCall.add ObjectKind.box s.world_.next,
        WorldCall.add ObjectKind.box (s.world_.next + 1),
        WorldCall.add ObjectKind.box (s.world_.next + 2),
        WorldCall.add ObjectKind.sphere (s.world_.next + 3)] := by
    simp [addMarkers, World.add]
  have hMscenes : (addMarkers s).scenes_ =
      pushBack s.scenes_ (toSizeT s.currentScene_) (s.world_.next + 3) := rfl
  have hMcur : (addMarkers s).currentScene_ = s.currentScene_ := rfl
  rw [hMnext, hMcalls] at k3
  rw [hMnext, hMscenes, hMcur, getD_pushBack_self _ _ _ hidx, set_pushBack] at k4
  rw [hMcur] at k5
  have hscenes : (addObject m draws s).1.scenes_ =
      pushBack (pushBack (pushBack
        (s.scenes_.set (toSizeT s.currentScene_)
          (s.scenes_.getD (toSizeT s.currentScene_) [] ++ [s.world_.next + 3] ++
            List.range' (s.world_.next + 4)
              (obstaclePlacements m { x := s.robotPosition_.1, y := s.robotPosition_.2.1 }
                (obstaclePoints m draws s) 0).length))
        (toSizeT s.currentScene_) s.world_.next)
        (toSizeT s.currentScene_) (s.world_.next + 1))
        (toSizeT s.currentScene_) (s.world_.next + 2) := by
    simp only [addObject, generateScatteredPointsOn]
    rw [obstacleLoop_eq_addKindsCurrent, k4, k5]
    rfl
  refine ⟨hpts, ?_, ?_, ?_, ?_, ?_, ?_⟩
  · intro p hp
    rw [hpts, List.mem_filter]
    simp [hp]
  · rw [hfiles]
    apply List.map_congr_left
    intro k _
    rw [Int.zero_add, meshFile_natCast]
  · have hw : (addObject m draws s).1.world_ =
        (addKindsCurrent
          ((obstaclePlacements m { x := s.robotPosition_.1, y := s.robotPosition_.2.1 }
            (obstaclePoints m draws s) 0).map (fun q => ObjectKind.mesh q.2))
          (addMarkers s)).world_ := by
      simp only [addObject, generateScatteredPointsOn]
      rw [obstacleLoop_eq_addKindsCurrent]
    rw [hw, k3]
  · rw [hscenes]
    have l1 : (s.scenes_.set (toSizeT s.currentScene_)
        (s.scenes_.getD (toSizeT s.currentScene_) [] ++ [s.world_.next + 3] ++
          List.range' (s.world_.next + 4)
            (obstaclePlacements m { x := s.robotPosition_.1, y := s.robotPosition_.2.1 }
              (obstaclePoints m draws s) 0).length)).length = s.scenes_.length := by
      simp
    rw [getD_pushBack_self _ _ _ (by rw [length_pushBack, length_pushBack, l1]; exact hidx),
      getD_pushBack_self _ _ _ (by rw [length_pushBack, l1]; exact hidx),
      getD_pushBack_self _ _ _ (by rw [l1]; exact hidx),
      getD_set_self _ _ _ hidx]
    simp
  · simp [List.length_range']
  · intro i hi
    rw [hscenes]
    simp only [pushBack]
    rw [getD_set_ne _ _ _ _ (Ne.symm hi), getD_set_ne _ _ _ _ (Ne.symm hi),
      getD_set_ne _ _ _ _ (Ne.symm hi), getD_set_ne _ _ _ _ (Ne.symm hi)]

/-- Witness of C26: the call of `addObject` made by `main` before the simulation loop,
in the state reached after the robot was added and placed. -/
theorem addObject_places_obstacles_witness :
    Reachable
      ({ hypot := fun a b => Real.sqrt (a * a + b * b), cos := Real.cos, sin := Real.sin } :
      CMath ℝ)
      (fun _ _ _ => (0 : ℝ))
      (SceneManager.new World.empty none none ((10 : ℝ), (10 : ℝ), (1 : ℝ))
      ((0 : ℝ), (0 : ℝ), (0 : ℝ), (0 : ℝ))) ∧
    (∀ i, i ≠ toSizeT (SceneManager.new World.empty none none ((10 : ℝ), (10 : ℝ), (1 : ℝ))
      ((0 : ℝ), (0 : ℝ), (0 : ℝ), (0 : ℝ))).currentScene_ →
      (addObject
        ({ hypot := fun a b => Real.sqrt (a * a + b * b), cos := Real.cos, sin := Real.sin } :
      CMath ℝ)
        (fun i : Nat => ((0 : ℝ), if i = 0 then (0 : ℝ) else 3))
        (SceneManager.new World.empty none none ((10 : ℝ), (10 : ℝ), (1 : ℝ))
      ((0 : ℝ), (0 : ℝ), (0 : ℝ), (0 : ℝ)))).1.scenes_.getD i [] =
      (SceneManager.new World.empty none none ((10 : ℝ), (10 : ℝ), (1 : ℝ))
      ((0 : ℝ), (0 : ℝ), (0 : ℝ), (0 : ℝ))).scenes_.getD i []) := by
  have hr : Reachable
      ({ hypot := fun a b => Real.sqrt (a * a + b * b), cos := Real.cos, sin := Real.sin } :
      CMath ℝ)
      (fun _ _ _ => (0 : ℝ))
      (SceneManager.new World.empty none none ((10 : ℝ), (10 : ℝ), (1 : ℝ))
      ((0 : ℝ), (0 : ℝ), (0 : ℝ), (0 : ℝ))) :=
    Reachable.construct _ _ _ _ _
  exact ⟨hr, (addObject_places_obstacles _ _ _ _ hr).2.2.2.2.2.2⟩

end MyTest
